import Mathlib

/-!
# WalB driver: administrative commands and the device registry

A shallow embedding of `module/wdev_ioctl.c` (the per-device ioctl commands)
and `module/alldevs.c` (the registry of devices), with theorems about the
log-sequence watermarks, the clear-log command and three-key registration.

Conventions of the embedding.

* `u64`/`u32` values are natural numbers; arithmetic that may wrap is written
  with an explicit `% 2 ^ 64`.
* A C function that mutates `struct walb_dev` returns the new device.
* `BUG()` / a failed `ASSERT` is the result `none`: the function does not return.
* Functions of the driver that are called here but defined in other
  translation units (`walb_sync_super_block`, `resize_disk`, ...) take their
  outcome from a record of type `collaborators`; every such call is appended to
  the device's `calls` log so that the order of calls can be stated.
-/

namespace Walb

/-! ## Error numbers -/

/-- Linux `EPERM`. -/
def EPERM : Int := 1

/-- Linux `ENOMEM`. -/
def ENOMEM : Int := 12

/-- Linux `EFAULT`. -/
def EFAULT : Int := 14

/-! ## Data model -/

/-- The `struct lsid_set` of a device (`wdev->lsids`).  The member `completed`
exists only in builds with `WALB_FAST_ALGORITHM`; in other builds the field of
this record is never read or written by the commands. -/
structure lsid_set where
  latest : Nat
  flush : Nat
  completed : Nat
  permanent : Nat
  written : Nat
  prev_written : Nat
  oldest : Nat
deriving DecidableEq, Repr

/-- A snapshot record (`struct walb_snapshot_record`), as used through the
ioctl interface: `name`, `lsid`, `timestamp`, `snapshot_id`. -/
structure walb_snapshot_record where
  lsid : Nat
  timestamp : Nat
  snapshot_id : Nat
  name : List Nat
deriving DecidableEq, Repr

/-- The members of the super sector image (`struct walb_super_sector`) that the
commands and the registry touch. -/
structure walb_super_sector where
  uuid : List Nat
  name : List Nat
  ring_buffer_size : Nat
  log_checksum_salt : Nat
deriving DecidableEq, Repr

/-- Calls into other translation units, in the order they are made. -/
inductive call where
  | iocore_freeze
  | iocore_melt
  | stop_checkpointing
  | start_checkpointing
  | walb_sync_super_block
  | resize_disk (size : Nat)
  | iocore_set_readonly
  | invalidate_lsid (lsid : Nat)
  | snapshot_del_range (lsid0 lsid1 : Nat)
  | iocore_clear_log_overflow
  | take_checkpoint
  | cancel_melt_work
  | freeze_if_melted (timeout_sec : Nat)
  | snapshot_add (name : List Nat) (lsid timestamp : Nat)
  | snapshot_del (name : List Nat)
deriving DecidableEq, Repr

/-- Modelled from the spec: the member of `struct checkpoint_data`
(`wdev->cpd`, checkpoint.h) that the interval commands access: the checkpoint
interval in milliseconds. -/
structure checkpoint_data where
  interval : Nat
deriving DecidableEq, Repr

/-- The members of `struct walb_dev` used by the commands below.
`ldev_nr_sects` is `wdev->ldev->bd_part->nr_sects`, `snapd` the records held by
the snapshot catalog, `calls` the log of calls into other translation units,
`cpd` the checkpoint data, `size` and `ddev_size` the recorded sizes of the
device and of its data device, `gd_capacity` the value of
`get_capacity(wdev->gd)` and `ddev_nr_sects` is
`wdev->ddev->bd_part->nr_sects`. -/
structure walb_dev where
  devt : Nat
  lsids : lsid_set
  ldev_size : Nat
  ldev_nr_sects : Nat
  ring_buffer_size : Nat
  log_checksum_salt : Nat
  physical_bs : Nat
  n_snapshots : Nat
  lsuper0 : walb_super_sector
  is_read_only : Bool
  snapd : List walb_snapshot_record
  calls : List call
  cpd : checkpoint_data
  size : Nat
  ddev_size : Nat
  gd_capacity : Nat
  ddev_nr_sects : Nat
deriving DecidableEq, Repr

/-- The members of `struct walb_ctl_data` used for the kernel to user buffer
of a request: its size in bytes and the kernel copy of the buffer (`none` for
`NULL`), seen as an array of snapshot records. -/
structure walb_ctl_data where
  buf_size : Nat
  kbuf : Option (List walb_snapshot_record)
deriving DecidableEq, Repr

/-- The members of `struct walb_ctl` read or written by the commands. -/
structure walb_ctl where
  command : Int
  val_int : Int
  val_u32 : Nat
  val_u64 : Nat
  error : Int
  k2u : walb_ctl_data
deriving DecidableEq, Repr

/-- Position of `WALB_IOCTL_CLEAR_LOG` in the command enumeration of
`include/walb/ioctl.h` (`WALB_IOCTL_DUMMY = 0`). -/
def WALB_IOCTL_CLEAR_LOG : Int := 23

/-- Build-time parameters whose declarations are in headers that are not part
of the translated sources: the `WALB_FAST_ALGORITHM` switch, the constants
`MAX_LSID` and `WALB_DEV_NAME_MAX_LEN`, and the pure layout functions
`addr_pb(pbs, size)` and `get_ring_buffer_offset(pbs, n_snapshots)`. -/
structure build_config where
  WALB_FAST_ALGORITHM : Bool
  MAX_LSID : Nat
  WALB_DEV_NAME_MAX_LEN : Nat
  addr_pb : Nat → Nat → Nat
  get_ring_buffer_offset : Nat → Nat → Nat

/-- Outcomes, during one command, of the functions defined in other
translation units and of the random source: `random_uuid` are the bytes that
`get_random_bytes` delivers for the uuid, `random_salt` the `u32` it delivers
for the checksum salt. -/
structure collaborators where
  walb_check_lsid_valid : Nat → Bool
  sync_super_block_ok : Bool
  resize_disk_ok : Bool
  random_uuid : List Nat
  random_salt : Nat
  invalidate_lsid_ok : Bool
  snapshot_del_range_ok : Bool

/-! ## Collaborators of the ioctl commands -/

/-- Modelled from the spec: `walb_sync_super_block` (super.c) persists the
super sector and reports whether the write succeeded; the outcome is the
parameter `ok`.  The call is logged; the device is otherwise unchanged. -/
def walb_sync_super_block (ok : Bool) (wdev : walb_dev) : Bool × walb_dev :=
  (ok, { wdev with calls := wdev.calls ++ [call.walb_sync_super_block] })

/-- Modelled from the spec: `iocore_set_readonly` (io.c) marks the device
read-only. -/
def iocore_set_readonly (wdev : walb_dev) : walb_dev :=
  { wdev with is_read_only := true, calls := wdev.calls ++ [call.iocore_set_readonly] }

/-- Modelled from the spec: `iocore_freeze` (io.c) stops the admission of write
I/O; only the call is recorded. -/
def iocore_freeze (wdev : walb_dev) : walb_dev :=
  { wdev with calls := wdev.calls ++ [call.iocore_freeze] }

/-- Modelled from the spec: `iocore_melt` (io.c) undoes one `iocore_freeze`;
only the call is recorded. -/
def iocore_melt (wdev : walb_dev) : walb_dev :=
  { wdev with calls := wdev.calls ++ [call.iocore_melt] }

/-- Modelled from the spec: `stop_checkpointing` (checkpoint.c) stops the
periodic checkpoint timer; only the call is recorded. -/
def stop_checkpointing (wdev : walb_dev) : walb_dev :=
  { wdev with calls := wdev.calls ++ [call.stop_checkpointing] }

/-- Modelled from the spec: `start_checkpointing` (checkpoint.c) restarts the
periodic checkpoint timer; only the call is recorded. -/
def start_checkpointing (wdev : walb_dev) : walb_dev :=
  { wdev with calls := wdev.calls ++ [call.start_checkpointing] }

/-- Modelled from the spec: `iocore_clear_log_overflow` (io.c); only the call is
recorded. -/
def iocore_clear_log_overflow (wdev : walb_dev) : walb_dev :=
  { wdev with calls := wdev.calls ++ [call.iocore_clear_log_overflow] }

/-- Modelled from the spec: `resize_disk` (wdev_util.c) resizes a gendisk and
reports success; the outcome is the parameter `ok`. -/
def resize_disk (ok : Bool) (new_size : Nat) (wdev : walb_dev) : Bool × walb_dev :=
  (ok, { wdev with calls := wdev.calls ++ [call.resize_disk new_size] })

/-- Modelled from the spec: `invalidate_lsid` (wdev_util.c) overwrites the
logpack header at `lsid` and reports success; the outcome is the parameter
`ok`. -/
def invalidate_lsid (ok : Bool) (lsid : Nat) (wdev : walb_dev) : Bool × walb_dev :=
  (ok, { wdev with calls := wdev.calls ++ [call.invalidate_lsid lsid] })

/-- Modelled from the spec: `backup_lsid_set` (wdev_util.c), the
`snapshot_accounting_state()` of the spec: a copy of all watermarks. -/
def backup_lsid_set (wdev : walb_dev) : lsid_set :=
  wdev.lsids

/-- Modelled from the spec: `restore_lsid_set` (wdev_util.c), the
`restore_accounting_state()` of the spec: all watermarks are set back to the
copy. -/
def restore_lsid_set (wdev : walb_dev) (lsids : lsid_set) : walb_dev :=
  { wdev with lsids := lsids }

/-- Modelled from the spec: `snapshot_n_records_range` (snapshot.c), the
`count_range(lsid_lo, lsid_hi)` of the spec: the number of records with
`lsid_lo ≤ lsid < lsid_hi`. -/
def snapshot_n_records_range (snapd : List walb_snapshot_record) (lsid0 lsid1 : Nat) : Nat :=
  (snapd.filter (fun r => decide (lsid0 ≤ r.lsid) && decide (r.lsid < lsid1))).length

/-- Modelled from the spec: `snapshot_n_records` (snapshot.c): the number of
records in the catalog. -/
def snapshot_n_records (snapd : List walb_snapshot_record) : Nat :=
  snapd.length

/-- Modelled from the spec: `snapshot_del_range` (snapshot.c), the
`delete_range(lsid_lo, lsid_hi)` of the spec: removes all records with
`lsid_lo ≤ lsid < lsid_hi` and returns their number; when the catalog reports
an error (`ok = false`) the result is negative and the catalog is unchanged. -/
def snapshot_del_range (ok : Bool) (lsid0 lsid1 : Nat) (wdev : walb_dev) : Int × walb_dev :=
  let logged := { wdev with calls := wdev.calls ++ [call.snapshot_del_range lsid0 lsid1] }
  if ok then
    (Int.ofNat (snapshot_n_records_range wdev.snapd lsid0 lsid1),
      { logged with
        snapd := wdev.snapd.filter
          (fun r => !(decide (lsid0 ≤ r.lsid) && decide (r.lsid < lsid1))) })
  else
    (-EFAULT, logged)

/-- Modelled from the spec: `get_completed_lsid` (kern.h).  With
`WALB_FAST_ALGORITHM` it is the `completed` member; builds without it have no
such member and equate completed with permanent. -/
def get_completed_lsid (cfg : build_config) (lsids : lsid_set) : Nat :=
  if cfg.WALB_FAST_ALGORITHM then lsids.completed else lsids.permanent

/-! ## `ioctl_wdev_set_oldest_lsid` -/

/-- The command `ioctl_wdev_set_oldest_lsid` of wdev_ioctl.c.  Returns the ioctl
result and the device afterwards; `ctl` is only read. -/
def ioctl_wdev_set_oldest_lsid (env : collaborators) (wdev : walb_dev) (ctl : walb_ctl) :
    Int × walb_dev :=
  let lsid := ctl.val_u64
  let written_lsid := wdev.lsids.written
  let oldest_lsid := wdev.lsids.oldest
  if !(lsid == written_lsid ||
        (decide (oldest_lsid ≤ lsid) && decide (lsid < written_lsid) &&
          env.walb_check_lsid_valid lsid)) then
    (-EFAULT, wdev)
  else
    let wdev1 := { wdev with lsids := { wdev.lsids with oldest := lsid } }
    let synced := walb_sync_super_block env.sync_super_block_ok wdev1
    if !synced.1 then
      (-EFAULT, synced.2)
    else
      (0, synced.2)

/-! ## The registry of devices (alldevs.c) -/

/-- Linux `ENOENT`. -/
def ENOENT : Int := 2

/-- Modelled from the spec: the generic key to value index (`struct hash_tbl`
of hashtbl.c), an associative container.  Cells are kept newest first; the
values are device pointers. -/
abbrev hash_tbl (κ : Type) := List (κ × Nat)

/-- Modelled from the spec: `hashtbl_lookup`; `none` stands for
`HASHTBL_INVALID_VAL`. -/
def hashtbl_lookup {κ : Type} [DecidableEq κ] (htbl : hash_tbl κ) (key : κ) : Option Nat :=
  (htbl.find? (fun c => decide (c.1 = key))).map (fun c => c.2)

/-- Modelled from the spec: `hashtbl_add`: `-EPERM` when the key is already
present, `-ENOMEM` when the cell can not be allocated (`alloc_ok = false`),
otherwise 0 with the cell added.  A failing add leaves the table as it was. -/
def hashtbl_add {κ : Type} [DecidableEq κ] (alloc_ok : Bool) (htbl : hash_tbl κ)
    (key : κ) (val : Nat) : Int × hash_tbl κ :=
  if (hashtbl_lookup htbl key).isSome then (-EPERM, htbl)
  else if !alloc_ok then (-ENOMEM, htbl)
  else (0, (key, val) :: htbl)

/-- Modelled from the spec: `hashtbl_del`: removes the cell of the key and
returns its value (`none` for `HASHTBL_INVALID_VAL`). -/
def hashtbl_del {κ : Type} [DecidableEq κ] (htbl : hash_tbl κ) (key : κ) :
    Option Nat × hash_tbl κ :=
  (hashtbl_lookup htbl key, htbl.eraseP (fun c => decide (c.1 = key)))

/-- The file-scope variables of alldevs.c: the lifecycle counter, the list of
devices and the three indices.  Devices are referred to by pointer. -/
structure alldevs where
  is_available_ : Int
  all_wdevs_ : List Nat
  htbl_minor_ : hash_tbl Nat
  htbl_name_ : hash_tbl (List Nat)
  htbl_uuid_ : hash_tbl (List Nat)
deriving DecidableEq, Repr

/-- Outcome of the three cell allocations (`GFP_KERNEL`) made by one
`alldevs_add`. -/
structure gfp_outcomes where
  minor_ok : Bool
  name_ok : Bool
  uuid_ok : Bool

/-- The macro `CHECK_RUNNING`: `BUG()` unless the lifecycle counter is 1. -/
def CHECK_RUNNING (reg : alldevs) : Option Unit :=
  if reg.is_available_ ≠ 1 then none else some ()

/-- Linux `MINOR(dev)`: the low 20 bits of a `dev_t`. -/
def MINOR (devt : Nat) : Nat :=
  devt % 2 ^ 20

/-- C `strnlen(s, maxlen)` on a byte buffer. -/
def strnlen : List Nat → Nat → Nat
  | [], _ => 0
  | _ :: _, 0 => 0
  | c :: cs, n + 1 => if c = 0 then 0 else strnlen cs n + 1

/-- The static function `get_wdev_name_len` of alldevs.c. -/
def get_wdev_name_len (cfg : build_config) (wdev : walb_dev) : Nat :=
  strnlen wdev.lsuper0.name (cfg.WALB_DEV_NAME_MAX_LEN - 1)

/-- The function `alldevs_add` of alldevs.c, for the device at address `ptr`
whose contents are `wdev`.  The labels `error2`, `error1`, `error0` are the
three nested failure branches. -/
def alldevs_add (cfg : build_config) (gfp : gfp_outcomes) (reg : alldevs)
    (ptr : Nat) (wdev : walb_dev) : Option (Int × alldevs) :=
  (CHECK_RUNNING reg).bind fun _ =>
  let minor := MINOR wdev.devt
  let r0 := hashtbl_add gfp.minor_ok reg.htbl_minor_ minor ptr
  let reg0 := { reg with htbl_minor_ := r0.2 }
  if r0.1 ≠ 0 then
    some (r0.1, reg0)
  else
    let len := get_wdev_name_len cfg wdev
    let r1 := hashtbl_add gfp.name_ok reg0.htbl_name_ (wdev.lsuper0.name.take len) ptr
    let reg1 := { reg0 with htbl_name_ := r1.2 }
    if r1.1 ≠ 0 then
      some (r1.1,
        { reg1 with htbl_minor_ := (hashtbl_del reg1.htbl_minor_ minor).2 })
    else
      let r2 := hashtbl_add gfp.uuid_ok reg1.htbl_uuid_ (wdev.lsuper0.uuid.take 16) ptr
      let reg2 := { reg1 with htbl_uuid_ := r2.2 }
      if r2.1 ≠ 0 then
        let reg3 := { reg2 with
          htbl_name_ := (hashtbl_del reg2.htbl_name_ (wdev.lsuper0.name.take len)).2 }
        some (r2.1,
          { reg3 with htbl_minor_ := (hashtbl_del reg3.htbl_minor_ minor).2 })
      else
        some (0, { reg2 with all_wdevs_ := reg2.all_wdevs_ ++ [ptr] })

/-- The function `alldevs_write_lock` of alldevs.c; the semaphore itself is not
modelled. -/
def alldevs_write_lock (reg : alldevs) : Option Unit :=
  CHECK_RUNNING reg

/-- The function `alldevs_write_unlock` of alldevs.c. -/
def alldevs_write_unlock (reg : alldevs) : Option Unit :=
  CHECK_RUNNING reg

/-- Modelled from the spec: `alldevs_update_uuid`, the
`update_uuid(old, new) -> Result<(), NotFound>` of the spec: re-keys the uuid
index only; fails, changing nothing, when the old uuid is not registered. -/
def alldevs_update_uuid (reg : alldevs) (old_uuid new_uuid : List Nat) : Int × alldevs :=
  match hashtbl_lookup reg.htbl_uuid_ old_uuid with
  | none => (-ENOENT, reg)
  | some ptr =>
    (0, { reg with htbl_uuid_ := (new_uuid, ptr) :: (hashtbl_del reg.htbl_uuid_ old_uuid).2 })

/-! ## `ioctl_wdev_clear_log` -/

/-- Size of a uuid in bytes (`UUID_SIZE`); alldevs.c and the call
`get_random_bytes(new_uuid, 16)` use the literal 16. -/
def UUID_SIZE : Nat := 16

/-- C `memcpy(dst, src, n)` into a buffer of `n` bytes: the first `n` bytes of
the source. -/
def memcpy (src : List Nat) (n : Nat) : List Nat :=
  src.take n

/-- Linux `get_random_bytes(buf, nbytes)`: the first `nbytes` bytes delivered by
the random source. -/
def get_random_bytes (source : List Nat) (nbytes : Nat) : List Nat :=
  source.take nbytes

/-- The watermarks after the block "Initialize lsid(s)" of
`ioctl_wdev_clear_log`; `completed` is assigned only under
`WALB_FAST_ALGORITHM`. -/
def clear_log_init_lsids (cfg : build_config) (lsids : lsid_set) : lsid_set :=
  { latest := 0
    flush := 0
    completed := if cfg.WALB_FAST_ALGORITHM then 0 else lsids.completed
    permanent := 0
    written := 0
    prev_written := 0
    oldest := 0 }

/-- Label `error0` of `ioctl_wdev_clear_log`. -/
def clear_log_error0 (wdev : walb_dev) (reg : alldevs) : Option (Int × walb_dev × alldevs) :=
  some (-EFAULT, wdev, reg)

/-- Label `error1` of `ioctl_wdev_clear_log`, falling through to `error0`. -/
def clear_log_error1 (wdev : walb_dev) (reg : alldevs) : Option (Int × walb_dev × alldevs) :=
  clear_log_error0 (iocore_melt (start_checkpointing wdev)) reg

/-- Label `error2` of `ioctl_wdev_clear_log`, falling through to `error1`
(the block under `#if 0` is not compiled). -/
def clear_log_error2 (lsids : lsid_set) (old_ring_buffer_size : Nat)
    (wdev : walb_dev) (reg : alldevs) : Option (Int × walb_dev × alldevs) :=
  clear_log_error1
    { restore_lsid_set wdev lsids with ring_buffer_size := old_ring_buffer_size } reg

/-- The part of `ioctl_wdev_clear_log` after a successful superblock sync:
"Update uuid index of alldev data" up to `return 0`. -/
def clear_log_after_sync (cfg : build_config) (env : collaborators)
    (lsids : lsid_set) (old_ring_buffer_size : Nat) (old_uuid new_uuid : List Nat)
    (wdev : walb_dev) (reg : alldevs) : Option (Int × walb_dev × alldevs) :=
  (alldevs_write_lock reg).bind fun _ =>
  let upd := alldevs_update_uuid reg old_uuid new_uuid
  (alldevs_write_unlock upd.2).bind fun _ =>
  if upd.1 ≠ 0 then
    clear_log_error2 lsids old_ring_buffer_size (iocore_set_readonly wdev) upd.2
  else
    let inv := invalidate_lsid env.invalidate_lsid_ok 0 wdev
    if !inv.1 then
      clear_log_error2 lsids old_ring_buffer_size (iocore_set_readonly inv.2) upd.2
    else
      let del := snapshot_del_range env.snapshot_del_range_ok 0
        ((cfg.MAX_LSID + 1) % 2 ^ 64) inv.2
      if del.1 < 0 then
        clear_log_error2 lsids old_ring_buffer_size (iocore_set_readonly del.2) upd.2
      else if snapshot_n_records del.2.snapd ≠ 0 then
        none
      else
        some (0, iocore_melt (start_checkpointing (iocore_clear_log_overflow del.2)), upd.2)

/-- The part of `ioctl_wdev_clear_log` from "Generate new uuid and salt" on. -/
def clear_log_new_identity (cfg : build_config) (env : collaborators)
    (lsids : lsid_set) (old_ring_buffer_size : Nat)
    (wdev : walb_dev) (reg : alldevs) : Option (Int × walb_dev × alldevs) :=
  let new_uuid := get_random_bytes env.random_uuid 16
  let new_salt := env.random_salt
  let wdev1 := { wdev with log_checksum_salt := new_salt }
  let old_uuid := memcpy wdev1.lsuper0.uuid UUID_SIZE
  let wdev2 := { wdev1 with
    lsuper0 := { wdev1.lsuper0 with
      uuid := memcpy new_uuid UUID_SIZE
      ring_buffer_size := wdev1.ring_buffer_size
      log_checksum_salt := new_salt } }
  let synced := walb_sync_super_block env.sync_super_block_ok wdev2
  if !synced.1 then
    clear_log_error2 lsids old_ring_buffer_size (iocore_set_readonly synced.2) reg
  else
    clear_log_after_sync cfg env lsids old_ring_buffer_size old_uuid new_uuid synced.2 reg

/-- The command `ioctl_wdev_clear_log` of wdev_ioctl.c, on the device `wdev`
and the registry `reg`.  Returns the ioctl result, the device and the registry
afterwards, or `none` when an `ASSERT` fails. -/
def ioctl_wdev_clear_log (cfg : build_config) (env : collaborators)
    (wdev : walb_dev) (reg : alldevs) (ctl : walb_ctl) :
    Option (Int × walb_dev × alldevs) :=
  if ctl.command ≠ WALB_IOCTL_CLEAR_LOG then
    none
  else
    let wdev0 := stop_checkpointing (iocore_freeze wdev)
    let old_ldev_size := wdev0.ldev_size
    let new_ldev_size := wdev0.ldev_nr_sects
    if old_ldev_size > new_ldev_size then
      clear_log_error0 wdev0 reg
    else
      let old_ring_buffer_size := wdev0.ring_buffer_size
      let lsids := backup_lsid_set wdev0
      let wdev1 := { wdev0 with lsids := clear_log_init_lsids cfg wdev0.lsids }
      if old_ldev_size < new_ldev_size then
        let grown := resize_disk env.resize_disk_ok new_ldev_size wdev1
        if !grown.1 then
          clear_log_error1 (iocore_set_readonly grown.2) reg
        else
          let wdev2 := { grown.2 with
            ldev_size := new_ldev_size
            ring_buffer_size :=
              (cfg.addr_pb grown.2.physical_bs new_ldev_size % 2 ^ 64 + 2 ^ 64
                - cfg.get_ring_buffer_offset grown.2.physical_bs grown.2.n_snapshots % 2 ^ 64)
                % 2 ^ 64 }
          clear_log_new_identity cfg env lsids old_ring_buffer_size wdev2 reg
      else
        clear_log_new_identity cfg env lsids old_ring_buffer_size wdev1 reg

/-! ## The registry: lifecycle, lookup and removal -/

/-- Outcome of the three `hashtbl_create` calls of one `alldevs_init`. -/
structure create_outcomes where
  name_ok : Bool
  uuid_ok : Bool
  minor_ok : Bool

/-- The macro `CHECK_START`: increments the lifecycle counter and is `BUG()`
unless the new value is 1. -/
def CHECK_START (reg : alldevs) : Option alldevs :=
  let reg1 := { reg with is_available_ := reg.is_available_ + 1 }
  if reg1.is_available_ ≠ 1 then none else some reg1

/-- The macro `CHECK_STOP`: decrements the lifecycle counter and is `BUG()`
unless the new value is 0. -/
def CHECK_STOP (reg : alldevs) : Option alldevs :=
  let reg1 := { reg with is_available_ := reg.is_available_ - 1 }
  if reg1.is_available_ ≠ 0 then none else some reg1

/-- Modelled from the spec: `hashtbl_create`: a new empty table, or `none`
(`NULL`) when the allocation fails. -/
def hashtbl_create {κ : Type} (ok : Bool) : Option (hash_tbl κ) :=
  if ok then some [] else none

/-- Modelled from the spec: `hashtbl_destroy` frees the table; the variable
that pointed to it is then modelled as the empty table. -/
def hashtbl_destroy {κ : Type} (_htbl : hash_tbl κ) : hash_tbl κ :=
  []

/-- Modelled from the spec: `hashtbl_is_empty`. -/
def hashtbl_is_empty {κ : Type} (htbl : hash_tbl κ) : Bool :=
  htbl.isEmpty

/-- The state of the file-scope variables of alldevs.c when the module is
loaded: counter `ATOMIC_INIT(0)`, nothing registered. -/
def alldevs_loaded : alldevs :=
  { is_available_ := 0, all_wdevs_ := [], htbl_minor_ := [], htbl_name_ := [],
    htbl_uuid_ := [] }

/-- The function `alldevs_init` of alldevs.c.  A table variable that is `NULL`
after a failed `hashtbl_create` is modelled as the empty table. -/
def alldevs_init (created : create_outcomes) (reg : alldevs) : Option (Int × alldevs) :=
  let reg0 := { reg with all_wdevs_ := [] }
  match (hashtbl_create created.name_ok : Option (hash_tbl (List Nat))) with
  | none => some (-ENOMEM, { reg0 with htbl_name_ := [] })
  | some name_tbl =>
    let reg1 := { reg0 with htbl_name_ := name_tbl }
    match (hashtbl_create created.uuid_ok : Option (hash_tbl (List Nat))) with
    | none =>
      some (-ENOMEM,
        { reg1 with htbl_uuid_ := [], htbl_name_ := hashtbl_destroy reg1.htbl_name_ })
    | some uuid_tbl =>
      let reg2 := { reg1 with htbl_uuid_ := uuid_tbl }
      match (hashtbl_create created.minor_ok : Option (hash_tbl Nat)) with
      | none =>
        some (-ENOMEM,
          { reg2 with
            htbl_minor_ := []
            htbl_uuid_ := hashtbl_destroy reg2.htbl_uuid_
            htbl_name_ := hashtbl_destroy reg2.htbl_name_ })
      | some minor_tbl =>
        (CHECK_START { reg2 with htbl_minor_ := minor_tbl }).map fun reg3 => (0, reg3)

/-- The function `alldevs_exit` of alldevs.c. -/
def alldevs_exit (reg : alldevs) : Option alldevs :=
  (CHECK_STOP reg).bind fun reg1 =>
  if !(reg1.all_wdevs_.isEmpty && hashtbl_is_empty reg1.htbl_minor_ &&
      hashtbl_is_empty reg1.htbl_uuid_ && hashtbl_is_empty reg1.htbl_name_) then
    none
  else
    some { reg1 with
      htbl_minor_ := hashtbl_destroy reg1.htbl_minor_
      htbl_uuid_ := hashtbl_destroy reg1.htbl_uuid_
      htbl_name_ := hashtbl_destroy reg1.htbl_name_ }

/-- The function `search_wdev_with_minor` of alldevs.c (the version using
`htbl_minor_`).  The outer `none` is `BUG()`, the inner `none` the result
`NULL`. -/
def search_wdev_with_minor (reg : alldevs) (minor : Nat) : Option (Option Nat) :=
  (CHECK_RUNNING reg).bind fun _ =>
  let p := hashtbl_lookup reg.htbl_minor_ minor
  if p = some 0 then none else some p

/-- The function `search_wdev_with_name` of alldevs.c. -/
def search_wdev_with_name (cfg : build_config) (reg : alldevs) (name : List Nat) :
    Option (Option Nat) :=
  (CHECK_RUNNING reg).bind fun _ =>
  let len := strnlen name (cfg.WALB_DEV_NAME_MAX_LEN - 1)
  let p := hashtbl_lookup reg.htbl_name_ (name.take len)
  if p = some 0 then none else some p

/-- The function `search_wdev_with_uuid` of alldevs.c. -/
def search_wdev_with_uuid (reg : alldevs) (uuid : List Nat) : Option (Option Nat) :=
  (CHECK_RUNNING reg).bind fun _ =>
  let p := hashtbl_lookup reg.htbl_uuid_ (uuid.take 16)
  if p = some 0 then none else some p

/-- Linux `list_del` on the list of devices: the node of a device is linked at
most once, so unlinking removes the occurrence of its pointer. -/
def list_del (list : List Nat) (ptr : Nat) : List Nat :=
  list.erase ptr

/-- The function `alldevs_del` of alldevs.c, for the device at address `ptr`
whose contents are `wdev`; `none` when one of the three `ASSERT`s fails. -/
def alldevs_del (cfg : build_config) (reg : alldevs) (ptr : Nat) (wdev : walb_dev) :
    Option alldevs :=
  (CHECK_RUNNING reg).bind fun _ =>
  let len := get_wdev_name_len cfg wdev
  let wminor := MINOR wdev.devt
  let tmp0 := hashtbl_del reg.htbl_uuid_ (wdev.lsuper0.uuid.take 16)
  let tmp1 := hashtbl_del reg.htbl_name_ (wdev.lsuper0.name.take len)
  let tmp2 := hashtbl_del reg.htbl_minor_ wminor
  if tmp0.1 ≠ some ptr then none
  else if tmp1.1 ≠ some ptr then none
  else if tmp2.1 ≠ some ptr then none
  else
    some { reg with
      htbl_uuid_ := tmp0.2
      htbl_name_ := tmp1.2
      htbl_minor_ := tmp2.2
      all_wdevs_ := list_del reg.all_wdevs_ ptr }

/-- The function `alldevs_pop` of alldevs.c; `mem` gives the contents of the
device at an address.  The outer `none` is `BUG()`, the inner `none` the result
`NULL`. -/
def alldevs_pop (cfg : build_config) (mem : Nat → walb_dev) (reg : alldevs) :
    Option (Option Nat × alldevs) :=
  (CHECK_RUNNING reg).bind fun _ =>
  match reg.all_wdevs_ with
  | [] => some (none, reg)
  | wdev :: _ => (alldevs_del cfg reg wdev (mem wdev)).map fun reg1 => (some wdev, reg1)

/-- Calling `alldevs_pop` `n` times in a row: the devices returned, in order,
and the registry afterwards. -/
def alldevs_pop_times (cfg : build_config) (mem : Nat → walb_dev) :
    Nat → alldevs → Option (List (Option Nat) × alldevs)
  | 0, reg => some ([], reg)
  | n + 1, reg =>
    (alldevs_pop cfg mem reg).bind fun r =>
    (alldevs_pop_times cfg mem n r.2).map fun rest => (r.1 :: rest.1, rest.2)

/-- The loop of `get_free_minor`: `minor` is an `unsigned int`, so `minor += 2`
wraps at `2 ^ 32`.  `fuel` bounds the number of iterations; `none` means the
loop is still running when the fuel is used up. -/
def get_free_minor_loop (htbl : hash_tbl Nat) : Nat → Nat → Option Nat
  | 0, _ => none
  | fuel + 1, minor =>
    if hashtbl_lookup htbl minor ≠ none then
      get_free_minor_loop htbl fuel ((minor + 2) % 2 ^ 32)
    else
      some minor

/-- The function `get_free_minor` of alldevs.c, which only reads the registry.
The outer `none` is `BUG()`, the inner `none` means that the loop has not
ended within `fuel` iterations. -/
def get_free_minor (fuel : Nat) (reg : alldevs) : Option (Option Nat) :=
  (CHECK_RUNNING reg).map fun _ => get_free_minor_loop reg.htbl_minor_ fuel 0

/-- The function `alldevs_read_lock` of alldevs.c; the semaphore itself is not
modelled. -/
def alldevs_read_lock (reg : alldevs) : Option Unit :=
  CHECK_RUNNING reg

/-- The function `alldevs_read_unlock` of alldevs.c. -/
def alldevs_read_unlock (reg : alldevs) : Option Unit :=
  CHECK_RUNNING reg

/-! ## Checkpoint and freeze commands -/

/-- Position of `WALB_IOCTL_GET_CHECKPOINT_INTERVAL` in the command enumeration
of `include/walb/ioctl.h`. -/
def WALB_IOCTL_GET_CHECKPOINT_INTERVAL : Int := 16

/-- Position of `WALB_IOCTL_TAKE_CHECKPOINT` in the command enumeration of
`include/walb/ioctl.h`. -/
def WALB_IOCTL_TAKE_CHECKPOINT : Int := 17

/-- Position of `WALB_IOCTL_SET_CHECKPOINT_INTERVAL` in the command enumeration
of `include/walb/ioctl.h`. -/
def WALB_IOCTL_SET_CHECKPOINT_INTERVAL : Int := 18

/-- Modelled from the spec: `get_checkpoint_interval` (checkpoint.c), the
`get_interval()` of the spec. -/
def get_checkpoint_interval (cpd : checkpoint_data) : Nat :=
  cpd.interval

/-- Modelled from the spec: `set_checkpoint_interval` (checkpoint.c), the
`set_interval(ms)` of the spec. -/
def set_checkpoint_interval (cpd : checkpoint_data) (interval : Nat) : checkpoint_data :=
  { cpd with interval := interval }

/-- Modelled from the spec: `take_checkpoint` (checkpoint.c) persists the
watermarks into the superblock and reports success; the outcome is the
parameter `ok`. -/
def take_checkpoint (ok : Bool) (wdev : walb_dev) : Bool × walb_dev :=
  (ok, { wdev with calls := wdev.calls ++ [call.take_checkpoint] })

/-- Modelled from the spec: `cancel_melt_work` (wdev_util.c) cancels a pending
automatic melt; only the call is recorded. -/
def cancel_melt_work (wdev : walb_dev) : walb_dev :=
  { wdev with calls := wdev.calls ++ [call.cancel_melt_work] }

/-- Modelled from the spec: `freeze_if_melted` (wdev_util.c) freezes a melted
device for `timeout_sec` seconds and reports success; the outcome is the
parameter `ok`. -/
def freeze_if_melted (ok : Bool) (timeout_sec : Nat) (wdev : walb_dev) : Bool × walb_dev :=
  (ok, { wdev with calls := wdev.calls ++ [call.freeze_if_melted timeout_sec] })

/-- The command `ioctl_wdev_get_checkpoint_interval` of wdev_ioctl.c. -/
def ioctl_wdev_get_checkpoint_interval (wdev : walb_dev) (ctl : walb_ctl) :
    Option (Int × walb_ctl) :=
  if ctl.command ≠ WALB_IOCTL_GET_CHECKPOINT_INTERVAL then
    none
  else
    some (0, { ctl with val_u32 := get_checkpoint_interval wdev.cpd })

/-- The command `ioctl_wdev_set_checkpoint_interval` of wdev_ioctl.c.  The
constant `WALB_MAX_CHECKPOINT_INTERVAL`, declared in a header that is not among
the sources, is a parameter. -/
def ioctl_wdev_set_checkpoint_interval (WALB_MAX_CHECKPOINT_INTERVAL : Nat)
    (wdev : walb_dev) (ctl : walb_ctl) : Option (Int × walb_dev) :=
  if ctl.command ≠ WALB_IOCTL_SET_CHECKPOINT_INTERVAL then
    none
  else
    let interval := ctl.val_u32
    if interval > WALB_MAX_CHECKPOINT_INTERVAL then
      some (-EFAULT, wdev)
    else
      some (0, { wdev with cpd := set_checkpoint_interval wdev.cpd interval })

/-- The command `ioctl_wdev_take_checkpoint` of wdev_ioctl.c; `take_ok` is the
outcome of `take_checkpoint`.  The block under `WALB_DEBUG`, which asserts that
`stop_checkpointing` has left the scheduler stopped, is not modelled. -/
def ioctl_wdev_take_checkpoint (take_ok : Bool) (wdev : walb_dev) (ctl : walb_ctl) :
    Option (Int × walb_dev) :=
  if ctl.command ≠ WALB_IOCTL_TAKE_CHECKPOINT then
    none
  else
    let wdev0 := stop_checkpointing wdev
    let taken := take_checkpoint take_ok wdev0
    if !taken.1 then
      some (-EFAULT, { taken.2 with is_read_only := true })
    else
      some (0, start_checkpointing taken.2)

/-- The command `ioctl_wdev_freeze` of wdev_ioctl.c.  The command id
`WALB_IOCTL_FREEZE` is not declared in the version of `include/walb/ioctl.h`
among the sources and is a parameter; `freeze_ok` is the outcome of
`freeze_if_melted` for a timeout. -/
def ioctl_wdev_freeze (WALB_IOCTL_FREEZE : Int) (freeze_ok : Nat → Bool)
    (wdev : walb_dev) (ctl : walb_ctl) : Option (Int × walb_dev) :=
  if ctl.command ≠ WALB_IOCTL_FREEZE then
    none
  else
    let timeout_sec := if ctl.val_u32 > 86400 then 86400 else ctl.val_u32
    let wdev0 := cancel_melt_work wdev
    let frozen := freeze_if_melted (freeze_ok timeout_sec) timeout_sec wdev0
    if frozen.1 then
      some (0, frozen.2)
    else
      some (-EFAULT, frozen.2)

/-! ## `ioctl_wdev_resize` -/

/-- Position of `WALB_IOCTL_RESIZE` in the command enumeration of
`include/walb/ioctl.h`. -/
def WALB_IOCTL_RESIZE : Int := 22

/-- The value of `new_size` after lines 570 to 575 of wdev_ioctl.c: the
requested size, or the size of the data device when the request is 0. -/
def resize_new_size (wdev : walb_dev) (ctl : walb_ctl) : Nat :=
  if ctl.val_u64 = 0 then wdev.ddev_nr_sects else ctl.val_u64

/-- The command `ioctl_wdev_resize` of wdev_ioctl.c.  The call
`resize_disk(wdev->gd, new_size)` is recorded like the one on the log disk. -/
def ioctl_wdev_resize (env : collaborators) (wdev : walb_dev) (ctl : walb_ctl) :
    Option (Int × walb_dev) :=
  if ctl.command ≠ WALB_IOCTL_RESIZE then
    none
  else
    let old_size := wdev.gd_capacity
    let ddev_size := wdev.ddev_nr_sects
    let new_size := resize_new_size wdev ctl
    if new_size < old_size then
      some (-EFAULT, wdev)
    else if new_size > ddev_size then
      some (-EFAULT, wdev)
    else if new_size = old_size then
      some (0, wdev)
    else
      let wdev1 := { wdev with size := new_size, ddev_size := ddev_size }
      let resized := resize_disk env.resize_disk_ok new_size wdev1
      if !resized.1 then
        some (-EFAULT, resized.2)
      else
        let synced := walb_sync_super_block env.sync_super_block_ok resized.2
        if !synced.1 then
          some (-EFAULT, synced.2)
        else
          some (0, synced.2)

/-! ## Snapshot commands -/

/-- Linux `EEXIST`. -/
def EEXIST : Int := 17

/-- Position of `WALB_IOCTL_CREATE_SNAPSHOT` in the command enumeration of
`include/walb/ioctl.h`. -/
def WALB_IOCTL_CREATE_SNAPSHOT : Int := 10

/-- Position of `WALB_IOCTL_DELETE_SNAPSHOT` in the command enumeration of
`include/walb/ioctl.h`. -/
def WALB_IOCTL_DELETE_SNAPSHOT : Int := 11

/-- Position of `WALB_IOCTL_GET_SNAPSHOT` in the command enumeration of
`include/walb/ioctl.h`. -/
def WALB_IOCTL_GET_SNAPSHOT : Int := 13

/-- Position of `WALB_IOCTL_LIST_SNAPSHOT_RANGE` in the command enumeration of
`include/walb/ioctl.h`. -/
def WALB_IOCTL_LIST_SNAPSHOT_RANGE : Int := 15

/-- Constants and functions of the snapshot layer whose declarations are not
among the sources, and the failures the catalog reports during one command:
the sentinel `INVALID_LSID`, `sizeof(struct walb_snapshot_record)`, the
predicate `is_valid_snapshot_name`, the record written by
`snapshot_record_init`, and the error codes (0 for none, negative otherwise)
with which `snapshot_add`, `snapshot_del` and `snapshot_list_range` fail for a
reason other than the name or range asked for. -/
structure snapshot_layer where
  INVALID_LSID : Nat
  sizeof_record : Nat
  is_valid_snapshot_name : List Nat → Bool
  snapshot_record_init : walb_snapshot_record
  add_error : Int
  del_error : Int
  list_error : Int

/-- Modelled from the spec: `snapshot_get` (snapshot.c), the
`get(name) -> Option<SnapshotRecord>` of the spec. -/
def snapshot_get (snapd : List walb_snapshot_record) (name : List Nat) :
    Option walb_snapshot_record :=
  snapd.find? (fun r => decide (r.name = name))

/-- Modelled from the spec: the next `snapshot_id`, above every id in use. -/
def snapshot_next_id (snapd : List walb_snapshot_record) : Nat :=
  (snapd.map (fun r => r.snapshot_id + 1)).foldl max 0

/-- Modelled from the spec: `snapshot_add` (snapshot.c), the
`add(name, lsid, timestamp) -> Result<(), DuplicateName>` of the spec: a
non-zero code when the catalog reports a failure (`error`) or the name is in
use (`-EEXIST` stands for `DuplicateName`), otherwise 0 with the record
added. -/
def snapshot_add (error : Int) (name : List Nat) (lsid timestamp : Nat) (wdev : walb_dev) :
    Int × walb_dev :=
  let logged := { wdev with calls := wdev.calls ++ [call.snapshot_add name lsid timestamp] }
  if error ≠ 0 then
    (error, logged)
  else if (snapshot_get wdev.snapd name).isSome then
    (-EEXIST, logged)
  else
    (0, { logged with
      snapd := wdev.snapd ++
        [{ lsid := lsid, timestamp := timestamp,
           snapshot_id := snapshot_next_id wdev.snapd, name := name }] })

/-- Modelled from the spec: `snapshot_del` (snapshot.c), the
`delete(name) -> Result<(), NotFound>` of the spec: a non-zero code when the
catalog reports a failure (`error`) or holds no record of that name
(`-ENOENT` stands for `NotFound`), otherwise 0 with the record removed. -/
def snapshot_del (error : Int) (name : List Nat) (wdev : walb_dev) : Int × walb_dev :=
  let logged := { wdev with calls := wdev.calls ++ [call.snapshot_del name] }
  if error ≠ 0 then
    (error, logged)
  else if (snapshot_get wdev.snapd name).isNone then
    (-ENOENT, logged)
  else
    (0, { logged with snapd := wdev.snapd.filter (fun r => !decide (r.name = name)) })

/-- Modelled from the spec: `snapshot_list_range` (snapshot.c), the
`list_range(lsid_lo, lsid_hi, max)` of the spec: the records with
`lsid0 ≤ lsid < lsid1` in ascending order of lsid, at most `size` of them,
which are written to the buffer, and their number; or a negative code
(`error`) when the catalog reports a failure. -/
def snapshot_list_range (error : Int) (snapd : List walb_snapshot_record)
    (size lsid0 lsid1 : Nat) : Int × List walb_snapshot_record :=
  if error < 0 then
    (error, [])
  else
    let found := ((snapd.filter (fun r => decide (lsid0 ≤ r.lsid) && decide (r.lsid < lsid1))).insertionSort
      (fun a b => a.lsid ≤ b.lsid)).take size
    (Int.ofNat found.length, found)

/-- The command `ioctl_wdev_create_snapshot` of wdev_ioctl.c.  `u2k_record` is
the result of `get_snapshot_record_from_ctl_u2k` (`none` when it fails). -/
def ioctl_wdev_create_snapshot (cfg : build_config) (snap : snapshot_layer)
    (u2k_record : Option walb_snapshot_record) (wdev : walb_dev) (ctl : walb_ctl) :
    Option (Int × walb_dev × walb_ctl) :=
  if ctl.command ≠ WALB_IOCTL_CREATE_SNAPSHOT then
    none
  else
    match u2k_record with
    | none => some (-EFAULT, wdev, ctl)
    | some srec =>
      let lsid :=
        if srec.lsid = snap.INVALID_LSID then get_completed_lsid cfg wdev.lsids else srec.lsid
      if srec.lsid = snap.INVALID_LSID ∧ lsid = snap.INVALID_LSID then
        none
      else if !snap.is_valid_snapshot_name srec.name then
        some (-EFAULT, wdev, ctl)
      else
        let added := snapshot_add snap.add_error srec.name lsid srec.timestamp wdev
        if added.1 ≠ 0 then
          some (-EFAULT, added.2, { ctl with error := added.1 })
        else
          some (0, added.2, ctl)

/-- The command `ioctl_wdev_delete_snapshot` of wdev_ioctl.c. -/
def ioctl_wdev_delete_snapshot (snap : snapshot_layer)
    (u2k_record : Option walb_snapshot_record) (wdev : walb_dev) (ctl : walb_ctl) :
    Option (Int × walb_dev × walb_ctl) :=
  if ctl.command ≠ WALB_IOCTL_DELETE_SNAPSHOT then
    none
  else
    match u2k_record with
    | none => some (-EFAULT, wdev, ctl)
    | some srec =>
      if !snap.is_valid_snapshot_name srec.name then
        some (-EFAULT, wdev, ctl)
      else
        let deleted := snapshot_del snap.del_error srec.name wdev
        if deleted.1 ≠ 0 then
          some (-EFAULT, deleted.2, { ctl with error := deleted.1 })
        else
          some (0, deleted.2, ctl)

/-- Storing a record at index 0 of a buffer of records (`*srec1 = ...`). -/
def store_first_record (buf : List walb_snapshot_record) (rec : walb_snapshot_record) :
    List walb_snapshot_record :=
  rec :: buf.tail

/-- The command `ioctl_wdev_get_snapshot` of wdev_ioctl.c, which only reads the
device. -/
def ioctl_wdev_get_snapshot (snap : snapshot_layer)
    (u2k_record : Option walb_snapshot_record) (wdev : walb_dev) (ctl : walb_ctl) :
    Option (Int × walb_ctl) :=
  if ctl.command ≠ WALB_IOCTL_GET_SNAPSHOT then
    none
  else
    match u2k_record with
    | none => some (-EFAULT, ctl)
    | some srec0t =>
      if snap.sizeof_record > ctl.k2u.buf_size then
        some (-EFAULT, ctl)
      else
        match ctl.k2u.kbuf with
        | none => some (-EFAULT, ctl)
        | some srec1 =>
          match snapshot_get wdev.snapd srec0t.name with
          | none =>
            some (-EFAULT,
              { ctl with
                error := 1
                k2u := { ctl.k2u with
                  kbuf := some (store_first_record srec1 snap.snapshot_record_init) } })
          | some srec =>
            some (0,
              { ctl with
                k2u := { ctl.k2u with kbuf := some (store_first_record srec1 srec) } })

/-- The command `ioctl_wdev_list_snapshot_range` of wdev_ioctl.c, which only
reads the device.  `u2k_range` is the result of `get_lsid_range_from_ctl`
(`none` when it fails).  Records written through a `NULL` buffer are a
trap. -/
def ioctl_wdev_list_snapshot_range (snap : snapshot_layer)
    (u2k_range : Option (Nat × Nat)) (wdev : walb_dev) (ctl : walb_ctl) :
    Option (Int × walb_ctl) :=
  if ctl.command ≠ WALB_IOCTL_LIST_SNAPSHOT_RANGE then
    none
  else
    match u2k_range with
    | none => some (-EFAULT, ctl)
    | some (lsid0, lsid1) =>
      let size := ctl.k2u.buf_size / snap.sizeof_record
      if size = 0 then
        some (-EFAULT, ctl)
      else
        let listed := snapshot_list_range snap.list_error wdev.snapd size lsid0 lsid1
        if listed.1 < 0 then
          some (-EFAULT, { ctl with error := listed.1 })
        else
          let n_rec := listed.1
          if n_rec > 0 then
            match ctl.k2u.kbuf with
            | none => none
            | some srec =>
              let filled := listed.2 ++ srec.drop listed.2.length
              match filled.get? (n_rec - 1).toNat with
              | none => none
              | some last =>
                if last.lsid = snap.INVALID_LSID then
                  none
                else
                  some (0,
                    { ctl with
                      val_int := n_rec
                      val_u64 := (last.lsid + 1) % 2 ^ 64
                      k2u := { ctl.k2u with kbuf := some filled } })
          else
            some (0, { ctl with val_int := n_rec, val_u64 := snap.INVALID_LSID })

/-! ## `checksum` (include/walb.h) -/

/-- The `u32` read by `*(u32 *)(data + off)` on a little-endian machine; bytes
beyond the end of the buffer read as 0. -/
def read_u32 (data : List Nat) (off : Nat) : Nat :=
  (data.getD off 0 % 256 + 256 * (data.getD (off + 1) 0 % 256)
    + 65536 * (data.getD (off + 2) 0 % 256)
    + 16777216 * (data.getD (off + 3) 0 % 256)) % 2 ^ 32

/-- The function `checksum` of include/walb.h.  `size` is an `int`; in
`size / sizeof(u32)` and `size % sizeof(u32)` it is converted to the unsigned
64-bit `size_t`, and the quotient is truncated to the `u32` `n`.  `none` when
the `ASSERT` fails. -/
def checksum (data : List Nat) (size : Int) : Option Nat :=
  let usize := (size % 2 ^ 64).toNat
  let n := (usize / 4) % 2 ^ 32
  if usize % 4 ≠ 0 then
    none
  else
    some ((List.range n).foldl (fun sum i => (sum + read_u32 data (4 * i)) % 2 ^ 32) 0)

/-- The 32-bit words of a buffer, four bytes each, in order: the reading of
"the buffer's size/4 consecutive 32-bit words". -/
def u32_words : List Nat → List Nat
  | b0 :: b1 :: b2 :: b3 :: rest => read_u32 [b0, b1, b2, b3] 0 :: u32_words rest
  | _ => []

/-- The sum modulo `2 ^ 32` of the 32-bit words of a buffer. -/
def checksum_spec (data : List Nat) : Nat :=
  (u32_words data).sum % 2 ^ 32

/-! ## Predicates used in the statements -/

/-- The ordering of the watermarks and the ring buffer bound of the spec:
`oldest ≤ written ≤ completed ≤ permanent ≤ flush ≤ latest` and
`latest - oldest ≤ capacity`, the capacity being `wdev->ring_buffer_size`. -/
def lsid_invariant (cfg : build_config) (wdev : walb_dev) : Prop :=
  wdev.lsids.oldest ≤ wdev.lsids.written ∧
  wdev.lsids.written ≤ get_completed_lsid cfg wdev.lsids ∧
  get_completed_lsid cfg wdev.lsids ≤ wdev.lsids.permanent ∧
  wdev.lsids.permanent ≤ wdev.lsids.flush ∧
  wdev.lsids.flush ≤ wdev.lsids.latest ∧
  wdev.lsids.latest - wdev.lsids.oldest ≤ wdev.ring_buffer_size

instance (cfg : build_config) (wdev : walb_dev) : Decidable (lsid_invariant cfg wdev) := by
  unfold lsid_invariant
  infer_instance

/-- The validation made by `ioctl_wdev_set_oldest_lsid`: `lsid == written`, or
`oldest ≤ lsid < written` and `walb_check_lsid_valid(wdev, lsid)`. -/
def set_oldest_accepts (env : collaborators) (wdev : walb_dev) (lsid : Nat) : Prop :=
  lsid = wdev.lsids.written ∨
    (wdev.lsids.oldest ≤ lsid ∧ lsid < wdev.lsids.written ∧
      env.walb_check_lsid_valid lsid = true)

instance (env : collaborators) (wdev : walb_dev) (lsid : Nat) :
    Decidable (set_oldest_accepts env wdev lsid) := by
  unfold set_oldest_accepts
  infer_instance

/-- The condition of the spec for the same request: `lsid == written`, or
`oldest ≤ lsid < written` and no record of the catalog has an lsid below the
requested one. -/
def set_oldest_spec_condition (wdev : walb_dev) (lsid : Nat) : Prop :=
  lsid = wdev.lsids.written ∨
    (wdev.lsids.oldest ≤ lsid ∧ lsid < wdev.lsids.written ∧
      ∀ r ∈ wdev.snapd, ¬ r.lsid < lsid)

instance (wdev : walb_dev) (lsid : Nat) : Decidable (set_oldest_spec_condition wdev lsid) := by
  unfold set_oldest_spec_condition
  infer_instance

/-- All seven watermarks are zero, `completed` being read with
`get_completed_lsid`. -/
def lsids_all_zero (cfg : build_config) (lsids : lsid_set) : Prop :=
  lsids.latest = 0 ∧ lsids.flush = 0 ∧ get_completed_lsid cfg lsids = 0 ∧
  lsids.permanent = 0 ∧ lsids.written = 0 ∧ lsids.prev_written = 0 ∧ lsids.oldest = 0

instance (cfg : build_config) (lsids : lsid_set) : Decidable (lsids_all_zero cfg lsids) := by
  unfold lsids_all_zero
  infer_instance

/-! ## Concrete devices used to evaluate the commands -/

/-- A fast-algorithm build with the usual constants and a layout in which one
physical block is `pbs / 512` sectors and the ring buffer starts after
`2 + n_snapshots` blocks. -/
def cfg_fast : build_config :=
  { WALB_FAST_ALGORITHM := true
    MAX_LSID := 2 ^ 64 - 2
    WALB_DEV_NAME_MAX_LEN := 32
    addr_pb := fun pbs size => size / (pbs / 512)
    get_ring_buffer_offset := fun _ n => 2 + n }

/-- Collaborators that all succeed; the random source delivers bytes 16..31. -/
def env_ok : collaborators :=
  { walb_check_lsid_valid := fun _ => true
    sync_super_block_ok := true
    resize_disk_ok := true
    random_uuid := (List.range 16).map (fun i => i + 16)
    random_salt := 7
    invalidate_lsid_ok := true
    snapshot_del_range_ok := true }

/-- A device with `oldest = 0`, `written = 500`, a ring buffer of 1000 blocks,
uuid bytes 0..15 and three snapshots, at lsid 5, 100 and 400. -/
def wdev_ex : walb_dev :=
  { devt := 0
    lsids := { latest := 600, flush := 600, completed := 500, permanent := 500,
               written := 500, prev_written := 400, oldest := 0 }
    ldev_size := 8192
    ldev_nr_sects := 8192
    ring_buffer_size := 1000
    log_checksum_salt := 3
    physical_bs := 512
    n_snapshots := 10
    lsuper0 := { uuid := List.range 16, name := [119, 48, 0], ring_buffer_size := 1000,
                 log_checksum_salt := 3 }
    is_read_only := false
    snapd := [ { lsid := 5, timestamp := 1, snapshot_id := 0, name := [97] },
               { lsid := 100, timestamp := 2, snapshot_id := 1, name := [98] },
               { lsid := 400, timestamp := 3, snapshot_id := 2, name := [99] } ]
    calls := []
    cpd := { interval := 10000 }
    size := 1000000
    ddev_size := 4000000
    gd_capacity := 1000000
    ddev_nr_sects := 4000000 }

/-- A running registry that holds `wdev_ex` at address 1. -/
def reg_ex : alldevs :=
  { is_available_ := 1
    all_wdevs_ := [1]
    htbl_minor_ := [(0, 1)]
    htbl_name_ := [([119, 48], 1)]
    htbl_uuid_ := [(List.range 16, 1)] }

/-- A clear-log request. -/
def ctl_clear_log : walb_ctl :=
  { command := WALB_IOCTL_CLEAR_LOG, val_int := 0, val_u32 := 0, val_u64 := 0, error := 0,
    k2u := { buf_size := 0, kbuf := none } }

/-- A set-oldest request for `lsid`. -/
def ctl_set_oldest (lsid : Nat) : walb_ctl :=
  { command := 7, val_int := 0, val_u32 := 0, val_u64 := lsid, error := 0,
    k2u := { buf_size := 0, kbuf := none } }

/-- Collaborators as in `env_ok`, except that the superblock sync fails. -/
def env_sync_fails : collaborators :=
  { env_ok with sync_super_block_ok := false }

/-- Collaborators as in `env_ok`, except that the random source delivers the
16 bytes 0..15, the uuid `wdev_ex` already has. -/
def env_same_uuid : collaborators :=
  { env_ok with random_uuid := List.range 16 }

/-- Collaborators as in `env_ok`, except that `invalidate_lsid` fails. -/
def env_invalidate_fails : collaborators :=
  { env_ok with invalidate_lsid_ok := false }

/-- Collaborators as in `env_ok`, except that `resize_disk` fails. -/
def env_resize_fails : collaborators :=
  { env_ok with resize_disk_ok := false }

/-- The device `wdev_ex` after its log device has grown to 9000 sectors. -/
def wdev_grown : walb_dev :=
  { wdev_ex with ldev_nr_sects := 9000 }

/-- The device `wdev_ex` whose log device has only 8000 sectors, fewer than the
recorded 8192. -/
def wdev_shrunk : walb_dev :=
  { wdev_ex with ldev_nr_sects := 8000 }

/-- All three cell allocations of an `alldevs_add` succeed. -/
def gfp_ok : gfp_outcomes :=
  { minor_ok := true, name_ok := true, uuid_ok := true }

/-- A second device: minor 2 and name "w1" are not registered in `reg_ex`, its
uuid is the uuid of `wdev_ex`. -/
def wdev_same_uuid : walb_dev :=
  { wdev_ex with
    devt := 2
    lsuper0 := { wdev_ex.lsuper0 with name := [119, 49, 0] } }

/-! ## Registry predicates and concrete registries -/

/-- The key under which a device is in the minor index. -/
def wdev_minor_key (wdev : walb_dev) : Nat :=
  MINOR wdev.devt

/-- The key under which a device is in the name index: its name up to the
first NUL, at most `WALB_DEV_NAME_MAX_LEN - 1` bytes. -/
def wdev_name_key (cfg : build_config) (wdev : walb_dev) : List Nat :=
  wdev.lsuper0.name.take (get_wdev_name_len cfg wdev)

/-- The key under which a device is in the uuid index: the 16 bytes of its
uuid. -/
def wdev_uuid_key (wdev : walb_dev) : List Nat :=
  wdev.lsuper0.uuid.take 16

/-- The index `htbl` holds exactly one cell per device of `devs`, mapping the
key of the device to the device, and no other cell. -/
def htbl_indexes {κ : Type} [DecidableEq κ] (htbl : hash_tbl κ) (devs : List Nat)
    (key : Nat → κ) : Prop :=
  (htbl.map Prod.fst).Nodup ∧
  (∀ c ∈ htbl, c.2 ∈ devs ∧ c.1 = key c.2) ∧
  (∀ v ∈ devs, (key v, v) ∈ htbl)

instance {κ : Type} [DecidableEq κ] (htbl : hash_tbl κ) (devs : List Nat) (key : Nat → κ) :
    Decidable (htbl_indexes htbl devs key) := by
  unfold htbl_indexes
  infer_instance

/-- Consistency of a running registry with the devices in memory: the list
holds each device once and no `NULL`, and each of the three indices holds
exactly the devices of the list under their current keys. -/
def registry_consistent (cfg : build_config) (mem : Nat → walb_dev) (reg : alldevs) : Prop :=
  reg.is_available_ = 1 ∧ reg.all_wdevs_.Nodup ∧ 0 ∉ reg.all_wdevs_ ∧
  htbl_indexes reg.htbl_minor_ reg.all_wdevs_ (fun p => wdev_minor_key (mem p)) ∧
  htbl_indexes reg.htbl_name_ reg.all_wdevs_ (fun p => wdev_name_key cfg (mem p)) ∧
  htbl_indexes reg.htbl_uuid_ reg.all_wdevs_ (fun p => wdev_uuid_key (mem p))

instance (cfg : build_config) (mem : Nat → walb_dev) (reg : alldevs) :
    Decidable (registry_consistent cfg mem reg) := by
  unfold registry_consistent
  infer_instance

/-- A device whose minor 2, name "w1" and uuid 16..31 are not registered in
`reg_ex`. -/
def wdev_new : walb_dev :=
  { wdev_ex with
    devt := 2
    lsuper0 := { wdev_ex.lsuper0 with
      name := [119, 49, 0]
      uuid := (List.range 16).map (fun i => i + 16) } }

/-- A device that collides with `reg_ex` on the minor only. -/
def wdev_same_minor : walb_dev :=
  { wdev_new with devt := 0 }

/-- A device that collides with `reg_ex` on the name only. -/
def wdev_same_name : walb_dev :=
  { wdev_new with lsuper0 := { wdev_new.lsuper0 with name := [119, 48, 0] } }

/-- The first cell allocation of an `alldevs_add` fails. -/
def gfp_minor_fails : gfp_outcomes :=
  { minor_ok := false, name_ok := true, uuid_ok := true }

/-- The first `hashtbl_create` of an `alldevs_init` fails. -/
def create_name_fails : create_outcomes :=
  { name_ok := false, uuid_ok := true, minor_ok := true }

/-- All three `hashtbl_create` calls of an `alldevs_init` succeed. -/
def create_ok : create_outcomes :=
  { name_ok := true, uuid_ok := true, minor_ok := true }

/-- Memory with `wdev_new` at address 2 and `wdev_ex` elsewhere. -/
def mem_ex (ptr : Nat) : walb_dev :=
  if ptr = 2 then wdev_new else wdev_ex

/-- The registry `reg_ex` after `wdev_new`, at address 2, has been added. -/
def reg_two : alldevs :=
  { is_available_ := 1
    all_wdevs_ := [1, 2]
    htbl_minor_ := [(2, 2), (0, 1)]
    htbl_name_ := [([119, 49], 2), ([119, 48], 1)]
    htbl_uuid_ := [((List.range 16).map (fun i => i + 16), 2), (List.range 16, 1)] }

/-- A registry in which the minors 0, 2 and 6 are registered. -/
def reg_minors : alldevs :=
  { is_available_ := 1
    all_wdevs_ := [1, 2, 3]
    htbl_minor_ := [(6, 3), (2, 2), (0, 1)]
    htbl_name_ := []
    htbl_uuid_ := [] }

/-- A request with the given command id and `val_u32`. -/
def ctl_u32 (command : Int) (val : Nat) : walb_ctl :=
  { command := command, val_int := 0, val_u32 := val, val_u64 := 0, error := 0,
    k2u := { buf_size := 0, kbuf := none } }

/-! ## Concrete requests for the resize, snapshot and checksum statements -/

/-- A resize request for `size` sectors. -/
def ctl_resize (size : Nat) : walb_ctl :=
  { command := WALB_IOCTL_RESIZE, val_int := 0, val_u32 := 0, val_u64 := size, error := 0,
    k2u := { buf_size := 0, kbuf := none } }

/-- The lsid that `ioctl_wdev_create_snapshot` resolves for a record: the
completed lsid of the device when the record carries `INVALID_LSID`, the
lsid of the record otherwise. -/
def create_snapshot_lsid (cfg : build_config) (snap : snapshot_layer)
    (srec : walb_snapshot_record) (wdev : walb_dev) : Nat :=
  if srec.lsid = snap.INVALID_LSID then get_completed_lsid cfg wdev.lsids else srec.lsid

/-- A snapshot layer with `INVALID_LSID = 2 ^ 64 - 1`, records of 88 bytes,
names valid when they are not empty, and a catalog that reports no failure. -/
def snap_ex : snapshot_layer :=
  { INVALID_LSID := 2 ^ 64 - 1
    sizeof_record := 88
    is_valid_snapshot_name := fun name => !name.isEmpty
    snapshot_record_init :=
      { lsid := 2 ^ 64 - 1, timestamp := 0, snapshot_id := 2 ^ 32 - 1, name := [] }
    add_error := 0
    del_error := 0
    list_error := 0 }

/-- A snapshot record named "s" (byte 115) with the given lsid. -/
def srec_s (lsid : Nat) : walb_snapshot_record :=
  { lsid := lsid, timestamp := 9, snapshot_id := 0, name := [115] }

/-- A request with the given command id and an output buffer of `n` blank
records of 88 bytes. -/
def ctl_snapshot (command : Int) (n : Nat) : walb_ctl :=
  { command := command, val_int := 0, val_u32 := 0, val_u64 := 0, error := 0,
    k2u := { buf_size := 88 * n, kbuf := some (List.replicate n snap_ex.snapshot_record_init) } }

/-- The device `wdev_ex` with a catalog of three snapshots, of lsid 300, 100
and 200. -/
def wdev_snaps : walb_dev :=
  { wdev_ex with
    snapd :=
      [{ lsid := 300, timestamp := 3, snapshot_id := 0, name := [99] },
       { lsid := 100, timestamp := 1, snapshot_id := 1, name := [97] },
       { lsid := 200, timestamp := 2, snapshot_id := 2, name := [98] }] }

/-! ## Sequences of registry operations -/

/-- The registry together with the contents of the devices in memory. -/
structure registry_state where
  reg : alldevs
  mem : Nat → walb_dev

/-- A call made by a client of alldevs.c: `alldevs_add` of the device at
address `ptr` with contents `wdev` (with the outcome of its three cell
allocations), `alldevs_del` of the device at `ptr`, or `alldevs_pop`. -/
inductive registry_op where
  | add (gfp : gfp_outcomes) (ptr : Nat) (wdev : walb_dev)
  | del (ptr : Nat)
  | pop

/-- The calls a client may make in a state: `alldevs_add` of a device that is
not `NULL` and that is either not registered or registered with these very
contents; `alldevs_del` of a registered device; `alldevs_pop` always. -/
def registry_op_allowed (s : registry_state) : registry_op → Bool
  | registry_op.add _ ptr wdev =>
    decide (ptr ≠ 0) && (decide (ptr ∉ s.reg.all_wdevs_) || decide (wdev = s.mem ptr))
  | registry_op.del ptr => decide (ptr ∈ s.reg.all_wdevs_)
  | registry_op.pop => true

/-- One call on the registry; `none` when the call reaches `BUG()`. -/
def registry_step (cfg : build_config) (s : registry_state) :
    registry_op → Option registry_state
  | registry_op.add gfp ptr wdev =>
    (alldevs_add cfg gfp s.reg ptr wdev).map fun r =>
      { reg := r.2, mem := fun p => if p = ptr then wdev else s.mem p }
  | registry_op.del ptr =>
    (alldevs_del cfg s.reg ptr (s.mem ptr)).map fun reg1 => { s with reg := reg1 }
  | registry_op.pop =>
    (alldevs_pop cfg s.mem s.reg).map fun r => { s with reg := r.2 }

/-- A sequence of calls, each allowed in the state it is made in; `none` when a
call is not allowed or reaches `BUG()`. -/
def registry_run (cfg : build_config) : List registry_op → registry_state →
    Option registry_state
  | [], s => some s
  | op :: ops, s =>
    if registry_op_allowed s op then
      (registry_step cfg s op).bind (registry_run cfg ops)
    else
      none

/-- The calls of a client that registers `wdev_ex` at address 1 and
`wdev_new` at address 2, tries to register `wdev_same_uuid` at address 3
(refused, the uuid being registered), and unregisters the device at
address 1. -/
def ops_ex : List registry_op :=
  [registry_op.add gfp_ok 1 wdev_ex, registry_op.add gfp_ok 2 wdev_new,
   registry_op.add gfp_ok 3 wdev_same_uuid, registry_op.del 1]

/-- The device `wdev_ex` (capacity 1000000 sectors) over a data device that
now has only 500000 sectors. -/
def wdev_ddev_small : walb_dev :=
  { wdev_ex with ddev_nr_sects := 500000 }

/-! ## Shared lemmas: `ioctl_wdev_set_oldest_lsid` -/

theorem set_oldest_check_iff (env : collaborators) (wdev : walb_dev) (lsid : Nat) :
    (lsid == wdev.lsids.written ||
      (decide (wdev.lsids.oldest ≤ lsid) && decide (lsid < wdev.lsids.written) &&
        env.walb_check_lsid_valid lsid)) = true ↔ set_oldest_accepts env wdev lsid := by
  simp [set_oldest_accepts, and_assoc]

theorem set_oldest_of_rejected (env : collaborators) (wdev : walb_dev) (ctl : walb_ctl)
    (h : ¬ set_oldest_accepts env wdev ctl.val_u64) :
    ioctl_wdev_set_oldest_lsid env wdev ctl = (-EFAULT, wdev) := by
  have hc := (set_oldest_check_iff env wdev ctl.val_u64).not.mpr h
  simp only [Bool.not_eq_true] at hc
  simp only [ioctl_wdev_set_oldest_lsid, hc]
  rfl

theorem set_oldest_of_accepted (env : collaborators) (wdev : walb_dev) (ctl : walb_ctl)
    (h : set_oldest_accepts env wdev ctl.val_u64) :
    ioctl_wdev_set_oldest_lsid env wdev ctl =
      (if env.sync_super_block_ok then 0 else -EFAULT,
        { wdev with
          lsids := { wdev.lsids with oldest := ctl.val_u64 }
          calls := wdev.calls ++ [call.walb_sync_super_block] }) := by
  have hc := (set_oldest_check_iff env wdev ctl.val_u64).mpr h
  simp only [ioctl_wdev_set_oldest_lsid, hc, walb_sync_super_block]
  cases env.sync_super_block_ok <;> rfl

/-! ## Shared lemmas: `ioctl_wdev_clear_log` -/

theorem alldevs_update_uuid_is_available (reg : alldevs) (old_uuid new_uuid : List Nat) :
    (alldevs_update_uuid reg old_uuid new_uuid).2.is_available_ = reg.is_available_ := by
  unfold alldevs_update_uuid
  split <;> rfl


theorem snapshot_del_range_neg_iff (ok : Bool) (lsid0 lsid1 : Nat) (wdev : walb_dev) :
    (snapshot_del_range ok lsid0 lsid1 wdev).1 < 0 ↔ ok = false := by
  cases ok
  · simp [snapshot_del_range, EFAULT]
  · simp only [snapshot_del_range, if_true]
    constructor
    · intro h
      exact absurd h (not_lt.mpr (Int.ofNat_nonneg _))
    · intro h
      cases h

theorem snapshot_del_range_fields (ok : Bool) (lsid0 lsid1 : Nat) (wdev : walb_dev) :
    (snapshot_del_range ok lsid0 lsid1 wdev).2.lsids = wdev.lsids ∧
    (snapshot_del_range ok lsid0 lsid1 wdev).2.ring_buffer_size = wdev.ring_buffer_size ∧
    (snapshot_del_range ok lsid0 lsid1 wdev).2.lsuper0 = wdev.lsuper0 ∧
    (snapshot_del_range ok lsid0 lsid1 wdev).2.is_read_only = wdev.is_read_only ∧
    (snapshot_del_range ok lsid0 lsid1 wdev).2.log_checksum_salt = wdev.log_checksum_salt ∧
    (snapshot_del_range ok lsid0 lsid1 wdev).2.ldev_size = wdev.ldev_size := by
  cases ok <;> simp [snapshot_del_range]



theorem clear_log_after_sync_cases (cfg : build_config) (env : collaborators)
    (lsids : lsid_set) (old_rbs : Nat) (old_uuid new_uuid : List Nat)
    (wdev : walb_dev) (reg : alldevs) (r : Int) (w' : walb_dev) (reg' : alldevs)
    (h : clear_log_after_sync cfg env lsids old_rbs old_uuid new_uuid wdev reg
      = some (r, w', reg')) :
    (r = 0 ∧ w'.lsids = wdev.lsids ∧ w'.ring_buffer_size = wdev.ring_buffer_size ∧
      w'.snapd = [] ∧ w'.lsuper0 = wdev.lsuper0 ∧ w'.is_read_only = wdev.is_read_only) ∨
    (r = -EFAULT ∧ w'.lsids = lsids ∧ w'.ring_buffer_size = old_rbs ∧
      w'.is_read_only = true ∧ w'.lsuper0 = wdev.lsuper0) := by
  unfold clear_log_after_sync at h
  by_cases hav : reg.is_available_ = 1
  · simp only [alldevs_write_lock, alldevs_write_unlock, CHECK_RUNNING,
      alldevs_update_uuid_is_available, hav, ne_eq, not_true_eq_false, if_false,
      Option.some_bind, Option.bind_eq_bind] at h
    obtain ⟨d1, d2, d3, d4, -, -⟩ := snapshot_del_range_fields env.snapshot_del_range_ok 0
      ((cfg.MAX_LSID + 1) % 2 ^ 64) (invalidate_lsid env.invalidate_lsid_ok 0 wdev).2
    by_cases h1 : (alldevs_update_uuid reg old_uuid new_uuid).1 = 0
    · rw [if_neg (not_not.mpr h1)] at h
      by_cases h2 : (!(invalidate_lsid env.invalidate_lsid_ok 0 wdev).1) = true
      · rw [if_pos h2] at h
        simp only [clear_log_error2, clear_log_error1, clear_log_error0, Option.some.injEq,
          Prod.mk.injEq] at h
        obtain ⟨rfl, rfl, -⟩ := h
        exact Or.inr ⟨rfl, rfl, rfl, rfl, rfl⟩
      · rw [if_neg h2] at h
        split_ifs at h with h3 h4
        · simp only [clear_log_error2, clear_log_error1, clear_log_error0, Option.some.injEq,
            Prod.mk.injEq] at h
          obtain ⟨rfl, rfl, -⟩ := h
          exact Or.inr ⟨rfl, rfl, rfl, rfl, d3⟩
        · simp only [snapshot_n_records, List.length_eq_zero] at h4
          simp only [Option.some.injEq, Prod.mk.injEq] at h
          obtain ⟨rfl, rfl, -⟩ := h
          exact Or.inl ⟨rfl, d1, d2, h4, d3, d4⟩
    · rw [if_pos (by simpa using h1)] at h
      simp only [clear_log_error2, clear_log_error1, clear_log_error0, Option.some.injEq,
        Prod.mk.injEq] at h
      obtain ⟨rfl, rfl, -⟩ := h
      exact Or.inr ⟨rfl, rfl, rfl, rfl, rfl⟩
  · simp [alldevs_write_lock, CHECK_RUNNING, hav] at h

theorem memcpy_get_random_bytes (source : List Nat) :
    memcpy (get_random_bytes source 16) UUID_SIZE = get_random_bytes source 16 := by
  simp [memcpy, get_random_bytes, UUID_SIZE, List.take_take]

theorem clear_log_new_identity_cases (cfg : build_config) (env : collaborators)
    (lsids : lsid_set) (old_rbs : Nat) (wdev : walb_dev) (reg : alldevs)
    (r : Int) (w' : walb_dev) (reg' : alldevs)
    (h : clear_log_new_identity cfg env lsids old_rbs wdev reg = some (r, w', reg')) :
    (r = 0 ∧ env.sync_super_block_ok = true ∧ w'.lsids = wdev.lsids ∧
      w'.ring_buffer_size = wdev.ring_buffer_size ∧ w'.snapd = [] ∧
      w'.is_read_only = wdev.is_read_only ∧
      w'.lsuper0.uuid = get_random_bytes env.random_uuid 16) ∨
    (r = -EFAULT ∧ w'.lsids = lsids ∧ w'.ring_buffer_size = old_rbs ∧
      w'.is_read_only = true ∧ w'.lsuper0.uuid = get_random_bytes env.random_uuid 16) := by
  unfold clear_log_new_identity at h
  cases hs : env.sync_super_block_ok
  · simp only [walb_sync_super_block, hs, Bool.not_false, if_true, clear_log_error2,
      clear_log_error1, clear_log_error0, Option.some.injEq, Prod.mk.injEq] at h
    obtain ⟨rfl, rfl, -⟩ := h
    exact Or.inr ⟨rfl, rfl, rfl, rfl, memcpy_get_random_bytes env.random_uuid⟩
  · simp only [walb_sync_super_block, hs, Bool.not_true, Bool.false_eq_true, if_false] at h
    rcases clear_log_after_sync_cases _ _ _ _ _ _ _ _ _ _ _ h with
      ⟨h0, h1, h2, h3, h4, h5⟩ | ⟨h0, h1, h2, h3, h4⟩
    · exact Or.inl ⟨h0, rfl, h1, h2, h3, h5,
        by rw [h4]; exact memcpy_get_random_bytes env.random_uuid⟩
    · exact Or.inr ⟨h0, h1, h2, h3,
        by rw [h4]; exact memcpy_get_random_bytes env.random_uuid⟩

theorem clear_log_cases (cfg : build_config) (env : collaborators)
    (wdev : walb_dev) (reg : alldevs) (ctl : walb_ctl)
    (r : Int) (w' : walb_dev) (reg' : alldevs)
    (h : ioctl_wdev_clear_log cfg env wdev reg ctl = some (r, w', reg')) :
    (r = 0 ∧ ¬ wdev.ldev_size > wdev.ldev_nr_sects ∧
      (wdev.ldev_size < wdev.ldev_nr_sects → env.resize_disk_ok = true) ∧
      env.sync_super_block_ok = true ∧
      w'.lsids = clear_log_init_lsids cfg wdev.lsids ∧ w'.snapd = [] ∧
      w'.is_read_only = wdev.is_read_only ∧
      w'.lsuper0.uuid = get_random_bytes env.random_uuid 16) ∨
    (r = -EFAULT ∧ wdev.ldev_size > wdev.ldev_nr_sects ∧
      w' = stop_checkpointing (iocore_freeze wdev) ∧ reg' = reg) ∨
    (r = -EFAULT ∧ wdev.ldev_size < wdev.ldev_nr_sects ∧ env.resize_disk_ok = false ∧
      w'.lsids = clear_log_init_lsids cfg wdev.lsids ∧
      w'.ring_buffer_size = wdev.ring_buffer_size ∧ w'.is_read_only = true) ∨
    (r = -EFAULT ∧ ¬ wdev.ldev_size > wdev.ldev_nr_sects ∧
      (wdev.ldev_size < wdev.ldev_nr_sects → env.resize_disk_ok = true) ∧
      w'.lsids = wdev.lsids ∧ w'.ring_buffer_size = wdev.ring_buffer_size ∧
      w'.is_read_only = true ∧ w'.lsuper0.uuid = get_random_bytes env.random_uuid 16) := by
  unfold ioctl_wdev_clear_log at h
  by_cases hc : ctl.command = WALB_IOCTL_CLEAR_LOG
  · rw [if_neg (not_not.mpr hc)] at h
    by_cases hshrink : wdev.ldev_size > wdev.ldev_nr_sects
    · have hs' : (stop_checkpointing (iocore_freeze wdev)).ldev_size >
          (stop_checkpointing (iocore_freeze wdev)).ldev_nr_sects := hshrink
      simp only [hs', if_true, clear_log_error0, Option.some.injEq, Prod.mk.injEq] at h
      obtain ⟨rfl, rfl, rfl⟩ := h
      exact Or.inr (Or.inl ⟨rfl, hshrink, rfl, rfl⟩)
    · have hs' : ¬ (stop_checkpointing (iocore_freeze wdev)).ldev_size >
          (stop_checkpointing (iocore_freeze wdev)).ldev_nr_sects := hshrink
      simp only [hs', if_false] at h
      by_cases hgrow : wdev.ldev_size < wdev.ldev_nr_sects
      · have hg' : (stop_checkpointing (iocore_freeze wdev)).ldev_size <
            (stop_checkpointing (iocore_freeze wdev)).ldev_nr_sects := hgrow
        simp only [hg', if_true] at h
        cases hres : env.resize_disk_ok
        · simp only [resize_disk, hres, Bool.not_false, if_true, clear_log_error1,
            clear_log_error0, Option.some.injEq, Prod.mk.injEq] at h
          obtain ⟨rfl, rfl, -⟩ := h
          exact Or.inr (Or.inr (Or.inl ⟨rfl, hgrow, rfl, rfl, rfl, rfl⟩))
        · simp only [resize_disk, hres, Bool.not_true, Bool.false_eq_true, if_false] at h
          rcases clear_log_new_identity_cases _ _ _ _ _ _ _ _ _ h with
            ⟨h0, h1, h2, -, h4, h5, h6⟩ | ⟨h0, h1, h2, h3, h4⟩
          · exact Or.inl ⟨h0, hshrink, fun _ => rfl, h1, h2, h4, h5, h6⟩
          · exact Or.inr (Or.inr (Or.inr ⟨h0, hshrink, fun _ => rfl, h1, h2, h3, h4⟩))
      · have hg' : ¬ (stop_checkpointing (iocore_freeze wdev)).ldev_size <
            (stop_checkpointing (iocore_freeze wdev)).ldev_nr_sects := hgrow
        simp only [hg', if_false] at h
        rcases clear_log_new_identity_cases _ _ _ _ _ _ _ _ _ h with
          ⟨h0, h1, h2, -, h4, h5, h6⟩ | ⟨h0, h1, h2, h3, h4⟩
        · exact Or.inl ⟨h0, hshrink, fun hg => absurd hg hgrow, h1, h2, h4, h5, h6⟩
        · exact Or.inr (Or.inr (Or.inr
            ⟨h0, hshrink, fun hg => absurd hg hgrow, h1, h2, h3, h4⟩))
  · rw [if_pos hc] at h
    cases h

theorem get_completed_lsid_init (cfg : build_config) (lsids : lsid_set) :
    get_completed_lsid cfg (clear_log_init_lsids cfg lsids) = 0 := by
  unfold get_completed_lsid clear_log_init_lsids
  cases cfg.WALB_FAST_ALGORITHM <;> rfl

theorem lsids_all_zero_init (cfg : build_config) (lsids : lsid_set) :
    lsids_all_zero cfg (clear_log_init_lsids cfg lsids) :=
  ⟨rfl, rfl, get_completed_lsid_init cfg lsids, rfl, rfl, rfl, rfl⟩

theorem lsid_invariant_of_init (cfg : build_config) (wdev w' : walb_dev)
    (h : w'.lsids = clear_log_init_lsids cfg wdev.lsids) : lsid_invariant cfg w' := by
  unfold lsid_invariant
  rw [h, get_completed_lsid_init]
  simp [clear_log_init_lsids]

theorem lsid_invariant_of_same (cfg : build_config) (wdev w' : walb_dev)
    (h1 : w'.lsids = wdev.lsids) (h2 : w'.ring_buffer_size = wdev.ring_buffer_size)
    (hinv : lsid_invariant cfg wdev) : lsid_invariant cfg w' := by
  unfold lsid_invariant at hinv ⊢
  rw [h1, h2]
  exact hinv

/-! ## Shared lemmas: the registry -/

theorem hashtbl_add_of_ne_zero {κ : Type} [DecidableEq κ] (alloc_ok : Bool)
    (htbl : hash_tbl κ) (key : κ) (val : Nat)
    (h : (hashtbl_add alloc_ok htbl key val).1 ≠ 0) :
    (hashtbl_add alloc_ok htbl key val).2 = htbl := by
  unfold hashtbl_add at h ⊢
  split_ifs at h ⊢ <;> first | rfl | exact absurd rfl h

theorem hashtbl_add_of_eq_zero {κ : Type} [DecidableEq κ] (alloc_ok : Bool)
    (htbl : hash_tbl κ) (key : κ) (val : Nat)
    (h : (hashtbl_add alloc_ok htbl key val).1 = 0) :
    (hashtbl_add alloc_ok htbl key val).2 = (key, val) :: htbl ∧
    hashtbl_lookup htbl key = none ∧ alloc_ok = true := by
  unfold hashtbl_add at h ⊢
  split_ifs at h ⊢ with h1 h2
  · simp [EPERM] at h
  · simp [ENOMEM] at h
  · refine ⟨rfl, ?_, ?_⟩
    · simpa using h1
    · simpa using h2

theorem hashtbl_del_cons_self {κ : Type} [DecidableEq κ] (htbl : hash_tbl κ)
    (key : κ) (val : Nat) :
    (hashtbl_del ((key, val) :: htbl) key).2 = htbl := by
  simp [hashtbl_del, List.eraseP_cons]

theorem hashtbl_add_then_del {κ : Type} [DecidableEq κ] (alloc_ok : Bool)
    (htbl : hash_tbl κ) (key : κ) (val : Nat)
    (h : (hashtbl_add alloc_ok htbl key val).1 = 0) :
    (hashtbl_del (hashtbl_add alloc_ok htbl key val).2 key).2 = htbl := by
  rw [(hashtbl_add_of_eq_zero alloc_ok htbl key val h).1]
  exact hashtbl_del_cons_self htbl key val

/-! ## Set-oldest: claims C1 to C3 -/

/-- C1, counterexample.  On a device with `oldest = 0`, `written = 500` and a
snapshot at lsid 5, the request `lsid = 50` (a valid logpack lsid, sync
succeeding) returns 0 although a live snapshot references an lsid below 50:
afterwards `oldest = 50` and the snapshot at lsid 5 is still in the catalog. -/
theorem C1_set_oldest_ignores_snapshots :
    ¬ ((ioctl_wdev_set_oldest_lsid env_ok wdev_ex (ctl_set_oldest 50)).1 = 0 ↔
        set_oldest_spec_condition wdev_ex (ctl_set_oldest 50).val_u64) ∧
    (ioctl_wdev_set_oldest_lsid env_ok wdev_ex (ctl_set_oldest 50)).2.lsids.oldest = 50 ∧
    (∃ r ∈ (ioctl_wdev_set_oldest_lsid env_ok wdev_ex (ctl_set_oldest 50)).2.snapd,
      r.lsid = 5) := by
  decide

/-- C1, amended.  Set-oldest returns 0 iff the request passes the validation
(`lsid == written`, or `oldest ≤ lsid < written` and `walb_check_lsid_valid`)
and the superblock sync succeeds; every other result is `-EFAULT`.  Afterwards
`oldest` is the requested lsid when the validation passed and its old value
when it did not, and the snapshot catalog, which is not consulted, is
unchanged. -/
theorem C1_set_oldest_succeeds_iff (env : collaborators) (wdev : walb_dev) (ctl : walb_ctl) :
    ((ioctl_wdev_set_oldest_lsid env wdev ctl).1 = 0 ↔
      (set_oldest_accepts env wdev ctl.val_u64 ∧ env.sync_super_block_ok = true)) ∧
    ((ioctl_wdev_set_oldest_lsid env wdev ctl).1 = 0 ∨
      (ioctl_wdev_set_oldest_lsid env wdev ctl).1 = -EFAULT) ∧
    (ioctl_wdev_set_oldest_lsid env wdev ctl).2.lsids.oldest =
      (if set_oldest_accepts env wdev ctl.val_u64 then ctl.val_u64 else wdev.lsids.oldest) ∧
    (ioctl_wdev_set_oldest_lsid env wdev ctl).2.snapd = wdev.snapd := by
  by_cases h : set_oldest_accepts env wdev ctl.val_u64
  · rw [set_oldest_of_accepted env wdev ctl h]
    cases hs : env.sync_super_block_ok <;> simp [h, EFAULT]
  · rw [set_oldest_of_rejected env wdev ctl h]
    simp [h, EFAULT]

/-- C2.  Set-oldest rejects the request (returns `-EFAULT` without calling the
superblock sync) exactly when the validation fails, that is when
`lsid != written` and not (`oldest ≤ lsid < written` and
`walb_check_lsid_valid(lsid)`); a rejected request leaves the whole device,
hence every watermark and the log of calls, as it was.  An accepted request
stores the lsid in `oldest` and calls the sync once. -/
theorem C2_set_oldest_rejects_iff (env : collaborators) (wdev : walb_dev) (ctl : walb_ctl) :
    (((ioctl_wdev_set_oldest_lsid env wdev ctl).1 = -EFAULT ∧
        (ioctl_wdev_set_oldest_lsid env wdev ctl).2.calls = wdev.calls) ↔
      ¬ (ctl.val_u64 = wdev.lsids.written ∨
          (wdev.lsids.oldest ≤ ctl.val_u64 ∧ ctl.val_u64 < wdev.lsids.written ∧
            env.walb_check_lsid_valid ctl.val_u64 = true))) ∧
    (¬ set_oldest_accepts env wdev ctl.val_u64 →
      ioctl_wdev_set_oldest_lsid env wdev ctl = (-EFAULT, wdev)) ∧
    (set_oldest_accepts env wdev ctl.val_u64 →
      (ioctl_wdev_set_oldest_lsid env wdev ctl).2.lsids.oldest = ctl.val_u64 ∧
      (ioctl_wdev_set_oldest_lsid env wdev ctl).2.calls =
        wdev.calls ++ [call.walb_sync_super_block]) := by
  refine ⟨?_, fun h => set_oldest_of_rejected env wdev ctl h, fun h => ?_⟩
  · change _ ↔ ¬ set_oldest_accepts env wdev ctl.val_u64
    by_cases h : set_oldest_accepts env wdev ctl.val_u64
    · rw [set_oldest_of_accepted env wdev ctl h]
      simp [h]
    · rw [set_oldest_of_rejected env wdev ctl h]
      simp [h]
  · rw [set_oldest_of_accepted env wdev ctl h]
    exact ⟨rfl, rfl⟩

/-- C2, witness: the request `lsid = 700` on a device with `written = 500` is
rejected and the device is unchanged. -/
theorem C2_set_oldest_rejects_iff_witness :
    ¬ set_oldest_accepts env_ok wdev_ex (ctl_set_oldest 700).val_u64 ∧
    ioctl_wdev_set_oldest_lsid env_ok wdev_ex (ctl_set_oldest 700) = (-EFAULT, wdev_ex) :=
  ⟨by decide, (C2_set_oldest_rejects_iff env_ok wdev_ex (ctl_set_oldest 700)).2.1 (by decide)⟩

/-- C3, the code at the failing input.  The request `lsid = 50` passes the
validation and the superblock sync fails: the command returns `-EFAULT`,
`oldest` keeps the new value 50, and the device is not marked read-only (no
call of `iocore_set_readonly`, flag still false). -/
theorem C3_set_oldest_sync_failure_keeps_writable :
    (ioctl_wdev_set_oldest_lsid env_sync_fails wdev_ex (ctl_set_oldest 50)).1 = -EFAULT ∧
    (ioctl_wdev_set_oldest_lsid env_sync_fails wdev_ex (ctl_set_oldest 50)).2.lsids.oldest = 50 ∧
    (ioctl_wdev_set_oldest_lsid env_sync_fails wdev_ex (ctl_set_oldest 50)).2.is_read_only
      = false ∧
    (ioctl_wdev_set_oldest_lsid env_sync_fails wdev_ex (ctl_set_oldest 50)).2.calls
      = [call.walb_sync_super_block] := by
  decide

/-! ## Watermark invariant and clear-log: claims C4 to C9 -/

/-- C4.  The watermark invariant `oldest ≤ written ≤ completed ≤ permanent ≤
flush ≤ latest` and `latest - oldest ≤ ring_buffer_size` is preserved by
`ioctl_wdev_set_oldest_lsid` (request accepted or rejected, sync succeeding or
failing) and by `ioctl_wdev_clear_log` on every path on which it returns. -/
theorem C4_lsid_invariant_preserved (cfg : build_config) (env : collaborators)
    (wdev : walb_dev) (reg : alldevs) (ctl ctl' : walb_ctl)
    (hinv : lsid_invariant cfg wdev) :
    lsid_invariant cfg (ioctl_wdev_set_oldest_lsid env wdev ctl).2 ∧
    ∀ r w' reg', ioctl_wdev_clear_log cfg env wdev reg ctl' = some (r, w', reg') →
      lsid_invariant cfg w' := by
  constructor
  · by_cases h : set_oldest_accepts env wdev ctl.val_u64
    · rw [set_oldest_of_accepted env wdev ctl h]
      unfold lsid_invariant at hinv ⊢
      unfold set_oldest_accepts at h
      simp only
      have hc : get_completed_lsid cfg { wdev.lsids with oldest := ctl.val_u64 }
          = get_completed_lsid cfg wdev.lsids := rfl
      rw [hc]
      obtain ⟨i1, i2, i3, i4, i5, i6⟩ := hinv
      refine ⟨?_, i2, i3, i4, i5, ?_⟩ <;> omega
    · rw [set_oldest_of_rejected env wdev ctl h]
      exact hinv
  · intro r w' reg' h
    rcases clear_log_cases cfg env wdev reg ctl' r w' reg' h with
      ⟨-, -, -, -, hl, -⟩ | ⟨-, -, hw, -⟩ | ⟨-, -, -, hl, -⟩ | ⟨-, -, -, hl, hr, -⟩
    · exact lsid_invariant_of_init cfg wdev w' hl
    · rw [hw]
      exact hinv
    · exact lsid_invariant_of_init cfg wdev w' hl
    · exact lsid_invariant_of_same cfg wdev w' hl hr hinv

/-- C4, witness: on the device `wdev_ex`, which satisfies the invariant, the
invariant holds after set-oldest to lsid 50 and after a successful
clear-log. -/
theorem C4_lsid_invariant_preserved_witness :
    lsid_invariant cfg_fast wdev_ex ∧
    lsid_invariant cfg_fast (ioctl_wdev_set_oldest_lsid env_ok wdev_ex (ctl_set_oldest 50)).2 ∧
    ∃ r w' reg',
      ioctl_wdev_clear_log cfg_fast env_ok wdev_ex reg_ex ctl_clear_log = some (r, w', reg') ∧
      lsid_invariant cfg_fast w' :=
  ⟨by decide,
    (C4_lsid_invariant_preserved cfg_fast env_ok wdev_ex reg_ex (ctl_set_oldest 50)
      ctl_clear_log (by decide)).1,
    _, _, _, rfl,
    (C4_lsid_invariant_preserved cfg_fast env_ok wdev_ex reg_ex (ctl_set_oldest 50)
      ctl_clear_log (by decide)).2 _ _ _ rfl⟩

/-- C5.  Whenever `ioctl_wdev_clear_log` returns 0, every watermark (latest,
flush, completed, permanent, written, prev_written, oldest) is 0 and the
snapshot catalog is empty: it holds no record, so the number of records in
`[0, MAX_LSID + 1)`, and in any other range, is 0. -/
theorem C5_clear_log_success_resets (cfg : build_config) (env : collaborators)
    (wdev : walb_dev) (reg : alldevs) (ctl : walb_ctl) (w' : walb_dev) (reg' : alldevs)
    (h : ioctl_wdev_clear_log cfg env wdev reg ctl = some (0, w', reg')) :
    lsids_all_zero cfg w'.lsids ∧
    snapshot_n_records_range w'.snapd 0 (cfg.MAX_LSID + 1) = 0 ∧
    w'.snapd = [] ∧
    ∀ lsid0 lsid1, snapshot_n_records_range w'.snapd lsid0 lsid1 = 0 := by
  rcases clear_log_cases cfg env wdev reg ctl 0 w' reg' h with
    ⟨-, -, -, -, hl, hs, -⟩ | ⟨h0, -⟩ | ⟨h0, -⟩ | ⟨h0, -⟩
  · rw [hl, hs]
    exact ⟨lsids_all_zero_init cfg wdev.lsids, rfl, rfl, fun _ _ => rfl⟩
  · exact absurd h0 (by decide)
  · exact absurd h0 (by decide)
  · exact absurd h0 (by decide)

/-- C5, witness: clear-log on `wdev_ex` (three snapshots, `written = 500`)
returns 0, all watermarks are 0 and the catalog is empty. -/
theorem C5_clear_log_success_resets_witness :
    ∃ w' reg',
      ioctl_wdev_clear_log cfg_fast env_ok wdev_ex reg_ex ctl_clear_log = some (0, w', reg') ∧
      lsids_all_zero cfg_fast w'.lsids ∧
      snapshot_n_records_range w'.snapd 0 (cfg_fast.MAX_LSID + 1) = 0 :=
  ⟨_, _, rfl,
    (C5_clear_log_success_resets cfg_fast env_ok wdev_ex reg_ex ctl_clear_log _ _ rfl).1,
    (C5_clear_log_success_resets cfg_fast env_ok wdev_ex reg_ex ctl_clear_log _ _ rfl).2.1⟩

/-- C6, counterexample.  When the random source delivers the 16 bytes that are
already the uuid of `wdev_ex`, clear-log returns 0 and the uuid stored in the
superblock image after the call is equal to the uuid before the call. -/
theorem C6_clear_log_may_keep_uuid :
    env_same_uuid.random_uuid.length = 16 ∧
    ∃ w' reg',
      ioctl_wdev_clear_log cfg_fast env_same_uuid wdev_ex reg_ex ctl_clear_log
        = some (0, w', reg') ∧
      w'.lsuper0.uuid = wdev_ex.lsuper0.uuid :=
  ⟨rfl, _, _, rfl, rfl⟩

/-- C6, amended.  After every successful clear-log the uuid stored in the
superblock image is the 16 bytes delivered by the random source; it differs
from the uuid before the call exactly when those bytes differ from it. -/
theorem C6_clear_log_uuid_is_random (cfg : build_config) (env : collaborators)
    (wdev : walb_dev) (reg : alldevs) (ctl : walb_ctl) (w' : walb_dev) (reg' : alldevs)
    (h : ioctl_wdev_clear_log cfg env wdev reg ctl = some (0, w', reg')) :
    w'.lsuper0.uuid = get_random_bytes env.random_uuid 16 ∧
    (w'.lsuper0.uuid ≠ wdev.lsuper0.uuid ↔
      get_random_bytes env.random_uuid 16 ≠ wdev.lsuper0.uuid) := by
  rcases clear_log_cases cfg env wdev reg ctl 0 w' reg' h with
    ⟨-, -, -, -, -, -, -, hu⟩ | ⟨h0, -⟩ | ⟨h0, -⟩ | ⟨h0, -⟩
  · exact ⟨hu, by rw [hu]⟩
  · exact absurd h0 (by decide)
  · exact absurd h0 (by decide)
  · exact absurd h0 (by decide)

/-- C6, witness: with random bytes 16..31 clear-log on `wdev_ex` succeeds and
the stored uuid is those bytes, different from the old uuid 0..15. -/
theorem C6_clear_log_uuid_is_random_witness :
    ∃ w' reg',
      ioctl_wdev_clear_log cfg_fast env_ok wdev_ex reg_ex ctl_clear_log = some (0, w', reg') ∧
      w'.lsuper0.uuid = get_random_bytes env_ok.random_uuid 16 ∧
      w'.lsuper0.uuid ≠ wdev_ex.lsuper0.uuid :=
  ⟨_, _, rfl,
    (C6_clear_log_uuid_is_random cfg_fast env_ok wdev_ex reg_ex ctl_clear_log _ _ rfl).1,
    by decide⟩

/-- C7, the code at the failing input.  The log device has grown (8192 to 9000
sectors) and `resize_disk` fails: clear-log returns `-EFAULT` before any
superblock sync, and the watermarks are all 0 instead of their values before
the call (`written` was 500); `restore_lsid_set` is not reached through label
`error1`. -/
theorem C7_clear_log_grow_failure_loses_lsids :
    ∃ w',
      ioctl_wdev_clear_log cfg_fast env_resize_fails wdev_grown reg_ex ctl_clear_log
        = some (-EFAULT, w', reg_ex) ∧
      lsids_all_zero cfg_fast w'.lsids ∧
      wdev_grown.lsids.written = 500 ∧
      w'.lsids ≠ wdev_grown.lsids ∧
      w'.lsuper0 = wdev_grown.lsuper0 ∧
      w'.calls = [call.iocore_freeze, call.stop_checkpointing, call.resize_disk 9000,
        call.iocore_set_readonly, call.start_checkpointing, call.iocore_melt] :=
  ⟨_, rfl, by decide, rfl, by decide, rfl, rfl⟩

/-- C8, the code at the failing input.  The log device (8000 sectors) is
smaller than the recorded size (8192): clear-log returns `-EFAULT` with
watermarks, uuid, salt and ring buffer size unchanged, but the only calls made
are `iocore_freeze` and `stop_checkpointing`: label `error0` is after the
calls of `start_checkpointing` and `iocore_melt`, which are not made. -/
theorem C8_clear_log_shrink_stays_frozen :
    ioctl_wdev_clear_log cfg_fast env_ok wdev_shrunk reg_ex ctl_clear_log
      = some (-EFAULT,
          { wdev_shrunk with calls := [call.iocore_freeze, call.stop_checkpointing] },
          reg_ex) ∧
    List.count call.iocore_freeze [call.iocore_freeze, call.stop_checkpointing] = 1 ∧
    List.count call.iocore_melt [call.iocore_freeze, call.stop_checkpointing] = 0 ∧
    List.count call.stop_checkpointing [call.iocore_freeze, call.stop_checkpointing] = 1 ∧
    List.count call.start_checkpointing [call.iocore_freeze, call.stop_checkpointing] = 0 :=
  ⟨rfl, by decide, by decide, by decide, by decide⟩

/-- C9, counterexample.  The superblock sync succeeds and `invalidate_lsid`
fails: clear-log returns `-EFAULT`, the device is read-only, and the
watermarks are rolled back to their values before the call (`written = 500`),
not left at 0. -/
theorem C9_clear_log_late_failure_rolls_back :
    env_invalidate_fails.sync_super_block_ok = true ∧
    ∃ w' reg',
      ioctl_wdev_clear_log cfg_fast env_invalidate_fails wdev_ex reg_ex ctl_clear_log
        = some (-EFAULT, w', reg') ∧
      w'.is_read_only = true ∧
      w'.lsids = wdev_ex.lsids ∧
      w'.lsids.written = 500 ∧
      ¬ lsids_all_zero cfg_fast w'.lsids :=
  ⟨rfl, _, _, rfl, rfl, rfl, rfl, by decide⟩

/-- C9, amended.  Whenever clear-log fails after the superblock sync has
succeeded (re-keying the uuid index, invalidating lsid 0 or deleting the
snapshots failed), the device is put in read-only mode and the watermarks and
the ring buffer size are restored to their values before the call, while the
superblock image keeps the new uuid. -/
theorem C9_clear_log_late_failure_restores (cfg : build_config) (env : collaborators)
    (wdev : walb_dev) (reg : alldevs) (ctl : walb_ctl)
    (r : Int) (w' : walb_dev) (reg' : alldevs)
    (hsize : ¬ wdev.ldev_size > wdev.ldev_nr_sects)
    (hgrow : wdev.ldev_size < wdev.ldev_nr_sects → env.resize_disk_ok = true)
    (_hsync : env.sync_super_block_ok = true)
    (h : ioctl_wdev_clear_log cfg env wdev reg ctl = some (r, w', reg'))
    (hr : r ≠ 0) :
    r = -EFAULT ∧ w'.is_read_only = true ∧ w'.lsids = wdev.lsids ∧
    w'.ring_buffer_size = wdev.ring_buffer_size ∧
    w'.lsuper0.uuid = get_random_bytes env.random_uuid 16 := by
  rcases clear_log_cases cfg env wdev reg ctl r w' reg' h with
    ⟨h0, -⟩ | ⟨-, hs, -⟩ | ⟨-, hg, hres, -⟩ | ⟨h0, -, -, hl, hb, hro, hu⟩
  · exact absurd h0 hr
  · exact absurd hs hsize
  · rw [hgrow hg] at hres
    cases hres
  · exact ⟨h0, hro, hl, hb, hu⟩

/-- C9, witness: `invalidate_lsid` fails on `wdev_ex` after a successful
sync. -/
theorem C9_clear_log_late_failure_restores_witness :
    ∃ w' reg',
      ioctl_wdev_clear_log cfg_fast env_invalidate_fails wdev_ex reg_ex ctl_clear_log
        = some (-EFAULT, w', reg') ∧
      w'.is_read_only = true ∧ w'.lsids = wdev_ex.lsids :=
  ⟨_, _, rfl,
    (C9_clear_log_late_failure_restores cfg_fast env_invalidate_fails wdev_ex reg_ex
      ctl_clear_log _ _ _ (by decide) (fun _ => rfl) rfl rfl (by decide)).2.1,
    (C9_clear_log_late_failure_restores cfg_fast env_invalidate_fails wdev_ex reg_ex
      ctl_clear_log _ _ _ (by decide) (fun _ => rfl) rfl rfl (by decide)).2.2.1⟩

/-! ## Registration: claim C10 -/

/-- C10.  If `alldevs_add` returns a non-zero result (the minor, the name or
the uuid is already registered, or a cell allocation fails), the registry
(lifecycle counter, device list, minor, name and uuid index) is exactly as it
was before the call. -/
theorem C10_alldevs_add_failure_unchanged (cfg : build_config) (gfp : gfp_outcomes)
    (reg : alldevs) (ptr : Nat) (wdev : walb_dev) (r : Int) (reg' : alldevs)
    (h : alldevs_add cfg gfp reg ptr wdev = some (r, reg')) (hr : r ≠ 0) :
    reg' = reg := by
  unfold alldevs_add at h
  by_cases hav : reg.is_available_ = 1
  · simp only [CHECK_RUNNING, hav, ne_eq, not_true_eq_false, if_false, Option.some_bind,
      Option.bind_eq_bind] at h
    by_cases h0 : (hashtbl_add gfp.minor_ok reg.htbl_minor_ (MINOR wdev.devt) ptr).1 = 0
    · rw [if_neg (not_not.mpr h0)] at h
      have d0 := hashtbl_add_then_del _ _ _ _ h0
      by_cases h1 : (hashtbl_add gfp.name_ok reg.htbl_name_
          (wdev.lsuper0.name.take (get_wdev_name_len cfg wdev)) ptr).1 = 0
      · rw [if_neg (not_not.mpr h1)] at h
        have d1 := hashtbl_add_then_del _ _ _ _ h1
        by_cases h2 : (hashtbl_add gfp.uuid_ok reg.htbl_uuid_
            (wdev.lsuper0.uuid.take 16) ptr).1 = 0
        · rw [if_neg (not_not.mpr h2)] at h
          simp only [Option.some.injEq, Prod.mk.injEq] at h
          exact absurd h.1.symm hr
        · rw [if_pos h2] at h
          have e2 := hashtbl_add_of_ne_zero _ _ _ _ h2
          simp only [Option.some.injEq, Prod.mk.injEq] at h
          rw [← h.2]
          simp only [d0, d1, e2]
          cases reg
          simp only at hav
          subst hav
          rfl
      · rw [if_pos h1] at h
        have e1 := hashtbl_add_of_ne_zero _ _ _ _ h1
        simp only [Option.some.injEq, Prod.mk.injEq] at h
        rw [← h.2]
        simp only [d0, e1]
        cases reg
        simp only at hav
        subst hav
        rfl
    · rw [if_pos h0] at h
      have e0 := hashtbl_add_of_ne_zero _ _ _ _ h0
      simp only [Option.some.injEq, Prod.mk.injEq] at h
      rw [← h.2]
      simp only [e0]
      cases reg
      simp only at hav
      subst hav
      rfl
  · simp [CHECK_RUNNING, hav] at h

/-- C10, witness: a device whose minor and name are new but whose uuid is
already registered is refused with `-EPERM`, after the minor and the name were
inserted, and the registry is as before. -/
theorem C10_alldevs_add_failure_unchanged_witness :
    ∃ r reg',
      alldevs_add cfg_fast gfp_ok reg_ex 2 wdev_same_uuid = some (r, reg') ∧
      r = -EPERM ∧ reg' = reg_ex :=
  ⟨_, _, rfl, rfl,
    C10_alldevs_add_failure_unchanged cfg_fast gfp_ok reg_ex 2 wdev_same_uuid _ _ rfl
      (by decide)⟩

/-! ## Checkpoint and freeze commands: claims C17 to C20 -/

/-- C17.  For every interval, the set-checkpoint-interval command returns
`-EFAULT` and leaves the device (hence the interval) unchanged when
`interval > WALB_MAX_CHECKPOINT_INTERVAL`; otherwise, the bound itself
included, it returns 0 and a following get-checkpoint-interval command
returns 0 with exactly that interval in `val_u32`. -/
theorem C17_set_checkpoint_interval (max_interval : Nat) (wdev : walb_dev)
    (ctl ctl_get : walb_ctl)
    (hset : ctl.command = WALB_IOCTL_SET_CHECKPOINT_INTERVAL)
    (hget : ctl_get.command = WALB_IOCTL_GET_CHECKPOINT_INTERVAL) :
    (max_interval < ctl.val_u32 →
      ioctl_wdev_set_checkpoint_interval max_interval wdev ctl = some (-EFAULT, wdev)) ∧
    (ctl.val_u32 ≤ max_interval →
      ∃ w', ioctl_wdev_set_checkpoint_interval max_interval wdev ctl = some (0, w') ∧
        ioctl_wdev_get_checkpoint_interval w' ctl_get
          = some (0, { ctl_get with val_u32 := ctl.val_u32 })) := by
  constructor
  · intro h
    simp [ioctl_wdev_set_checkpoint_interval, hset, h]
  · intro h
    refine ⟨{ wdev with cpd := set_checkpoint_interval wdev.cpd ctl.val_u32 }, ?_, ?_⟩
    · simp [ioctl_wdev_set_checkpoint_interval, hset, Nat.not_lt.mpr h]
    · simp [ioctl_wdev_get_checkpoint_interval, hget, get_checkpoint_interval,
        set_checkpoint_interval]

/-- C17, witness: with a maximum of 86400000 ms the interval 86400001 is
refused and the interval 86400000 is stored and read back. -/
theorem C17_set_checkpoint_interval_witness :
    ioctl_wdev_set_checkpoint_interval 86400000 wdev_ex
        (ctl_u32 WALB_IOCTL_SET_CHECKPOINT_INTERVAL 86400001) = some (-EFAULT, wdev_ex) ∧
    ∃ w', ioctl_wdev_set_checkpoint_interval 86400000 wdev_ex
        (ctl_u32 WALB_IOCTL_SET_CHECKPOINT_INTERVAL 86400000) = some (0, w') ∧
      ioctl_wdev_get_checkpoint_interval w' (ctl_u32 WALB_IOCTL_GET_CHECKPOINT_INTERVAL 0)
        = some (0, ctl_u32 WALB_IOCTL_GET_CHECKPOINT_INTERVAL 86400000) :=
  ⟨(C17_set_checkpoint_interval 86400000 wdev_ex
      (ctl_u32 WALB_IOCTL_SET_CHECKPOINT_INTERVAL 86400001)
      (ctl_u32 WALB_IOCTL_GET_CHECKPOINT_INTERVAL 0) rfl rfl).1 (by decide),
    (C17_set_checkpoint_interval 86400000 wdev_ex
      (ctl_u32 WALB_IOCTL_SET_CHECKPOINT_INTERVAL 86400000)
      (ctl_u32 WALB_IOCTL_GET_CHECKPOINT_INTERVAL 0) rfl rfl).2 (by decide)⟩

/-- C18.  The take-checkpoint command returns 0 if and only if
`take_checkpoint` succeeds; when it fails the command returns `-EFAULT` and
the read-only flag is set, and when it succeeds the read-only flag is left as
it was. -/
theorem C18_take_checkpoint_result (take_ok : Bool) (wdev : walb_dev) (ctl : walb_ctl)
    (hcmd : ctl.command = WALB_IOCTL_TAKE_CHECKPOINT) :
    ∃ r w', ioctl_wdev_take_checkpoint take_ok wdev ctl = some (r, w') ∧
      (r = 0 ↔ take_ok = true) ∧
      (take_ok = false → r = -EFAULT ∧ w'.is_read_only = true) ∧
      (take_ok = true → w'.is_read_only = wdev.is_read_only) := by
  cases take_ok
  · refine ⟨-EFAULT, { (take_checkpoint false (stop_checkpointing wdev)).2 with
      is_read_only := true }, ?_, ?_, ?_, ?_⟩
    · simp [ioctl_wdev_take_checkpoint, hcmd, take_checkpoint]
    · simp [EFAULT]
    · intro _
      exact ⟨rfl, rfl⟩
    · intro h
      cases h
  · refine ⟨0, start_checkpointing (take_checkpoint true (stop_checkpointing wdev)).2,
      ?_, ?_, ?_, ?_⟩
    · simp [ioctl_wdev_take_checkpoint, hcmd, take_checkpoint]
    · simp
    · intro h
      cases h
    · intro _
      rfl

/-- C18, witness: a failing `take_checkpoint` on the writable device `wdev_ex`
gives `-EFAULT` and a read-only device. -/
theorem C18_take_checkpoint_result_witness :
    wdev_ex.is_read_only = false ∧
    ∃ r w', ioctl_wdev_take_checkpoint false wdev_ex (ctl_u32 WALB_IOCTL_TAKE_CHECKPOINT 0)
        = some (r, w') ∧ r = -EFAULT ∧ w'.is_read_only = true := by
  obtain ⟨r, w', h, -, hf, -⟩ :=
    C18_take_checkpoint_result false wdev_ex (ctl_u32 WALB_IOCTL_TAKE_CHECKPOINT 0) rfl
  exact ⟨rfl, r, w', h, (hf rfl).1, (hf rfl).2⟩

/-- C19, the code at the failing input.  When `take_checkpoint` fails, the
command stops checkpointing, calls `take_checkpoint` and returns `-EFAULT`
without calling `start_checkpointing`: the scheduler is left stopped. -/
theorem C19_take_checkpoint_failure_leaves_stopped :
    ∃ w', ioctl_wdev_take_checkpoint false wdev_ex (ctl_u32 WALB_IOCTL_TAKE_CHECKPOINT 0)
        = some (-EFAULT, w') ∧
      w'.calls = [call.stop_checkpointing, call.take_checkpoint] ∧
      call.start_checkpointing ∉ w'.calls ∧
      (∃ w'', ioctl_wdev_take_checkpoint true wdev_ex (ctl_u32 WALB_IOCTL_TAKE_CHECKPOINT 0)
        = some (0, w'') ∧
        w''.calls = [call.stop_checkpointing, call.take_checkpoint,
          call.start_checkpointing]) :=
  ⟨_, rfl, rfl, by decide, _, rfl, rfl⟩

/-- C20.  For every requested timeout `t`, `ioctl_wdev_freeze` cancels a
pending melt and calls `freeze_if_melted` with the timeout `min t 86400`
(every `t ≤ 86400`, 0 included, unchanged; every larger `t` as 86400); it
returns 0 if `freeze_if_melted` reports success for that timeout and `-EFAULT`
otherwise. -/
theorem C20_freeze_clamps_timeout (freeze_id : Int) (freeze_ok : Nat → Bool)
    (wdev : walb_dev) (ctl : walb_ctl) (hcmd : ctl.command = freeze_id) :
    ∃ r w', ioctl_wdev_freeze freeze_id freeze_ok wdev ctl = some (r, w') ∧
      w'.calls = wdev.calls ++
        [call.cancel_melt_work, call.freeze_if_melted (min ctl.val_u32 86400)] ∧
      (r = 0 ↔ freeze_ok (min ctl.val_u32 86400) = true) ∧
      (r = 0 ∨ r = -EFAULT) ∧
      (ctl.val_u32 ≤ 86400 → min ctl.val_u32 86400 = ctl.val_u32) ∧
      (86400 < ctl.val_u32 → min ctl.val_u32 86400 = 86400) := by
  have hmin : (if ctl.val_u32 > 86400 then 86400 else ctl.val_u32) = min ctl.val_u32 86400 := by
    split_ifs with h
    · exact (Nat.min_eq_right (Nat.le_of_lt h)).symm
    · exact (Nat.min_eq_left (Nat.not_lt.mp h)).symm
  have hcalls : ∀ ok : Bool,
      (freeze_if_melted ok (min ctl.val_u32 86400) (cancel_melt_work wdev)).2.calls
        = wdev.calls ++
          [call.cancel_melt_work, call.freeze_if_melted (min ctl.val_u32 86400)] := by
    intro ok
    simp [freeze_if_melted, cancel_melt_work]
  cases hok : freeze_ok (min ctl.val_u32 86400)
  · refine ⟨-EFAULT, (freeze_if_melted false (min ctl.val_u32 86400)
      (cancel_melt_work wdev)).2, ?_, hcalls false, ?_, Or.inr rfl, ?_, ?_⟩
    · simp only [ioctl_wdev_freeze, hcmd, ne_eq, not_true_eq_false, if_false, hmin, hok]
      rfl
    · simp [EFAULT]
    · intro h
      exact Nat.min_eq_left h
    · intro h
      exact Nat.min_eq_right (Nat.le_of_lt h)
  · refine ⟨0, (freeze_if_melted true (min ctl.val_u32 86400)
      (cancel_melt_work wdev)).2, ?_, hcalls true, ?_, Or.inl rfl, ?_, ?_⟩
    · simp only [ioctl_wdev_freeze, hcmd, ne_eq, not_true_eq_false, if_false, hmin, hok]
      rfl
    · simp
    · intro h
      exact Nat.min_eq_left h
    · intro h
      exact Nat.min_eq_right (Nat.le_of_lt h)

/-- C20, witness: a request for 100000 seconds freezes for 86400 seconds. -/
theorem C20_freeze_clamps_timeout_witness :
    ∃ r w', ioctl_wdev_freeze 25 (fun t => decide (t ≤ 86400)) wdev_ex (ctl_u32 25 100000)
        = some (r, w') ∧
      w'.calls = [call.cancel_melt_work, call.freeze_if_melted 86400] ∧ r = 0 := by
  obtain ⟨r, w', h, hc, hr, -⟩ :=
    C20_freeze_clamps_timeout 25 (fun t => decide (t ≤ 86400)) wdev_ex (ctl_u32 25 100000) rfl
  exact ⟨r, w', h, hc, hr.mpr (by decide)⟩

/-! ## Registry lifecycle: claim C16 -/

/-- C16, counterexample.  A second `alldevs_init` on the running registry
`reg_ex` whose first `hashtbl_create` fails does not trap: it returns
`-ENOMEM` before `CHECK_START` is reached, with the counter still 1 (not 0)
and the list of devices re-initialised. -/
theorem C16_second_init_may_return :
    reg_ex.is_available_ = 1 ∧
    ∃ reg', alldevs_init create_name_fails reg_ex = some (-ENOMEM, reg') ∧
      reg'.is_available_ = 1 ∧ reg'.all_wdevs_ = [] :=
  ⟨rfl, _, rfl, rfl, rfl⟩

/-- C16, amended.  The lifecycle counter: an `alldevs_init` whose three table
creations succeed sets the counter to 1 and returns 0 when the counter was 0,
and traps otherwise (second init); an `alldevs_init` with a failing creation
returns `-ENOMEM` and leaves the counter as it was; `alldevs_exit` traps
unless the counter is 1 and sets it to 0 when it returns; every lookup, add,
del, pop, `get_free_minor` and lock operation traps when the counter is not 1;
add, del and pop leave the counter as it is. -/
theorem C16_lifecycle_counter (cfg : build_config) (mem : Nat → walb_dev)
    (gfp : gfp_outcomes) (created : create_outcomes) (reg : alldevs) :
    (created.name_ok = true → created.uuid_ok = true → created.minor_ok = true →
      alldevs_init created reg =
        if reg.is_available_ = 0 then
          some (0, { is_available_ := 1, all_wdevs_ := [], htbl_minor_ := [],
                     htbl_name_ := [], htbl_uuid_ := [] })
        else none) ∧
    (¬ (created.name_ok = true ∧ created.uuid_ok = true ∧ created.minor_ok = true) →
      ∃ reg', alldevs_init created reg = some (-ENOMEM, reg') ∧
        reg'.is_available_ = reg.is_available_) ∧
    (reg.is_available_ ≠ 1 → alldevs_exit reg = none) ∧
    (∀ reg', alldevs_exit reg = some reg' → reg'.is_available_ = 0) ∧
    (reg.is_available_ ≠ 1 →
      (∀ minor, search_wdev_with_minor reg minor = none) ∧
      (∀ name, search_wdev_with_name cfg reg name = none) ∧
      (∀ uuid, search_wdev_with_uuid reg uuid = none) ∧
      (∀ ptr wdev, alldevs_add cfg gfp reg ptr wdev = none) ∧
      (∀ ptr wdev, alldevs_del cfg reg ptr wdev = none) ∧
      alldevs_pop cfg mem reg = none ∧
      (∀ fuel, get_free_minor fuel reg = none) ∧
      alldevs_read_lock reg = none ∧ alldevs_read_unlock reg = none ∧
      alldevs_write_lock reg = none ∧ alldevs_write_unlock reg = none) ∧
    (∀ ptr wdev r reg', alldevs_add cfg gfp reg ptr wdev = some (r, reg') →
      reg'.is_available_ = reg.is_available_) ∧
    (∀ ptr wdev reg', alldevs_del cfg reg ptr wdev = some reg' →
      reg'.is_available_ = reg.is_available_) ∧
    (∀ r reg', alldevs_pop cfg mem reg = some (r, reg') →
      reg'.is_available_ = reg.is_available_) := by
  have hdel : ∀ ptr wdev reg', alldevs_del cfg reg ptr wdev = some reg' →
      reg'.is_available_ = reg.is_available_ := by
    intro ptr wdev reg' h
    unfold alldevs_del at h
    by_cases hav : reg.is_available_ = 1
    · simp only [CHECK_RUNNING, hav, ne_eq, not_true_eq_false, if_false, Option.some_bind,
        Option.bind_eq_bind] at h
      split_ifs at h
      simp only [Option.some.injEq] at h
      rw [← h, hav]
    · simp [CHECK_RUNNING, hav] at h
  refine ⟨?_, ?_, ?_, ?_, ?_, ?_, hdel, ?_⟩
  · intro h1 h2 h3
    by_cases h0 : reg.is_available_ = 0
    · simp [alldevs_init, hashtbl_create, h1, h2, h3, CHECK_START, h0]
    · simp [alldevs_init, hashtbl_create, h1, h2, h3, CHECK_START, h0]
  · intro h
    obtain ⟨n, u, m⟩ := created
    cases n
    · exact ⟨_, rfl, rfl⟩
    · cases u
      · exact ⟨_, rfl, rfl⟩
      · cases m
        · exact ⟨_, rfl, rfl⟩
        · exact absurd ⟨rfl, rfl, rfl⟩ h
  · intro h
    have h' : reg.is_available_ - 1 ≠ 0 := fun e => h (by omega)
    simp [alldevs_exit, CHECK_STOP, h']
  · intro reg' h
    unfold alldevs_exit at h
    by_cases h0 : reg.is_available_ - 1 = 0
    · simp only [CHECK_STOP, h0, ne_eq, not_true_eq_false, if_false, Option.some_bind,
        Option.bind_eq_bind] at h
      split_ifs at h
      simp only [Option.some.injEq] at h
      rw [← h]
    · simp [CHECK_STOP, h0] at h
  · intro h
    refine ⟨?_, ?_, ?_, ?_, ?_, ?_, ?_, ?_, ?_, ?_, ?_⟩ <;>
      simp [search_wdev_with_minor, search_wdev_with_name, search_wdev_with_uuid,
        alldevs_add, alldevs_del, alldevs_pop, get_free_minor, alldevs_read_lock,
        alldevs_read_unlock, alldevs_write_lock, alldevs_write_unlock, CHECK_RUNNING, h]
  · intro ptr wdev r reg' h
    unfold alldevs_add at h
    by_cases hav : reg.is_available_ = 1
    · simp only [CHECK_RUNNING, hav, ne_eq, not_true_eq_false, if_false, Option.some_bind,
        Option.bind_eq_bind] at h
      split_ifs at h <;>
        · simp only [Option.some.injEq, Prod.mk.injEq] at h
          rw [← h.2, hav]
    · simp [CHECK_RUNNING, hav] at h
  · intro r reg' h
    unfold alldevs_pop at h
    by_cases hav : reg.is_available_ = 1
    · simp only [CHECK_RUNNING, hav, ne_eq, not_true_eq_false, if_false, Option.some_bind,
        Option.bind_eq_bind] at h
      split at h
      · simp only [Option.some.injEq, Prod.mk.injEq] at h
        rw [← h.2]
      · simp only [Option.map_eq_some', Prod.mk.injEq] at h
        obtain ⟨reg1, h1, -, rfl⟩ := h
        exact hdel _ _ _ h1
    · simp [CHECK_RUNNING, hav] at h

/-- C16, witness: from the state at module load (counter 0) a successful
`alldevs_init` gives counter 1, a following `alldevs_exit` gives counter 0,
and before the init a lookup traps. -/
theorem C16_lifecycle_counter_witness :
    alldevs_loaded.is_available_ = 0 ∧
    search_wdev_with_minor alldevs_loaded 0 = none ∧
    (∃ reg1, alldevs_init create_ok alldevs_loaded = some (0, reg1) ∧
      reg1.is_available_ = 1 ∧
      ∃ reg2, alldevs_exit reg1 = some reg2 ∧ reg2.is_available_ = 0) ∧
    alldevs_init create_ok reg_ex = none ∧
    alldevs_exit alldevs_loaded = none :=
  ⟨rfl,
    ((C16_lifecycle_counter cfg_fast mem_ex gfp_ok create_ok alldevs_loaded).2.2.2.2.1
      (by decide)).1 0,
    ⟨_, (C16_lifecycle_counter cfg_fast mem_ex gfp_ok create_ok alldevs_loaded).1 rfl rfl rfl,
      rfl, _, rfl, rfl⟩,
    (C16_lifecycle_counter cfg_fast mem_ex gfp_ok create_ok reg_ex).1 rfl rfl rfl,
    (C16_lifecycle_counter cfg_fast mem_ex gfp_ok create_ok alldevs_loaded).2.2.1
      (by decide)⟩

/-! ## Shared lemmas: lookups in an index -/

theorem hashtbl_lookup_cons {κ : Type} [DecidableEq κ] (htbl : hash_tbl κ)
    (key key' : κ) (val : Nat) :
    hashtbl_lookup ((key, val) :: htbl) key' =
      if key = key' then some val else hashtbl_lookup htbl key' := by
  unfold hashtbl_lookup
  by_cases h : key = key'
  · simp [List.find?, h]
  · simp [List.find?, h]

theorem hashtbl_add_of_registered {κ : Type} [DecidableEq κ] (alloc_ok : Bool)
    (htbl : hash_tbl κ) (key : κ) (val : Nat) (h : hashtbl_lookup htbl key ≠ none) :
    hashtbl_add alloc_ok htbl key val = (-EPERM, htbl) := by
  unfold hashtbl_add
  rw [if_pos (Option.isSome_iff_ne_none.mpr h)]

theorem hashtbl_add_of_free {κ : Type} [DecidableEq κ]
    (htbl : hash_tbl κ) (key : κ) (val : Nat) (h : hashtbl_lookup htbl key = none) :
    hashtbl_add true htbl key val = (0, (key, val) :: htbl) := by
  unfold hashtbl_add
  simp [h]

theorem hashtbl_add_of_alloc_failure {κ : Type} [DecidableEq κ]
    (htbl : hash_tbl κ) (key : κ) (val : Nat) (h : hashtbl_lookup htbl key = none) :
    hashtbl_add false htbl key val = (-ENOMEM, htbl) := by
  unfold hashtbl_add
  simp [h]

theorem hashtbl_del_cons_self_eq {κ : Type} [DecidableEq κ] (htbl : hash_tbl κ)
    (key : κ) (val : Nat) :
    hashtbl_del ((key, val) :: htbl) key = (some val, htbl) := by
  simp [hashtbl_del, hashtbl_lookup_cons, List.eraseP_cons]

theorem alldevs_add_of_free (cfg : build_config) (reg : alldevs) (ptr : Nat)
    (wdev : walb_dev) (hrun : reg.is_available_ = 1)
    (hminor : hashtbl_lookup reg.htbl_minor_ (wdev_minor_key wdev) = none)
    (hname : hashtbl_lookup reg.htbl_name_ (wdev_name_key cfg wdev) = none)
    (huuid : hashtbl_lookup reg.htbl_uuid_ (wdev_uuid_key wdev) = none) :
    alldevs_add cfg gfp_ok reg ptr wdev =
      some (0,
        { reg with
          htbl_minor_ := (wdev_minor_key wdev, ptr) :: reg.htbl_minor_
          htbl_name_ := (wdev_name_key cfg wdev, ptr) :: reg.htbl_name_
          htbl_uuid_ := (wdev_uuid_key wdev, ptr) :: reg.htbl_uuid_
          all_wdevs_ := reg.all_wdevs_ ++ [ptr] }) := by
  unfold wdev_minor_key at hminor
  unfold wdev_name_key at hname
  unfold wdev_uuid_key at huuid
  simp only [alldevs_add, CHECK_RUNNING, hrun, ne_eq, not_true_eq_false, if_false,
    Option.some_bind, Option.bind_eq_bind, gfp_ok, hashtbl_add_of_free _ _ _ hminor,
    hashtbl_add_of_free _ _ _ hname, hashtbl_add_of_free _ _ _ huuid]
  rfl

theorem alldevs_add_eq_zero (cfg : build_config) (gfp : gfp_outcomes) (reg : alldevs)
    (ptr : Nat) (wdev : walb_dev) (reg' : alldevs)
    (h : alldevs_add cfg gfp reg ptr wdev = some (0, reg')) :
    reg.is_available_ = 1 ∧
    hashtbl_lookup reg.htbl_minor_ (wdev_minor_key wdev) = none ∧
    hashtbl_lookup reg.htbl_name_ (wdev_name_key cfg wdev) = none ∧
    hashtbl_lookup reg.htbl_uuid_ (wdev_uuid_key wdev) = none ∧
    reg' =
      { reg with
        htbl_minor_ := (wdev_minor_key wdev, ptr) :: reg.htbl_minor_
        htbl_name_ := (wdev_name_key cfg wdev, ptr) :: reg.htbl_name_
        htbl_uuid_ := (wdev_uuid_key wdev, ptr) :: reg.htbl_uuid_
        all_wdevs_ := reg.all_wdevs_ ++ [ptr] } := by
  unfold alldevs_add at h
  by_cases hav : reg.is_available_ = 1
  · simp only [CHECK_RUNNING, hav, ne_eq, not_true_eq_false, if_false, Option.some_bind,
      Option.bind_eq_bind] at h
    by_cases h0 : (hashtbl_add gfp.minor_ok reg.htbl_minor_ (MINOR wdev.devt) ptr).1 = 0
    · rw [if_neg (not_not.mpr h0)] at h
      obtain ⟨e0, f0, -⟩ := hashtbl_add_of_eq_zero _ _ _ _ h0
      by_cases h1 : (hashtbl_add gfp.name_ok reg.htbl_name_
          (wdev.lsuper0.name.take (get_wdev_name_len cfg wdev)) ptr).1 = 0
      · rw [if_neg (not_not.mpr h1)] at h
        obtain ⟨e1, f1, -⟩ := hashtbl_add_of_eq_zero _ _ _ _ h1
        by_cases h2 : (hashtbl_add gfp.uuid_ok reg.htbl_uuid_
            (wdev.lsuper0.uuid.take 16) ptr).1 = 0
        · rw [if_neg (not_not.mpr h2)] at h
          obtain ⟨e2, f2, -⟩ := hashtbl_add_of_eq_zero _ _ _ _ h2
          simp only [Option.some.injEq, Prod.mk.injEq, true_and] at h
          refine ⟨hav, f0, f1, f2, ?_⟩
          rw [← h]
          simp only [e0, e1, e2]
          cases reg
          simp only at hav
          subst hav
          rfl
        · rw [if_pos h2] at h
          simp only [Option.some.injEq, Prod.mk.injEq] at h
          exact absurd h.1 h2
      · rw [if_pos h1] at h
        simp only [Option.some.injEq, Prod.mk.injEq] at h
        exact absurd h.1 h1
    · rw [if_pos h0] at h
      simp only [Option.some.injEq, Prod.mk.injEq] at h
      exact absurd h.1 h0
  · simp [CHECK_RUNNING, hav] at h

/-! ## Registration and removal: claims C11 to C13 -/

/-- C11, counterexample.  Three devices that each collide with the registry
`reg_ex` on exactly one key (the minor, the name, the uuid): `alldevs_add`
gives the same result, `-EPERM` with the registry unchanged, in all three
cases. -/
theorem C11_collisions_indistinguishable :
    (hashtbl_lookup reg_ex.htbl_minor_ (wdev_minor_key wdev_same_minor) ≠ none ∧
      hashtbl_lookup reg_ex.htbl_name_ (wdev_name_key cfg_fast wdev_same_minor) = none ∧
      hashtbl_lookup reg_ex.htbl_uuid_ (wdev_uuid_key wdev_same_minor) = none) ∧
    (hashtbl_lookup reg_ex.htbl_minor_ (wdev_minor_key wdev_same_name) = none ∧
      hashtbl_lookup reg_ex.htbl_name_ (wdev_name_key cfg_fast wdev_same_name) ≠ none ∧
      hashtbl_lookup reg_ex.htbl_uuid_ (wdev_uuid_key wdev_same_name) = none) ∧
    (hashtbl_lookup reg_ex.htbl_minor_ (wdev_minor_key wdev_same_uuid) = none ∧
      hashtbl_lookup reg_ex.htbl_name_ (wdev_name_key cfg_fast wdev_same_uuid) = none ∧
      hashtbl_lookup reg_ex.htbl_uuid_ (wdev_uuid_key wdev_same_uuid) ≠ none) ∧
    alldevs_add cfg_fast gfp_ok reg_ex 2 wdev_same_minor = some (-EPERM, reg_ex) ∧
    alldevs_add cfg_fast gfp_ok reg_ex 2 wdev_same_name = some (-EPERM, reg_ex) ∧
    alldevs_add cfg_fast gfp_ok reg_ex 2 wdev_same_uuid = some (-EPERM, reg_ex) := by
  decide

/-- C11, amended.  On a running registry, when the minor, the name or the
uuid of the device is already registered (the cells of the keys inserted
before it being allocated), `alldevs_add` returns `-EPERM` whichever key
collided, and the registry is unchanged: the result tells a collision from
success, not which key collided. -/
theorem C11_collision_is_eperm (cfg : build_config) (gfp : gfp_outcomes) (reg : alldevs)
    (ptr : Nat) (wdev : walb_dev) (hrun : reg.is_available_ = 1) :
    (hashtbl_lookup reg.htbl_minor_ (wdev_minor_key wdev) ≠ none →
      alldevs_add cfg gfp reg ptr wdev = some (-EPERM, reg)) ∧
    (hashtbl_lookup reg.htbl_minor_ (wdev_minor_key wdev) = none → gfp.minor_ok = true →
      hashtbl_lookup reg.htbl_name_ (wdev_name_key cfg wdev) ≠ none →
      alldevs_add cfg gfp reg ptr wdev = some (-EPERM, reg)) ∧
    (hashtbl_lookup reg.htbl_minor_ (wdev_minor_key wdev) = none → gfp.minor_ok = true →
      hashtbl_lookup reg.htbl_name_ (wdev_name_key cfg wdev) = none → gfp.name_ok = true →
      hashtbl_lookup reg.htbl_uuid_ (wdev_uuid_key wdev) ≠ none →
      alldevs_add cfg gfp reg ptr wdev = some (-EPERM, reg)) := by
  have hreg : ({ reg with is_available_ := 1 } : alldevs) = reg := by
    cases reg
    simp only at hrun
    subst hrun
    rfl
  unfold wdev_minor_key wdev_name_key wdev_uuid_key
  refine ⟨?_, ?_, ?_⟩
  · intro h0
    simp only [alldevs_add, CHECK_RUNNING, hrun, ne_eq, not_true_eq_false, if_false,
      Option.some_bind, Option.bind_eq_bind, hashtbl_add_of_registered _ _ _ _ h0]
    simp [EPERM, hreg]
  · intro h0 g0 h1
    simp only [alldevs_add, CHECK_RUNNING, hrun, ne_eq, not_true_eq_false, if_false,
      Option.some_bind, Option.bind_eq_bind, g0, hashtbl_add_of_free _ _ _ h0,
      hashtbl_add_of_registered _ _ _ _ h1, hashtbl_del_cons_self]
    simp [EPERM, hreg]
  · intro h0 g0 h1 g1 h2
    simp only [alldevs_add, CHECK_RUNNING, hrun, ne_eq, not_true_eq_false, if_false,
      Option.some_bind, Option.bind_eq_bind, g0, g1, hashtbl_add_of_free _ _ _ h0,
      hashtbl_add_of_free _ _ _ h1, hashtbl_add_of_registered _ _ _ _ h2,
      hashtbl_del_cons_self]
    simp [EPERM, hreg]

/-- C11, witness: the device colliding on the uuid only. -/
theorem C11_collision_is_eperm_witness :
    alldevs_add cfg_fast gfp_ok reg_ex 2 wdev_same_uuid = some (-EPERM, reg_ex) :=
  (C11_collision_is_eperm cfg_fast gfp_ok reg_ex 2 wdev_same_uuid rfl).2.2
    (by decide) rfl (by decide) rfl (by decide)

/-- C12, counterexample.  The minor, the name and the uuid of `wdev_new` are
all unregistered in `reg_ex`, but the first cell allocation fails:
`alldevs_add` returns `-ENOMEM`, not 0, and registers nothing. -/
theorem C12_unregistered_keys_may_fail :
    hashtbl_lookup reg_ex.htbl_minor_ (wdev_minor_key wdev_new) = none ∧
    hashtbl_lookup reg_ex.htbl_name_ (wdev_name_key cfg_fast wdev_new) = none ∧
    hashtbl_lookup reg_ex.htbl_uuid_ (wdev_uuid_key wdev_new) = none ∧
    alldevs_add cfg_fast gfp_minor_fails reg_ex 2 wdev_new = some (-ENOMEM, reg_ex) ∧
    search_wdev_with_minor reg_ex (MINOR wdev_new.devt) = some none := by
  decide

/-- C12, amended.  On a running registry, for a device (at a non-null
address) whose minor, name and uuid are all unregistered and whose three cell
allocations succeed, `alldevs_add` returns 0; afterwards the three lookups
with the device's minor, name and uuid return the device, the device is at
the tail of the list, and every lookup with another key gives what it gave
before. -/
theorem C12_alldevs_add_registers (cfg : build_config) (reg : alldevs) (ptr : Nat)
    (wdev : walb_dev) (hrun : reg.is_available_ = 1) (hptr : ptr ≠ 0)
    (hminor : hashtbl_lookup reg.htbl_minor_ (wdev_minor_key wdev) = none)
    (hname : hashtbl_lookup reg.htbl_name_ (wdev_name_key cfg wdev) = none)
    (huuid : hashtbl_lookup reg.htbl_uuid_ (wdev_uuid_key wdev) = none) :
    ∃ reg', alldevs_add cfg gfp_ok reg ptr wdev = some (0, reg') ∧
      search_wdev_with_minor reg' (MINOR wdev.devt) = some (some ptr) ∧
      search_wdev_with_name cfg reg' wdev.lsuper0.name = some (some ptr) ∧
      search_wdev_with_uuid reg' wdev.lsuper0.uuid = some (some ptr) ∧
      reg'.all_wdevs_ = reg.all_wdevs_ ++ [ptr] ∧
      (∀ minor, minor ≠ MINOR wdev.devt →
        search_wdev_with_minor reg' minor = search_wdev_with_minor reg minor) ∧
      (∀ name, name.take (strnlen name (cfg.WALB_DEV_NAME_MAX_LEN - 1))
          ≠ wdev_name_key cfg wdev →
        search_wdev_with_name cfg reg' name = search_wdev_with_name cfg reg name) ∧
      (∀ uuid, uuid.take 16 ≠ wdev_uuid_key wdev →
        search_wdev_with_uuid reg' uuid = search_wdev_with_uuid reg uuid) := by
  refine ⟨_, alldevs_add_of_free cfg reg ptr wdev hrun hminor hname huuid,
    ?_, ?_, ?_, rfl, ?_, ?_, ?_⟩
  · simp [search_wdev_with_minor, CHECK_RUNNING, hrun, hashtbl_lookup_cons, wdev_minor_key,
      hptr]
  · simp [search_wdev_with_name, CHECK_RUNNING, hrun, hashtbl_lookup_cons, wdev_name_key,
      get_wdev_name_len, hptr]
  · simp [search_wdev_with_uuid, CHECK_RUNNING, hrun, hashtbl_lookup_cons, wdev_uuid_key,
      hptr]
  · intro minor hne
    simp [search_wdev_with_minor, CHECK_RUNNING, hrun, hashtbl_lookup_cons, wdev_minor_key,
      Ne.symm hne]
  · intro name hne
    simp [search_wdev_with_name, CHECK_RUNNING, hrun, hashtbl_lookup_cons, Ne.symm hne]
  · intro uuid hne
    simp [search_wdev_with_uuid, CHECK_RUNNING, hrun, hashtbl_lookup_cons, Ne.symm hne]

/-- C12, witness: `wdev_new` at address 2 is added to `reg_ex`, which gives
`reg_two`, and is then found by its minor 2. -/
theorem C12_alldevs_add_registers_witness :
    ∃ reg', alldevs_add cfg_fast gfp_ok reg_ex 2 wdev_new = some (0, reg') ∧
      reg' = reg_two ∧ search_wdev_with_minor reg' 2 = some (some 2) := by
  obtain ⟨reg', h, hm, -⟩ :=
    C12_alldevs_add_registers cfg_fast reg_ex 2 wdev_new rfl (by decide) (by decide)
      (by decide) (by decide)
  have h' : alldevs_add cfg_fast gfp_ok reg_ex 2 wdev_new = some (0, reg_two) := by decide
  rw [h'] at h
  simp only [Option.some.injEq, Prod.mk.injEq, true_and] at h
  exact ⟨reg', by rw [← h]; exact h', h.symm, hm⟩

/-- C13.  Round trip: if `alldevs_add` of a device that is not yet in the list
succeeds and `alldevs_del` of the same device is called next, `alldevs_del`
returns (its three assertions hold) and the registry, that is the counter,
the list and the minor, name and uuid index, is equal to the registry before
the add. -/
theorem C13_add_then_del (cfg : build_config) (gfp : gfp_outcomes) (reg reg1 : alldevs)
    (ptr : Nat) (wdev : walb_dev)
    (hadd : alldevs_add cfg gfp reg ptr wdev = some (0, reg1))
    (hnew : ptr ∉ reg.all_wdevs_) :
    alldevs_del cfg reg1 ptr wdev = some reg := by
  obtain ⟨hrun, -, -, -, rfl⟩ := alldevs_add_eq_zero cfg gfp reg ptr wdev reg1 hadd
  have hlist : list_del (reg.all_wdevs_ ++ [ptr]) ptr = reg.all_wdevs_ := by
    unfold list_del
    rw [List.erase_append_right _ hnew]
    simp
  unfold wdev_minor_key wdev_name_key wdev_uuid_key at *
  simp only [alldevs_del, CHECK_RUNNING, hrun, ne_eq, not_true_eq_false, if_false,
    Option.some_bind, Option.bind_eq_bind, hashtbl_del_cons_self_eq, hlist]
  cases reg
  simp only at hrun
  subst hrun
  rfl

/-- C13, witness: adding `wdev_new` at address 2 to `reg_ex` and deleting it
again gives `reg_ex`. -/
theorem C13_add_then_del_witness :
    alldevs_add cfg_fast gfp_ok reg_ex 2 wdev_new = some (0, reg_two) ∧
    alldevs_del cfg_fast reg_two 2 wdev_new = some reg_ex :=
  ⟨rfl, C13_add_then_del cfg_fast gfp_ok reg_ex reg_two 2 wdev_new rfl (by decide)⟩

/-! ## Free minor: claim C14 -/

theorem get_free_minor_loop_spec (htbl : hash_tbl Nat) (m : Nat) (hm2 : m % 2 = 0)
    (hm32 : m < 2 ^ 32) (hfree : hashtbl_lookup htbl m = none) :
    ∀ n minor, minor % 2 = 0 → minor + 2 * n = m →
      ∃ k, minor ≤ k ∧ k ≤ m ∧ k % 2 = 0 ∧ hashtbl_lookup htbl k = none ∧
        (∀ j, j % 2 = 0 → minor ≤ j → j < k → hashtbl_lookup htbl j ≠ none) ∧
        ∀ fuel, (k - minor) / 2 < fuel → get_free_minor_loop htbl fuel minor = some k := by
  intro n
  induction n with
  | zero =>
    intro minor _ hmn
    have hmm : minor = m := by omega
    subst hmm
    refine ⟨minor, le_refl _, le_refl _, hm2, hfree, ?_, ?_⟩
    · intro j _ h1 h2
      omega
    · intro fuel hf
      cases fuel with
      | zero => omega
      | succ f => simp [get_free_minor_loop, hfree]
  | succ n ih =>
    intro minor hmin2 hmn
    by_cases hl : hashtbl_lookup htbl minor = none
    · refine ⟨minor, le_refl _, by omega, hmin2, hl, ?_, ?_⟩
      · intro j _ h1 h2
        omega
      · intro fuel hf
        cases fuel with
        | zero => omega
        | succ f => simp [get_free_minor_loop, hl]
    · obtain ⟨k, hk1, hk2, hk3, hk4, hk5, hk6⟩ := ih (minor + 2) (by omega) (by omega)
      refine ⟨k, by omega, hk2, hk3, hk4, ?_, ?_⟩
      · intro j hj2 h1 h2
        by_cases hj : j = minor
        · rw [hj]
          exact hl
        · exact hk5 j hj2 (by omega) h2
      · intro fuel hf
        cases fuel with
        | zero => omega
        | succ f =>
          have hwrap : (minor + 2) % 2 ^ 32 = minor + 2 := Nat.mod_eq_of_lt (by omega)
          have hf' : (k - (minor + 2)) / 2 < f := by omega
          simp only [get_free_minor_loop, ne_eq, hl, not_false_eq_true, if_true, hwrap]
          exact hk6 f hf'

/-- C14.  On a running registry in which some even minor below `2 ^ 32` is not
registered, `get_free_minor` terminates (every fuel above `k / 2` is enough)
and returns the smallest even minor `k` absent from the minor index: `k` is
even, not registered, and every smaller even minor is registered.  The
function only reads the registry. -/
theorem C14_get_free_minor_least (reg : alldevs) (m : Nat)
    (hrun : reg.is_available_ = 1) (hm2 : m % 2 = 0) (hm32 : m < 2 ^ 32)
    (hfree : hashtbl_lookup reg.htbl_minor_ m = none) :
    ∃ k, k ≤ m ∧ k % 2 = 0 ∧ hashtbl_lookup reg.htbl_minor_ k = none ∧
      (∀ j, j % 2 = 0 → j < k → hashtbl_lookup reg.htbl_minor_ j ≠ none) ∧
      (∀ fuel, k / 2 < fuel → get_free_minor fuel reg = some (some k)) ∧
      get_free_minor (2 ^ 31) reg = some (some k) := by
  obtain ⟨k, -, hk2, hk3, hk4, hk5, hk6⟩ :=
    get_free_minor_loop_spec reg.htbl_minor_ m hm2 hm32 hfree (m / 2) 0 rfl (by omega)
  have hfuel : ∀ fuel, k / 2 < fuel → get_free_minor fuel reg = some (some k) := by
    intro fuel hf
    simp only [get_free_minor, CHECK_RUNNING, hrun, ne_eq, not_true_eq_false, if_false,
      Option.map_some']
    rw [hk6 fuel (by simpa using hf)]
  refine ⟨k, hk2, hk3, hk4, fun j hj hlt => hk5 j hj (Nat.zero_le _) hlt, hfuel, ?_⟩
  exact hfuel _ (by omega)

/-- C14, witness: with the minors 0, 2 and 6 registered the free minor is 4. -/
theorem C14_get_free_minor_least_witness :
    get_free_minor (2 ^ 31) reg_minors = some (some 4) := by
  obtain ⟨k, hk1, hk2, hk3, hk4, -, hk6⟩ :=
    C14_get_free_minor_least reg_minors 4 rfl (by decide) (by decide) (by decide)
  have hk : k = 4 := by
    have h0 := hk4 0 (by decide)
    have h2 := hk4 2 (by decide)
    by_contra hne
    have hlt : k < 4 := lt_of_le_of_ne hk1 hne
    interval_cases k
    · exact absurd hk3 (by decide)
    · exact absurd hk2 (by decide)
    · exact absurd hk3 (by decide)
    · exact absurd hk2 (by decide)
  rw [hk] at hk6
  exact hk6

/-! ## Shared lemmas: indices with one cell per key -/

theorem hashtbl_lookup_of_mem {κ : Type} [DecidableEq κ] (htbl : hash_tbl κ)
    (key : κ) (val : Nat) (hnd : (htbl.map Prod.fst).Nodup) (hmem : (key, val) ∈ htbl) :
    hashtbl_lookup htbl key = some val := by
  induction htbl with
  | nil => cases hmem
  | cons c t ih =>
    obtain ⟨k0, v0⟩ := c
    rw [List.map_cons, List.nodup_cons] at hnd
    rw [hashtbl_lookup_cons]
    rcases List.mem_cons.mp hmem with h | h
    · simp only [Prod.mk.injEq] at h
      rw [if_pos h.1.symm, h.2]
    · have hk : k0 ≠ key := by
        intro e
        apply hnd.1
        rw [e]
        exact List.mem_map.mpr ⟨_, h, rfl⟩
      rw [if_neg hk]
      exact ih hnd.2 h

theorem hashtbl_lookup_eq_none {κ : Type} [DecidableEq κ] (htbl : hash_tbl κ) (key : κ)
    (h : ∀ c ∈ htbl, c.1 ≠ key) : hashtbl_lookup htbl key = none := by
  induction htbl with
  | nil => rfl
  | cons c t ih =>
    obtain ⟨k0, v0⟩ := c
    rw [hashtbl_lookup_cons, if_neg (h (k0, v0) (List.mem_cons_self _ _))]
    exact ih fun c hc => h c (List.mem_cons_of_mem _ hc)

theorem hashtbl_del_mem {κ : Type} [DecidableEq κ] (htbl : hash_tbl κ) (key : κ)
    (hnd : (htbl.map Prod.fst).Nodup) (c : κ × Nat) :
    c ∈ (hashtbl_del htbl key).2 ↔ c ∈ htbl ∧ c.1 ≠ key := by
  induction htbl with
  | nil => simp [hashtbl_del]
  | cons c0 t ih =>
    obtain ⟨k0, v0⟩ := c0
    rw [List.map_cons, List.nodup_cons] at hnd
    have ih' := ih hnd.2
    simp only [hashtbl_del] at ih' ⊢
    by_cases hk : k0 = key
    · subst hk
      simp only [List.eraseP_cons, decide_True, cond_true, List.mem_cons]
      constructor
      · intro hc
        refine ⟨Or.inr hc, ?_⟩
        intro e
        apply hnd.1
        rw [← e]
        exact List.mem_map.mpr ⟨_, hc, rfl⟩
      · rintro ⟨h | h, hne⟩
        · rw [h] at hne
          exact absurd rfl hne
        · exact h
    · simp only [List.eraseP_cons, hk, decide_False, cond_false, List.mem_cons, ih']
      constructor
      · rintro (h | ⟨h, hne⟩)
        · refine ⟨Or.inl h, ?_⟩
          rw [h]
          exact hk
        · exact ⟨Or.inr h, hne⟩
      · rintro ⟨h | h, hne⟩
        · exact Or.inl h
        · exact Or.inr ⟨h, hne⟩

theorem hashtbl_del_nodup {κ : Type} [DecidableEq κ] (htbl : hash_tbl κ) (key : κ)
    (hnd : (htbl.map Prod.fst).Nodup) :
    ((hashtbl_del htbl key).2.map Prod.fst).Nodup :=
  hnd.sublist ((List.eraseP_sublist htbl).map Prod.fst)

theorem htbl_indexes_del {κ : Type} [DecidableEq κ] (htbl : hash_tbl κ) (devs : List Nat)
    (key : Nat → κ) (p : Nat) (hidx : htbl_indexes htbl devs key) (hnd : devs.Nodup)
    (hp : p ∈ devs) :
    (hashtbl_del htbl (key p)).1 = some p ∧
    htbl_indexes (hashtbl_del htbl (key p)).2 (devs.erase p) key ∧
    hashtbl_lookup (hashtbl_del htbl (key p)).2 (key p) = none := by
  obtain ⟨h1, h2, h3⟩ := hidx
  have hlook : ∀ v, (key p, v) ∈ htbl → v = p := by
    intro v hv
    have e1 := hashtbl_lookup_of_mem htbl (key p) v h1 hv
    have e2 := hashtbl_lookup_of_mem htbl (key p) p h1 (h3 p hp)
    rw [e1] at e2
    exact Option.some.inj e2
  refine ⟨hashtbl_lookup_of_mem htbl (key p) p h1 (h3 p hp), ⟨hashtbl_del_nodup htbl _ h1, ?_, ?_⟩,
    ?_⟩
  · intro c hc
    rw [hashtbl_del_mem htbl _ h1] at hc
    obtain ⟨hc1, hc2⟩ := hc
    obtain ⟨hm, hk⟩ := h2 c hc1
    refine ⟨?_, hk⟩
    rw [hnd.mem_erase_iff]
    refine ⟨?_, hm⟩
    intro e
    apply hc2
    rw [hk, e]
  · intro v hv
    rw [hnd.mem_erase_iff] at hv
    rw [hashtbl_del_mem htbl _ h1]
    refine ⟨h3 v hv.2, ?_⟩
    intro e
    apply hv.1
    apply hlook
    have := h3 v hv.2
    simp only at e
    rw [e] at this
    exact this
  · apply hashtbl_lookup_eq_none
    intro c hc
    rw [hashtbl_del_mem htbl _ h1] at hc
    exact hc.2

theorem search_of_consistent (cfg : build_config) (mem : Nat → walb_dev) (reg : alldevs)
    (hc : registry_consistent cfg mem reg) (q : Nat) (hq : q ∈ reg.all_wdevs_) :
    search_wdev_with_minor reg (MINOR (mem q).devt) = some (some q) ∧
    search_wdev_with_name cfg reg (mem q).lsuper0.name = some (some q) ∧
    search_wdev_with_uuid reg (mem q).lsuper0.uuid = some (some q) := by
  obtain ⟨hrun, -, h0, hm, hn, hu⟩ := hc
  have hq0 : q ≠ 0 := fun e => h0 (e ▸ hq)
  have lm := hashtbl_lookup_of_mem _ _ _ hm.1 (hm.2.2 q hq)
  have ln := hashtbl_lookup_of_mem _ _ _ hn.1 (hn.2.2 q hq)
  have lu := hashtbl_lookup_of_mem _ _ _ hu.1 (hu.2.2 q hq)
  simp only [wdev_minor_key, wdev_name_key, wdev_uuid_key, get_wdev_name_len] at lm ln lu
  refine ⟨?_, ?_, ?_⟩
  · simp [search_wdev_with_minor, CHECK_RUNNING, hrun, lm, hq0]
  · simp [search_wdev_with_name, CHECK_RUNNING, hrun, ln, hq0]
  · simp [search_wdev_with_uuid, CHECK_RUNNING, hrun, lu, hq0]

theorem alldevs_del_consistent (cfg : build_config) (mem : Nat → walb_dev) (reg : alldevs)
    (hc : registry_consistent cfg mem reg) (p : Nat) (hp : p ∈ reg.all_wdevs_) :
    ∃ reg', alldevs_del cfg reg p (mem p) = some reg' ∧
      reg'.all_wdevs_ = reg.all_wdevs_.erase p ∧
      registry_consistent cfg mem reg' ∧
      search_wdev_with_minor reg' (MINOR (mem p).devt) = some none ∧
      search_wdev_with_name cfg reg' (mem p).lsuper0.name = some none ∧
      search_wdev_with_uuid reg' (mem p).lsuper0.uuid = some none := by
  obtain ⟨hrun, hnd, h0, hm, hn, hu⟩ := hc
  obtain ⟨m1, m2, m3⟩ := htbl_indexes_del _ _ _ p hm hnd hp
  obtain ⟨n1, n2, n3⟩ := htbl_indexes_del _ _ _ p hn hnd hp
  obtain ⟨u1, u2, u3⟩ := htbl_indexes_del _ _ _ p hu hnd hp
  simp only [wdev_minor_key, wdev_name_key, wdev_uuid_key] at m1 m3 n1 n3 u1 u3
  refine ⟨{ reg with
      htbl_uuid_ := (hashtbl_del reg.htbl_uuid_ ((mem p).lsuper0.uuid.take 16)).2
      htbl_name_ := (hashtbl_del reg.htbl_name_
        ((mem p).lsuper0.name.take (get_wdev_name_len cfg (mem p)))).2
      htbl_minor_ := (hashtbl_del reg.htbl_minor_ (MINOR (mem p).devt)).2
      all_wdevs_ := list_del reg.all_wdevs_ p }, ?_, rfl, ?_, ?_, ?_, ?_⟩
  · simp only [alldevs_del, CHECK_RUNNING, hrun, ne_eq, not_true_eq_false, if_false,
      Option.some_bind, Option.bind_eq_bind, m1, n1, u1]
  · refine ⟨hrun, hnd.erase p, ?_, m2, n2, u2⟩
    intro h
    exact h0 (List.mem_of_mem_erase h)
  · simp only [search_wdev_with_minor, CHECK_RUNNING, hrun, ne_eq, not_true_eq_false,
      if_false, Option.some_bind, Option.bind_eq_bind, m3]
    simp
  · simp only [search_wdev_with_name, CHECK_RUNNING, hrun, ne_eq, not_true_eq_false,
      if_false, Option.some_bind, Option.bind_eq_bind]
    simp only [get_wdev_name_len] at n3 ⊢
    simp [n3]
  · simp only [search_wdev_with_uuid, CHECK_RUNNING, hrun, ne_eq, not_true_eq_false,
      if_false, Option.some_bind, Option.bind_eq_bind, u3]
    simp

theorem htbl_indexes_nil {κ : Type} [DecidableEq κ] (htbl : hash_tbl κ) (key : Nat → κ)
    (h : htbl_indexes htbl [] key) : htbl = [] := by
  cases htbl with
  | nil => rfl
  | cons c t =>
    have := (h.2.1 c (List.mem_cons_self _ _)).1
    cases this

theorem alldevs_pop_consistent (cfg : build_config) (mem : Nat → walb_dev) (reg : alldevs)
    (hc : registry_consistent cfg mem reg) (p : Nat) (rest : List Nat)
    (hl : reg.all_wdevs_ = p :: rest) :
    ∃ reg', alldevs_pop cfg mem reg = some (some p, reg') ∧
      reg'.all_wdevs_ = rest ∧
      registry_consistent cfg mem reg' ∧
      search_wdev_with_minor reg' (MINOR (mem p).devt) = some none ∧
      search_wdev_with_name cfg reg' (mem p).lsuper0.name = some none ∧
      search_wdev_with_uuid reg' (mem p).lsuper0.uuid = some none := by
  obtain ⟨reg', h1, h2, h3, h4, h5, h6⟩ :=
    alldevs_del_consistent cfg mem reg hc p (by rw [hl]; exact List.mem_cons_self _ _)
  refine ⟨reg', ?_, ?_, h3, h4, h5, h6⟩
  · simp only [alldevs_pop, CHECK_RUNNING, hc.1, ne_eq, not_true_eq_false, if_false,
      Option.some_bind, Option.bind_eq_bind, hl, h1, Option.map_some']
  · rw [h2, hl]
    simp

theorem alldevs_pop_times_consistent (cfg : build_config) (mem : Nat → walb_dev) :
    ∀ (devs : List Nat) (reg : alldevs), registry_consistent cfg mem reg →
      reg.all_wdevs_ = devs →
      ∃ reg', alldevs_pop_times cfg mem devs.length reg = some (devs.map some, reg') ∧
        reg'.all_wdevs_ = [] ∧ registry_consistent cfg mem reg' := by
  intro devs
  induction devs with
  | nil =>
    intro reg hc hl
    exact ⟨reg, rfl, hl, hc⟩
  | cons p rest ih =>
    intro reg hc hl
    obtain ⟨reg1, h1, h2, h3, -⟩ := alldevs_pop_consistent cfg mem reg hc p rest hl
    obtain ⟨reg', g1, g2, g3⟩ := ih reg1 h3 h2
    refine ⟨reg', ?_, g2, g3⟩
    simp only [List.length_cons, alldevs_pop_times, h1, Option.some_bind,
      Option.bind_eq_bind, g1, Option.map_some', List.map_cons]

/-! ## Pop: claim C15 -/

/-- C15.  On a consistent registry `alldevs_pop` returns no device exactly
when the list of devices is empty; otherwise it returns the device at the head
of the list (the earliest added one still registered) and removes it:
afterwards that device is found by none of its minor, name and uuid, while
every remaining device is still found by all three of its keys.  Calling
`alldevs_pop` as many times as there are devices returns them all and leaves
the list and the three indices empty. -/
theorem C15_alldevs_pop (cfg : build_config) (mem : Nat → walb_dev) (reg : alldevs)
    (hc : registry_consistent cfg mem reg) :
    ((∃ reg', alldevs_pop cfg mem reg = some (none, reg')) ↔ reg.all_wdevs_ = []) ∧
    (∀ p rest, reg.all_wdevs_ = p :: rest →
      ∃ reg', alldevs_pop cfg mem reg = some (some p, reg') ∧
        reg'.all_wdevs_ = rest ∧
        search_wdev_with_minor reg' (MINOR (mem p).devt) = some none ∧
        search_wdev_with_name cfg reg' (mem p).lsuper0.name = some none ∧
        search_wdev_with_uuid reg' (mem p).lsuper0.uuid = some none ∧
        ∀ q ∈ rest,
          search_wdev_with_minor reg' (MINOR (mem q).devt) = some (some q) ∧
          search_wdev_with_name cfg reg' (mem q).lsuper0.name = some (some q) ∧
          search_wdev_with_uuid reg' (mem q).lsuper0.uuid = some (some q)) ∧
    (∃ reg', alldevs_pop_times cfg mem reg.all_wdevs_.length reg
        = some (reg.all_wdevs_.map some, reg') ∧
      reg'.all_wdevs_ = [] ∧ reg'.htbl_minor_ = [] ∧ reg'.htbl_name_ = [] ∧
      reg'.htbl_uuid_ = []) := by
  refine ⟨?_, ?_, ?_⟩
  · constructor
    · rintro ⟨reg', h⟩
      cases hl : reg.all_wdevs_ with
      | nil => rfl
      | cons p rest =>
        obtain ⟨reg1, h1, -⟩ := alldevs_pop_consistent cfg mem reg hc p rest hl
        rw [h1] at h
        simp at h
    · intro hl
      exact ⟨reg, by simp [alldevs_pop, CHECK_RUNNING, hc.1, hl]⟩
  · intro p rest hl
    obtain ⟨reg', h1, h2, h3, h4, h5, h6⟩ := alldevs_pop_consistent cfg mem reg hc p rest hl
    refine ⟨reg', h1, h2, h4, h5, h6, ?_⟩
    intro q hq
    exact search_of_consistent cfg mem reg' h3 q (by rw [h2]; exact hq)
  · obtain ⟨reg', h1, h2, h3⟩ :=
      alldevs_pop_times_consistent cfg mem reg.all_wdevs_ reg hc rfl
    obtain ⟨-, -, -, hm, hn, hu⟩ := h3
    rw [h2] at hm hn hu
    exact ⟨reg', h1, h2, htbl_indexes_nil _ _ hm, htbl_indexes_nil _ _ hn,
      htbl_indexes_nil _ _ hu⟩

/-- C15, witness: on the consistent registry `reg_two` (devices 1 and 2) the
first pop returns device 1 and leaves device 2, and two pops empty the
registry. -/
theorem C15_alldevs_pop_witness :
    registry_consistent cfg_fast mem_ex reg_two ∧
    (∃ reg', alldevs_pop cfg_fast mem_ex reg_two = some (some 1, reg') ∧
      reg'.all_wdevs_ = [2] ∧
      search_wdev_with_minor reg' (MINOR (mem_ex 1).devt) = some none) ∧
    (∃ reg', alldevs_pop_times cfg_fast mem_ex 2 reg_two = some ([some 1, some 2], reg') ∧
      reg'.all_wdevs_ = [] ∧ reg'.htbl_minor_ = []) := by
  have hc : registry_consistent cfg_fast mem_ex reg_two := by decide
  obtain ⟨-, h2, h3⟩ := C15_alldevs_pop cfg_fast mem_ex reg_two hc
  obtain ⟨reg', g1, g2, g3, -⟩ := h2 1 [2] rfl
  obtain ⟨reg'', k1, k2, k3, -⟩ := h3
  exact ⟨hc, ⟨reg', g1, g2, g3⟩, ⟨reg'', k1, k2, k3⟩⟩

/-! ## Resize: claims C21, C22 and C25 -/

theorem ioctl_wdev_resize_cases (env : collaborators) (wdev : walb_dev) (ctl : walb_ctl)
    (r : Int) (w' : walb_dev) (h : ioctl_wdev_resize env wdev ctl = some (r, w')) :
    (r = -EFAULT ∧
      (resize_new_size wdev ctl < wdev.gd_capacity ∨
        wdev.ddev_nr_sects < resize_new_size wdev ctl) ∧ w' = wdev) ∨
    (r = 0 ∧ resize_new_size wdev ctl = wdev.gd_capacity ∧
      resize_new_size wdev ctl ≤ wdev.ddev_nr_sects ∧ w' = wdev) ∨
    (wdev.gd_capacity < resize_new_size wdev ctl ∧
      resize_new_size wdev ctl ≤ wdev.ddev_nr_sects ∧
      w'.size = resize_new_size wdev ctl ∧ w'.ddev_size = wdev.ddev_nr_sects ∧
      ((r = -EFAULT ∧ env.resize_disk_ok = false ∧
          w'.calls = wdev.calls ++ [call.resize_disk (resize_new_size wdev ctl)]) ∨
        (r = -EFAULT ∧ env.resize_disk_ok = true ∧ env.sync_super_block_ok = false ∧
          w'.calls = wdev.calls ++
            [call.resize_disk (resize_new_size wdev ctl), call.walb_sync_super_block]) ∨
        (r = 0 ∧ env.resize_disk_ok = true ∧ env.sync_super_block_ok = true ∧
          w'.calls = wdev.calls ++
            [call.resize_disk (resize_new_size wdev ctl), call.walb_sync_super_block]))) := by
  unfold ioctl_wdev_resize at h
  by_cases hc : ctl.command = WALB_IOCTL_RESIZE
  · rw [if_neg (not_not.mpr hc)] at h
    simp only at h
    by_cases h1 : resize_new_size wdev ctl < wdev.gd_capacity
    · rw [if_pos h1] at h
      simp only [Option.some.injEq, Prod.mk.injEq] at h
      exact Or.inl ⟨h.1.symm, Or.inl h1, h.2.symm⟩
    · rw [if_neg h1] at h
      by_cases h2 : resize_new_size wdev ctl > wdev.ddev_nr_sects
      · rw [if_pos h2] at h
        simp only [Option.some.injEq, Prod.mk.injEq] at h
        exact Or.inl ⟨h.1.symm, Or.inr h2, h.2.symm⟩
      · rw [if_neg h2] at h
        by_cases h3 : resize_new_size wdev ctl = wdev.gd_capacity
        · rw [if_pos h3] at h
          simp only [Option.some.injEq, Prod.mk.injEq] at h
          exact Or.inr (Or.inl ⟨h.1.symm, h3, Nat.not_lt.mp h2, h.2.symm⟩)
        · rw [if_neg h3] at h
          have hlt : wdev.gd_capacity < resize_new_size wdev ctl :=
            lt_of_le_of_ne (Nat.not_lt.mp h1) (Ne.symm h3)
          refine Or.inr (Or.inr ⟨hlt, Nat.not_lt.mp h2, ?_⟩)
          cases hr : env.resize_disk_ok
          · simp only [resize_disk, hr, Bool.not_false, if_true, Option.some.injEq,
              Prod.mk.injEq] at h
            obtain ⟨rfl, rfl⟩ := h
            exact ⟨rfl, rfl, Or.inl ⟨rfl, rfl, rfl⟩⟩
          · cases hs : env.sync_super_block_ok
            · simp only [resize_disk, walb_sync_super_block, hr, hs, Bool.not_true,
                Bool.not_false, Bool.false_eq_true, if_false, if_true, Option.some.injEq,
                Prod.mk.injEq] at h
              obtain ⟨rfl, rfl⟩ := h
              exact ⟨rfl, rfl, Or.inr (Or.inl ⟨rfl, rfl, rfl, by simp⟩)⟩
            · simp only [resize_disk, walb_sync_super_block, hr, hs, Bool.not_true,
                Bool.false_eq_true, if_false, Option.some.injEq, Prod.mk.injEq] at h
              obtain ⟨rfl, rfl⟩ := h
              exact ⟨rfl, rfl, Or.inr (Or.inr ⟨rfl, rfl, rfl, by simp⟩)⟩
  · rw [if_pos hc] at h
    cases h

/-- C21.  If the effective new size (the data device size for a request of 0,
the requested size otherwise) is smaller than the current capacity of the
device or larger than the data device, `ioctl_wdev_resize` returns `-EFAULT`
and the device is returned unchanged: the recorded size and data device size
are as before and neither `resize_disk` nor the superblock sync is called. -/
theorem C21_resize_rejects (env : collaborators) (wdev : walb_dev) (ctl : walb_ctl)
    (hcmd : ctl.command = WALB_IOCTL_RESIZE)
    (h : resize_new_size wdev ctl < wdev.gd_capacity ∨
      wdev.ddev_nr_sects < resize_new_size wdev ctl) :
    ioctl_wdev_resize env wdev ctl = some (-EFAULT, wdev) ∧
    ∀ r w', ioctl_wdev_resize env wdev ctl = some (r, w') →
      r = -EFAULT ∧ w'.size = wdev.size ∧ w'.ddev_size = wdev.ddev_size ∧
      w'.calls = wdev.calls := by
  have hres : ioctl_wdev_resize env wdev ctl = some (-EFAULT, wdev) := by
    unfold ioctl_wdev_resize
    rw [if_neg (not_not.mpr hcmd)]
    simp only
    rcases h with h | h
    · rw [if_pos h]
    · by_cases h1 : resize_new_size wdev ctl < wdev.gd_capacity
      · rw [if_pos h1]
      · rw [if_neg h1, if_pos h]
  refine ⟨hres, ?_⟩
  intro r w' hr
  rw [hres] at hr
  simp only [Option.some.injEq, Prod.mk.injEq] at hr
  obtain ⟨rfl, rfl⟩ := hr
  exact ⟨rfl, rfl, rfl, rfl⟩

/-- C21, witness: on `wdev_ex` (capacity 1000000, data device 4000000) a
request for 500000 sectors and a request for 5000000 sectors are refused. -/
theorem C21_resize_rejects_witness :
    ioctl_wdev_resize env_ok wdev_ex (ctl_resize 500000) = some (-EFAULT, wdev_ex) ∧
    ioctl_wdev_resize env_ok wdev_ex (ctl_resize 5000000) = some (-EFAULT, wdev_ex) :=
  ⟨(C21_resize_rejects env_ok wdev_ex (ctl_resize 500000) rfl (Or.inl (by decide))).1,
    (C21_resize_rejects env_ok wdev_ex (ctl_resize 5000000) rfl (Or.inr (by decide))).1⟩

/-- C22, counterexample.  On `wdev_ex` (recorded size and capacity 1000000) a
request for 2000000 sectors whose `resize_disk` fails leaves the recorded size
at 2000000 beside the capacity 1000000; on that device a request for 1000000
sectors returns 0 and changes nothing, so the recorded size, 2000000, is not
the effective new size, 1000000.  And on `wdev_ddev_small`, whose data device
is smaller than its capacity, a request for the capacity itself is refused
with `-EFAULT`, although the effective new size equals the old size. -/
theorem C22_resize_noop_keeps_recorded_size :
    (∃ w1, ioctl_wdev_resize env_resize_fails wdev_ex (ctl_resize 2000000)
        = some (-EFAULT, w1) ∧
      w1.gd_capacity = 1000000 ∧
      resize_new_size w1 (ctl_resize 1000000) = 1000000 ∧
      ∃ w2, ioctl_wdev_resize env_ok w1 (ctl_resize 1000000) = some (0, w2) ∧
        w2.size = 2000000 ∧ w2.size ≠ resize_new_size w1 (ctl_resize 1000000)) ∧
    (resize_new_size wdev_ddev_small (ctl_resize 1000000) = wdev_ddev_small.gd_capacity ∧
      ioctl_wdev_resize env_ok wdev_ddev_small (ctl_resize 1000000)
        = some (-EFAULT, wdev_ddev_small)) :=
  ⟨⟨_, rfl, rfl, rfl, _, rfl, rfl, by decide⟩, rfl, rfl⟩

/-- C22, amended.  Whenever `ioctl_wdev_resize` returns 0, the effective new
size lies between the old capacity and the data device size.  If it is larger
than the old capacity, `resize_disk` with the new size and the superblock
sync were called and succeeded, the recorded size is the effective new size
and the recorded data device size is the size of the data device.  If it
equals the old capacity, the device is returned unchanged (nothing assigned,
resized or synced), so that the recorded size is the effective new size when
it was the capacity before.  Every request whose effective new size equals
the old capacity and does not exceed the data device returns 0 in that way,
and every request for a larger size within the data device returns 0 when
`resize_disk` and the sync succeed. -/
theorem C22_resize_success (env : collaborators) (wdev : walb_dev) (ctl : walb_ctl)
    (hcmd : ctl.command = WALB_IOCTL_RESIZE) :
    (∀ w', ioctl_wdev_resize env wdev ctl = some (0, w') →
      wdev.gd_capacity ≤ resize_new_size wdev ctl ∧
      resize_new_size wdev ctl ≤ wdev.ddev_nr_sects ∧
      (resize_new_size wdev ctl = wdev.gd_capacity → w' = wdev) ∧
      (wdev.gd_capacity < resize_new_size wdev ctl →
        w'.size = resize_new_size wdev ctl ∧ w'.ddev_size = wdev.ddev_nr_sects ∧
        env.resize_disk_ok = true ∧ env.sync_super_block_ok = true ∧
        w'.calls = wdev.calls ++
          [call.resize_disk (resize_new_size wdev ctl), call.walb_sync_super_block]) ∧
      (wdev.size = wdev.gd_capacity → w'.size = resize_new_size wdev ctl)) ∧
    (resize_new_size wdev ctl = wdev.gd_capacity →
      resize_new_size wdev ctl ≤ wdev.ddev_nr_sects →
      ioctl_wdev_resize env wdev ctl = some (0, wdev)) ∧
    (wdev.gd_capacity < resize_new_size wdev ctl →
      resize_new_size wdev ctl ≤ wdev.ddev_nr_sects →
      env.resize_disk_ok = true → env.sync_super_block_ok = true →
      ∃ w', ioctl_wdev_resize env wdev ctl = some (0, w') ∧
        w'.size = resize_new_size wdev ctl ∧ w'.ddev_size = wdev.ddev_nr_sects) := by
  refine ⟨?_, ?_, ?_⟩
  · intro w' h
    rcases ioctl_wdev_resize_cases env wdev ctl 0 w' h with
      ⟨h0, -⟩ | ⟨-, h1, h2, h3⟩ | ⟨h1, h2, h3, h4, h5⟩
    · exact absurd h0 (by decide)
    · refine ⟨le_of_eq h1.symm, h2, fun _ => h3, fun hlt => absurd h1 (ne_of_gt hlt), ?_⟩
      intro hs
      rw [h3, hs, h1]
    · refine ⟨le_of_lt h1, h2, fun he => absurd he (ne_of_gt h1), ?_, fun _ => h3⟩
      intro _
      rcases h5 with ⟨h0, -⟩ | ⟨h0, -⟩ | ⟨-, hd, hs, hcalls⟩
      · exact absurd h0 (by decide)
      · exact absurd h0 (by decide)
      · exact ⟨h3, h4, hd, hs, hcalls⟩
  · intro he hle
    unfold ioctl_wdev_resize
    rw [if_neg (not_not.mpr hcmd)]
    simp only
    rw [if_neg (by omega), if_neg (by omega), if_pos he]
  · intro hlt hle hd hs
    refine ⟨{ wdev with
        size := resize_new_size wdev ctl
        ddev_size := wdev.ddev_nr_sects
        calls := wdev.calls ++ [call.resize_disk (resize_new_size wdev ctl)] ++
          [call.walb_sync_super_block] }, ?_, rfl, rfl⟩
    unfold ioctl_wdev_resize
    rw [if_neg (not_not.mpr hcmd)]
    simp only
    rw [if_neg (by omega), if_neg (by omega), if_neg (by omega)]
    simp only [resize_disk, walb_sync_super_block, hd, hs, Bool.not_true,
      Bool.false_eq_true, if_false]

/-- C22, witness: on `wdev_ex` (capacity 1000000, data device 4000000) a
request of 0 grows the recorded size to the size of the data device, and a
request for 1000000 sectors returns 0 with the device unchanged. -/
theorem C22_resize_success_witness :
    (∃ w', ioctl_wdev_resize env_ok wdev_ex (ctl_resize 0) = some (0, w') ∧
      w'.size = 4000000 ∧ w'.ddev_size = 4000000) ∧
    ioctl_wdev_resize env_ok wdev_ex (ctl_resize 1000000) = some (0, wdev_ex) :=
  ⟨(C22_resize_success env_ok wdev_ex (ctl_resize 0) rfl).2.2
      (by decide) (by decide) rfl rfl,
    (C22_resize_success env_ok wdev_ex (ctl_resize 1000000) rfl).2.1 rfl (by decide)⟩

/-- C25, counterexample.  On `wdev_ex` (recorded size 1000000) a request for
2000000 sectors passes the size check and `resize_disk` fails: the command
returns `-EFAULT` and the recorded size is 2000000, not its value before the
call. -/
theorem C25_resize_failure_keeps_new_size :
    ∃ w', ioctl_wdev_resize env_resize_fails wdev_ex (ctl_resize 2000000)
        = some (-EFAULT, w') ∧
      wdev_ex.size = 1000000 ∧ w'.size = 2000000 ∧
      ∃ w'', ioctl_wdev_resize env_sync_fails wdev_ex (ctl_resize 2000000)
          = some (-EFAULT, w'') ∧ w''.size = 2000000 :=
  ⟨_, rfl, rfl, rfl, _, rfl, rfl⟩

/-- C25, amended.  Whenever `ioctl_wdev_resize` returns a failure code, the
code is `-EFAULT` and either the size check failed and the device, hence its
recorded size and data device size, is unchanged, or the size check passed
and `resize_disk` or the superblock sync failed, in which case the recorded
size is already the new size and the recorded data device size the size of
the data device. -/
theorem C25_resize_failure_state (env : collaborators) (wdev : walb_dev) (ctl : walb_ctl)
    (r : Int) (w' : walb_dev) (h : ioctl_wdev_resize env wdev ctl = some (r, w'))
    (hr : r ≠ 0) :
    r = -EFAULT ∧
    (((resize_new_size wdev ctl < wdev.gd_capacity ∨
        wdev.ddev_nr_sects < resize_new_size wdev ctl) ∧
      w' = wdev) ∨
    (wdev.gd_capacity < resize_new_size wdev ctl ∧
      resize_new_size wdev ctl ≤ wdev.ddev_nr_sects ∧
      (env.resize_disk_ok = false ∨ env.sync_super_block_ok = false) ∧
      w'.size = resize_new_size wdev ctl ∧ w'.ddev_size = wdev.ddev_nr_sects)) := by
  rcases ioctl_wdev_resize_cases env wdev ctl r w' h with
    ⟨h0, h1, h2⟩ | ⟨h0, -⟩ | ⟨h1, h2, h3, h4, h5⟩
  · exact ⟨h0, Or.inl ⟨h1, h2⟩⟩
  · exact absurd h0 hr
  · rcases h5 with ⟨h0, hd, -⟩ | ⟨h0, -, hs, -⟩ | ⟨h0, -⟩
    · exact ⟨h0, Or.inr ⟨h1, h2, Or.inl hd, h3, h4⟩⟩
    · exact ⟨h0, Or.inr ⟨h1, h2, Or.inr hs, h3, h4⟩⟩
    · exact absurd h0 hr

/-- C25, witness: the failing `resize_disk` on `wdev_ex`. -/
theorem C25_resize_failure_state_witness :
    ∃ w', ioctl_wdev_resize env_resize_fails wdev_ex (ctl_resize 2000000)
        = some (-EFAULT, w') ∧ w'.size = 2000000 := by
  obtain ⟨-, h | h⟩ := C25_resize_failure_state env_resize_fails wdev_ex
    (ctl_resize 2000000) (-EFAULT) _ rfl (by decide)
  · exact absurd h.1 (by decide)
  · exact ⟨_, rfl, h.2.2.2.1⟩

/-! ## Snapshot commands: claims C23, C24 and C26 -/

theorem snapshot_add_calls (error : Int) (name : List Nat) (lsid timestamp : Nat)
    (wdev : walb_dev) :
    (snapshot_add error name lsid timestamp wdev).2.calls =
      wdev.calls ++ [call.snapshot_add name lsid timestamp] := by
  unfold snapshot_add
  split_ifs <;> rfl

/-- C23.  For a create-snapshot request whose record has been read: a record
with an invalid name is rejected with `-EFAULT`, the device (hence the
catalog) and the request unchanged; otherwise the catalog's add is called
once, with the record's name and timestamp and with the completed lsid of the
device when the record's lsid is `INVALID_LSID` and the record's own lsid
otherwise; when the add fails its code is stored in `ctl->error` and
`-EFAULT` is returned, and when it succeeds 0 is returned. -/
theorem C23_create_snapshot (cfg : build_config) (snap : snapshot_layer)
    (srec : walb_snapshot_record) (wdev : walb_dev) (ctl : walb_ctl)
    (hcmd : ctl.command = WALB_IOCTL_CREATE_SNAPSHOT)
    (hcompleted : get_completed_lsid cfg wdev.lsids ≠ snap.INVALID_LSID) :
    (srec.lsid = snap.INVALID_LSID →
      create_snapshot_lsid cfg snap srec wdev = get_completed_lsid cfg wdev.lsids) ∧
    (srec.lsid ≠ snap.INVALID_LSID → create_snapshot_lsid cfg snap srec wdev = srec.lsid) ∧
    (snap.is_valid_snapshot_name srec.name = false →
      ioctl_wdev_create_snapshot cfg snap (some srec) wdev ctl = some (-EFAULT, wdev, ctl)) ∧
    (snap.is_valid_snapshot_name srec.name = true →
      ∃ r w' ctl', ioctl_wdev_create_snapshot cfg snap (some srec) wdev ctl
          = some (r, w', ctl') ∧
        w'.calls = wdev.calls ++
          [call.snapshot_add srec.name (create_snapshot_lsid cfg snap srec wdev)
            srec.timestamp] ∧
        ((snapshot_add snap.add_error srec.name (create_snapshot_lsid cfg snap srec wdev)
            srec.timestamp wdev).1 ≠ 0 →
          r = -EFAULT ∧
          ctl'.error = (snapshot_add snap.add_error srec.name
            (create_snapshot_lsid cfg snap srec wdev) srec.timestamp wdev).1) ∧
        ((snapshot_add snap.add_error srec.name (create_snapshot_lsid cfg snap srec wdev)
            srec.timestamp wdev).1 = 0 → r = 0 ∧ ctl' = ctl)) := by
  have hassert : ¬ (srec.lsid = snap.INVALID_LSID ∧
      (if srec.lsid = snap.INVALID_LSID then get_completed_lsid cfg wdev.lsids
        else srec.lsid) = snap.INVALID_LSID) := by
    rintro ⟨h1, h2⟩
    rw [if_pos h1] at h2
    exact hcompleted h2
  refine ⟨fun h => if_pos h, fun h => if_neg h, ?_, ?_⟩
  · intro hv
    simp only [ioctl_wdev_create_snapshot, hcmd, ne_eq, not_true_eq_false, if_false,
      hassert, hv, Bool.not_false, if_true]
  · intro hv
    by_cases hadd : (snapshot_add snap.add_error srec.name
        (create_snapshot_lsid cfg snap srec wdev) srec.timestamp wdev).1 = 0
    · refine ⟨0, (snapshot_add snap.add_error srec.name
          (create_snapshot_lsid cfg snap srec wdev) srec.timestamp wdev).2, ctl, ?_,
        snapshot_add_calls _ _ _ _ _, fun h => absurd hadd h, fun _ => ⟨rfl, rfl⟩⟩
      unfold create_snapshot_lsid at hadd
      simp only [ioctl_wdev_create_snapshot, hcmd, ne_eq, not_true_eq_false, if_false,
        hassert, hv, Bool.not_true, Bool.false_eq_true, hadd]
      rfl
    · refine ⟨-EFAULT, (snapshot_add snap.add_error srec.name
          (create_snapshot_lsid cfg snap srec wdev) srec.timestamp wdev).2,
        { ctl with error := (snapshot_add snap.add_error srec.name
          (create_snapshot_lsid cfg snap srec wdev) srec.timestamp wdev).1 }, ?_,
        snapshot_add_calls _ _ _ _ _, fun _ => ⟨rfl, rfl⟩, fun h => absurd h hadd⟩
      unfold create_snapshot_lsid at hadd
      simp only [ioctl_wdev_create_snapshot, hcmd, ne_eq, not_true_eq_false, if_false,
        hassert, hv, Bool.not_true, Bool.false_eq_true, hadd, if_true]
      rfl

/-- C23, witness: a record named "s" with `INVALID_LSID` on `wdev_ex`, whose
completed lsid is 500, is added to the catalog with lsid 500. -/
theorem C23_create_snapshot_witness :
    create_snapshot_lsid cfg_fast snap_ex (srec_s (2 ^ 64 - 1)) wdev_ex = 500 ∧
    ∃ w' ctl', ioctl_wdev_create_snapshot cfg_fast snap_ex (some (srec_s (2 ^ 64 - 1)))
        wdev_ex (ctl_snapshot WALB_IOCTL_CREATE_SNAPSHOT 0) = some (0, w', ctl') ∧
      w'.calls = [call.snapshot_add [115] 500 9] :=
  ⟨(C23_create_snapshot cfg_fast snap_ex (srec_s (2 ^ 64 - 1)) wdev_ex
      (ctl_snapshot WALB_IOCTL_CREATE_SNAPSHOT 0) rfl (by decide)).1 rfl,
    _, _, rfl, rfl⟩

theorem snapshot_get_some (snapd : List walb_snapshot_record) (name : List Nat)
    (rec : walb_snapshot_record) (h : snapshot_get snapd name = some rec) :
    rec ∈ snapd ∧ rec.name = name := by
  unfold snapshot_get at h
  exact ⟨List.mem_of_find?_eq_some h, by simpa using List.find?_some h⟩

theorem snapshot_get_eq_none (snapd : List walb_snapshot_record) (name : List Nat) :
    snapshot_get snapd name = none ↔ ∀ rec ∈ snapd, rec.name ≠ name := by
  unfold snapshot_get
  simp [List.find?_eq_none]

theorem snapshot_get_after_add (error : Int) (name : List Nat) (lsid timestamp : Nat)
    (wdev : walb_dev)
    (h : (snapshot_add error name lsid timestamp wdev).1 = 0) :
    ∃ rec, snapshot_get (snapshot_add error name lsid timestamp wdev).2.snapd name = some rec ∧
      rec.lsid = lsid ∧ rec.timestamp = timestamp ∧ rec.name = name := by
  unfold snapshot_add at h ⊢
  by_cases herr : error ≠ 0
  · rw [if_pos herr] at h
    exact absurd h herr
  · rw [if_neg herr] at h ⊢
    by_cases hdup : (snapshot_get wdev.snapd name).isSome = true
    · simp [hdup, EEXIST] at h
    · simp only [hdup, Bool.false_eq_true, if_false]
      have hnone : snapshot_get wdev.snapd name = none := by
        simpa using hdup
      refine ⟨{ lsid := lsid, timestamp := timestamp,
                snapshot_id := snapshot_next_id wdev.snapd, name := name }, ?_, rfl, rfl, rfl⟩
      unfold snapshot_get at hnone ⊢
      simp [List.find?_append, hnone]

theorem snapshot_get_after_del (error : Int) (name : List Nat) (wdev : walb_dev)
    (h : (snapshot_del error name wdev).1 = 0) :
    snapshot_get (snapshot_del error name wdev).2.snapd name = none := by
  unfold snapshot_del at h ⊢
  by_cases herr : error ≠ 0
  · rw [if_pos herr] at h
    exact absurd h herr
  · rw [if_neg herr] at h ⊢
    by_cases hnone : (snapshot_get wdev.snapd name).isNone = true
    · simp [hnone, ENOENT] at h
    · simp only [hnone, Bool.false_eq_true, if_false]
      rw [snapshot_get_eq_none]
      intro rec hrec
      simpa using (List.mem_filter.mp hrec).2

theorem create_snapshot_eq_zero (cfg : build_config) (snap : snapshot_layer)
    (srec : walb_snapshot_record) (wdev w1 : walb_dev) (ctl c1 : walb_ctl)
    (h : ioctl_wdev_create_snapshot cfg snap (some srec) wdev ctl = some (0, w1, c1)) :
    (snapshot_add snap.add_error srec.name (create_snapshot_lsid cfg snap srec wdev)
      srec.timestamp wdev).1 = 0 ∧
    w1 = (snapshot_add snap.add_error srec.name (create_snapshot_lsid cfg snap srec wdev)
      srec.timestamp wdev).2 := by
  unfold ioctl_wdev_create_snapshot at h
  unfold create_snapshot_lsid
  simp only at h
  generalize (if srec.lsid = snap.INVALID_LSID then get_completed_lsid cfg wdev.lsids
    else srec.lsid) = lsid at h ⊢
  by_cases hcmd : ctl.command ≠ WALB_IOCTL_CREATE_SNAPSHOT
  · rw [if_pos hcmd] at h
    exact absurd h (by simp)
  · rw [if_neg hcmd] at h
    by_cases hassert : srec.lsid = snap.INVALID_LSID ∧ lsid = snap.INVALID_LSID
    · rw [if_pos hassert] at h
      exact absurd h (by simp)
    · rw [if_neg hassert] at h
      by_cases hname : (!snap.is_valid_snapshot_name srec.name) = true
      · rw [if_pos hname] at h
        simp [EFAULT] at h
      · rw [if_neg hname] at h
        by_cases hadd : (snapshot_add snap.add_error srec.name lsid srec.timestamp wdev).1 ≠ 0
        · rw [if_pos hadd] at h
          simp [EFAULT] at h
        · rw [if_neg hadd] at h
          simp only [Option.some.injEq, Prod.mk.injEq, true_and] at h
          exact ⟨not_not.mp hadd, h.1.symm⟩

theorem delete_snapshot_eq_zero (snap : snapshot_layer)
    (srec : walb_snapshot_record) (wdev w1 : walb_dev) (ctl c1 : walb_ctl)
    (h : ioctl_wdev_delete_snapshot snap (some srec) wdev ctl = some (0, w1, c1)) :
    (snapshot_del snap.del_error srec.name wdev).1 = 0 ∧
    w1 = (snapshot_del snap.del_error srec.name wdev).2 := by
  unfold ioctl_wdev_delete_snapshot at h
  simp only at h
  by_cases hcmd : ctl.command ≠ WALB_IOCTL_DELETE_SNAPSHOT
  · rw [if_pos hcmd] at h
    exact absurd h (by simp)
  · rw [if_neg hcmd] at h
    by_cases hname : (!snap.is_valid_snapshot_name srec.name) = true
    · rw [if_pos hname] at h
      simp [EFAULT] at h
    · rw [if_neg hname] at h
      by_cases hdel : (snapshot_del snap.del_error srec.name wdev).1 ≠ 0
      · rw [if_pos hdel] at h
        simp [EFAULT] at h
      · rw [if_neg hdel] at h
        simp only [Option.some.injEq, Prod.mk.injEq, true_and] at h
        exact ⟨not_not.mp hdel, h.1.symm⟩

theorem create_snapshot_of_free (cfg : build_config) (snap : snapshot_layer)
    (srec : walb_snapshot_record) (wdev : walb_dev) (ctl : walb_ctl)
    (hcmd : ctl.command = WALB_IOCTL_CREATE_SNAPSHOT)
    (hcompleted : get_completed_lsid cfg wdev.lsids ≠ snap.INVALID_LSID)
    (hvalid : snap.is_valid_snapshot_name srec.name = true)
    (herr : snap.add_error = 0)
    (hfree : snapshot_get wdev.snapd srec.name = none) :
    ioctl_wdev_create_snapshot cfg snap (some srec) wdev ctl =
      some (0, (snapshot_add snap.add_error srec.name
        (create_snapshot_lsid cfg snap srec wdev) srec.timestamp wdev).2, ctl) := by
  have hassert : ¬ (srec.lsid = snap.INVALID_LSID ∧
      (if srec.lsid = snap.INVALID_LSID then get_completed_lsid cfg wdev.lsids
        else srec.lsid) = snap.INVALID_LSID) := by
    rintro ⟨h1, h2⟩
    rw [if_pos h1] at h2
    exact hcompleted h2
  have hadd : (snapshot_add snap.add_error srec.name
      (if srec.lsid = snap.INVALID_LSID then get_completed_lsid cfg wdev.lsids
        else srec.lsid) srec.timestamp wdev).1 = 0 := by
    simp [snapshot_add, herr, hfree]
  unfold create_snapshot_lsid
  simp only [ioctl_wdev_create_snapshot, hcmd, ne_eq, not_true_eq_false, if_false,
    hassert, hvalid, Bool.not_true, Bool.false_eq_true, hadd]

theorem delete_snapshot_of_present (snap : snapshot_layer)
    (srec : walb_snapshot_record) (wdev : walb_dev) (ctl : walb_ctl)
    (hcmd : ctl.command = WALB_IOCTL_DELETE_SNAPSHOT)
    (hvalid : snap.is_valid_snapshot_name srec.name = true)
    (herr : snap.del_error = 0)
    (hpresent : snapshot_get wdev.snapd srec.name ≠ none) :
    ioctl_wdev_delete_snapshot snap (some srec) wdev ctl =
      some (0, (snapshot_del snap.del_error srec.name wdev).2, ctl) := by
  have hdel : (snapshot_del snap.del_error srec.name wdev).1 = 0 := by
    simp [snapshot_del, herr, hpresent]
  simp only [ioctl_wdev_delete_snapshot, hcmd, ne_eq, not_true_eq_false, if_false,
    hvalid, Bool.not_true, Bool.false_eq_true, hdel]

/-- C24.  For a get-snapshot request whose name record has been read and
whose output buffer holds at least one record: if the catalog holds a record
of that name, the command returns 0 and the first record of the output buffer
is that record of the catalog; if it holds none, the command returns
`-EFAULT` with `ctl->error = 1` and the first record of the output buffer is
the blank record of `snapshot_record_init`.  In particular, after a
create-snapshot command that returned 0 for that name, get returns 0 and a
record with the lsid, name and timestamp handed to the catalog; and after a
delete-snapshot command that returned 0 for that name, get returns `-EFAULT`
with `ctl->error = 1`.  These commands do return 0: create of a valid name
that the catalog does not hold, and delete of a valid name that it holds,
when the catalog reports no failure of its own. -/
theorem C24_get_snapshot (cfg : build_config) (snap : snapshot_layer)
    (srec0t : walb_snapshot_record)
    (wdev : walb_dev) (ctl : walb_ctl) (srec1 : List walb_snapshot_record)
    (hcmd : ctl.command = WALB_IOCTL_GET_SNAPSHOT)
    (hsize : snap.sizeof_record ≤ ctl.k2u.buf_size)
    (hbuf : ctl.k2u.kbuf = some srec1) :
    (∀ rec, snapshot_get wdev.snapd srec0t.name = some rec →
      rec ∈ wdev.snapd ∧ rec.name = srec0t.name ∧
      ∃ ctl', ioctl_wdev_get_snapshot snap (some srec0t) wdev ctl = some (0, ctl') ∧
        ctl'.k2u.kbuf = some (rec :: srec1.tail) ∧ ctl'.error = ctl.error) ∧
    ((∀ rec ∈ wdev.snapd, rec.name ≠ srec0t.name) →
      ∃ ctl', ioctl_wdev_get_snapshot snap (some srec0t) wdev ctl = some (-EFAULT, ctl') ∧
        ctl'.error = 1 ∧
        ctl'.k2u.kbuf = some (snap.snapshot_record_init :: srec1.tail)) ∧
    (∀ srec c0 w1 c1, srec.name = srec0t.name →
      ioctl_wdev_create_snapshot cfg snap (some srec) wdev c0 = some (0, w1, c1) →
      ∃ rec ctl', ioctl_wdev_get_snapshot snap (some srec0t) w1 ctl = some (0, ctl') ∧
        ctl'.k2u.kbuf = some (rec :: srec1.tail) ∧
        rec.lsid = create_snapshot_lsid cfg snap srec wdev ∧
        rec.timestamp = srec.timestamp ∧ rec.name = srec.name) ∧
    (∀ srec c0 w1 c1, srec.name = srec0t.name →
      ioctl_wdev_delete_snapshot snap (some srec) wdev c0 = some (0, w1, c1) →
      ∃ ctl', ioctl_wdev_get_snapshot snap (some srec0t) w1 ctl = some (-EFAULT, ctl') ∧
        ctl'.error = 1 ∧
        ctl'.k2u.kbuf = some (snap.snapshot_record_init :: srec1.tail)) ∧
    (∀ srec c0, srec.name = srec0t.name →
      c0.command = WALB_IOCTL_CREATE_SNAPSHOT →
      get_completed_lsid cfg wdev.lsids ≠ snap.INVALID_LSID →
      snap.is_valid_snapshot_name srec.name = true → snap.add_error = 0 →
      (∀ rec ∈ wdev.snapd, rec.name ≠ srec0t.name) →
      ∃ w1, ioctl_wdev_create_snapshot cfg snap (some srec) wdev c0 = some (0, w1, c0) ∧
        ∃ rec ctl', ioctl_wdev_get_snapshot snap (some srec0t) w1 ctl = some (0, ctl') ∧
          ctl'.k2u.kbuf = some (rec :: srec1.tail) ∧
          rec.lsid = create_snapshot_lsid cfg snap srec wdev ∧
          rec.timestamp = srec.timestamp ∧ rec.name = srec.name) ∧
    (∀ srec c0, srec.name = srec0t.name →
      c0.command = WALB_IOCTL_DELETE_SNAPSHOT →
      snap.is_valid_snapshot_name srec.name = true → snap.del_error = 0 →
      (∃ rec ∈ wdev.snapd, rec.name = srec0t.name) →
      ∃ w1, ioctl_wdev_delete_snapshot snap (some srec) wdev c0 = some (0, w1, c0) ∧
        (∀ rec ∈ w1.snapd, rec.name ≠ srec0t.name) ∧
        (∀ rec ∈ wdev.snapd, rec.name ≠ srec0t.name → rec ∈ w1.snapd) ∧
        ∃ ctl', ioctl_wdev_get_snapshot snap (some srec0t) w1 ctl = some (-EFAULT, ctl') ∧
          ctl'.error = 1 ∧
          ctl'.k2u.kbuf = some (snap.snapshot_record_init :: srec1.tail)) := by
  have hfound : ∀ (w : walb_dev) (rec : walb_snapshot_record) (name : List Nat),
      name = srec0t.name → snapshot_get w.snapd name = some rec →
      ioctl_wdev_get_snapshot snap (some srec0t) w ctl =
        some (0, { ctl with
          k2u := { ctl.k2u with kbuf := some (store_first_record srec1 rec) } }) := by
    intro w rec name hn h
    subst hn
    simp only [ioctl_wdev_get_snapshot, hcmd, ne_eq, not_true_eq_false, if_false,
      gt_iff_lt, Nat.not_lt.mpr hsize, hbuf, h]
  have hmissing : ∀ (w : walb_dev) (name : List Nat),
      name = srec0t.name → snapshot_get w.snapd name = none →
      ioctl_wdev_get_snapshot snap (some srec0t) w ctl =
        some (-EFAULT, { ctl with
          error := 1
          k2u := { ctl.k2u with
            kbuf := some (store_first_record srec1 snap.snapshot_record_init) } }) := by
    intro w name hn h
    subst hn
    simp only [ioctl_wdev_get_snapshot, hcmd, ne_eq, not_true_eq_false, if_false,
      gt_iff_lt, Nat.not_lt.mpr hsize, hbuf, h]
  have hcreate : ∀ srec c0 w1 c1, srec.name = srec0t.name →
      ioctl_wdev_create_snapshot cfg snap (some srec) wdev c0 = some (0, w1, c1) →
      ∃ rec ctl', ioctl_wdev_get_snapshot snap (some srec0t) w1 ctl = some (0, ctl') ∧
        ctl'.k2u.kbuf = some (rec :: srec1.tail) ∧
        rec.lsid = create_snapshot_lsid cfg snap srec wdev ∧
        rec.timestamp = srec.timestamp ∧ rec.name = srec.name := by
    intro srec c0 w1 c1 hname h
    obtain ⟨h0, rfl⟩ := create_snapshot_eq_zero cfg snap srec wdev w1 c0 c1 h
    obtain ⟨rec, h1, h2, h3, h4⟩ := snapshot_get_after_add _ _ _ _ _ h0
    exact ⟨rec, _, hfound _ rec _ hname h1, rfl, h2, h3, h4⟩
  have hdelete : ∀ srec c0 w1 c1, srec.name = srec0t.name →
      ioctl_wdev_delete_snapshot snap (some srec) wdev c0 = some (0, w1, c1) →
      ∃ ctl', ioctl_wdev_get_snapshot snap (some srec0t) w1 ctl = some (-EFAULT, ctl') ∧
        ctl'.error = 1 ∧
        ctl'.k2u.kbuf = some (snap.snapshot_record_init :: srec1.tail) := by
    intro srec c0 w1 c1 hname h
    obtain ⟨h0, rfl⟩ := delete_snapshot_eq_zero snap srec wdev w1 c0 c1 h
    have h1 := snapshot_get_after_del _ _ _ h0
    exact ⟨_, hmissing _ _ hname h1, rfl, rfl⟩
  refine ⟨?_, ?_, hcreate, hdelete, ?_, ?_⟩
  · intro rec h
    obtain ⟨h1, h2⟩ := snapshot_get_some _ _ _ h
    exact ⟨h1, h2, _, hfound wdev rec _ rfl h, rfl, rfl⟩
  · intro h
    exact ⟨_, hmissing wdev _ rfl ((snapshot_get_eq_none _ _).mpr h), rfl, rfl⟩
  · intro srec c0 hname hc0 hcompleted hvalid herr hfree
    have hnone : snapshot_get wdev.snapd srec.name = none := by
      rw [hname]
      exact (snapshot_get_eq_none _ _).mpr hfree
    have h := create_snapshot_of_free cfg snap srec wdev c0 hc0 hcompleted hvalid herr hnone
    exact ⟨_, h, hcreate srec c0 _ c0 hname h⟩
  · intro srec c0 hname hc0 hvalid herr hpresent
    have hsome : snapshot_get wdev.snapd srec.name ≠ none := by
      rw [hname]
      intro hnone
      obtain ⟨rec, hrec, hn⟩ := hpresent
      exact (snapshot_get_eq_none _ _).mp hnone rec hrec hn
    have h := delete_snapshot_of_present snap srec wdev c0 hc0 hvalid herr hsome
    refine ⟨_, h, ?_, ?_, hdelete srec c0 _ c0 hname h⟩
    · have h0 := (delete_snapshot_eq_zero snap srec wdev _ c0 c0 h).1
      have h1 := snapshot_get_after_del _ _ _ h0
      have key : ∀ (l : List walb_snapshot_record) (n : List Nat), n = srec0t.name →
          snapshot_get l n = none → ∀ rec ∈ l, rec.name ≠ srec0t.name := by
        intro l n hn hg
        subst hn
        exact (snapshot_get_eq_none _ _).mp hg
      exact key _ _ hname h1
    · intro rec hrec hne
      have hpres : (snapshot_get wdev.snapd srec.name).isNone = false := by
        cases hg : snapshot_get wdev.snapd srec.name with
        | none => exact absurd hg hsome
        | some _ => rfl
      simp only [snapshot_del, herr, ne_eq, not_true_eq_false, if_false, hpres,
        Bool.false_eq_true, List.mem_filter, Bool.not_eq_true', decide_eq_false_iff_not]
      exact ⟨hrec, by rw [hname]; exact hne⟩

/-- C24, witness: after a create-snapshot command has added "s" with lsid 100
to the catalog of `wdev_ex`, get of "s" returns 0 and a record with lsid 100;
on `wdev_ex` itself, which has no snapshot "s", get fails with
`ctl->error = 1` and the blank record; get of "b", a snapshot of `wdev_ex`
with lsid 100, returns 0 and that record, and after a delete-snapshot command
for "b" has returned 0 it fails with `ctl->error = 1`. -/
theorem C24_get_snapshot_witness :
    (∃ w1 c1, ioctl_wdev_create_snapshot cfg_fast snap_ex (some (srec_s 100)) wdev_ex
        (ctl_snapshot WALB_IOCTL_CREATE_SNAPSHOT 0) = some (0, w1, c1) ∧
      ∃ rec ctl', ioctl_wdev_get_snapshot snap_ex (some (srec_s 0)) w1
          (ctl_snapshot WALB_IOCTL_GET_SNAPSHOT 1) = some (0, ctl') ∧
        ctl'.k2u.kbuf = some (rec :: (List.replicate 1 snap_ex.snapshot_record_init).tail) ∧
        rec.lsid = 100) ∧
    (∃ ctl', ioctl_wdev_get_snapshot snap_ex (some (srec_s 0)) wdev_ex
        (ctl_snapshot WALB_IOCTL_GET_SNAPSHOT 1) = some (-EFAULT, ctl') ∧
      ctl'.error = 1 ∧
      ctl'.k2u.kbuf = some (snap_ex.snapshot_record_init ::
        (List.replicate 1 snap_ex.snapshot_record_init).tail)) ∧
    (∃ ctl', ioctl_wdev_get_snapshot snap_ex
        (some { lsid := 0, timestamp := 0, snapshot_id := 0, name := [98] }) wdev_ex
        (ctl_snapshot WALB_IOCTL_GET_SNAPSHOT 1) = some (0, ctl') ∧
      ctl'.k2u.kbuf = some [{ lsid := 100, timestamp := 2, snapshot_id := 1, name := [98] }]) ∧
    (∃ w1, ioctl_wdev_delete_snapshot snap_ex
        (some { lsid := 0, timestamp := 0, snapshot_id := 0, name := [98] }) wdev_ex
        (ctl_snapshot WALB_IOCTL_DELETE_SNAPSHOT 0)
          = some (0, w1, ctl_snapshot WALB_IOCTL_DELETE_SNAPSHOT 0) ∧
      w1.snapd = [{ lsid := 5, timestamp := 1, snapshot_id := 0, name := [97] },
                  { lsid := 400, timestamp := 3, snapshot_id := 2, name := [99] }] ∧
      ∃ ctl', ioctl_wdev_get_snapshot snap_ex
          (some { lsid := 0, timestamp := 0, snapshot_id := 0, name := [98] }) w1
          (ctl_snapshot WALB_IOCTL_GET_SNAPSHOT 1) = some (-EFAULT, ctl') ∧
        ctl'.error = 1 ∧
        ctl'.k2u.kbuf = some (snap_ex.snapshot_record_init ::
          (List.replicate 1 snap_ex.snapshot_record_init).tail)) := by
  have h := C24_get_snapshot cfg_fast snap_ex (srec_s 0) wdev_ex
    (ctl_snapshot WALB_IOCTL_GET_SNAPSHOT 1) _ rfl (by decide) rfl
  have hb := C24_get_snapshot cfg_fast snap_ex
    { lsid := 0, timestamp := 0, snapshot_id := 0, name := [98] } wdev_ex
    (ctl_snapshot WALB_IOCTL_GET_SNAPSHOT 1) _ rfl (by decide) rfl
  refine ⟨⟨_, _, rfl, ?_⟩, h.2.1 (by decide), ?_, ?_⟩
  · obtain ⟨rec, ctl', h1, h2, h3, -⟩ :=
      h.2.2.1 (srec_s 100) (ctl_snapshot WALB_IOCTL_CREATE_SNAPSHOT 0) _ _ rfl rfl
    exact ⟨rec, ctl', h1, h2, h3⟩
  · obtain ⟨-, -, ctl', h1, h2, -⟩ :=
      hb.1 { lsid := 100, timestamp := 2, snapshot_id := 1, name := [98] } rfl
    exact ⟨ctl', h1, h2⟩
  · obtain ⟨w1, h1, -, -, h2⟩ :=
      hb.2.2.2.2.2 { lsid := 0, timestamp := 0, snapshot_id := 0, name := [98] }
        (ctl_snapshot WALB_IOCTL_DELETE_SNAPSHOT 0) rfl rfl rfl rfl
        ⟨{ lsid := 100, timestamp := 2, snapshot_id := 1, name := [98] }, by decide, rfl⟩
    have hw : w1.snapd =
        [{ lsid := 5, timestamp := 1, snapshot_id := 0, name := [97] },
         { lsid := 400, timestamp := 3, snapshot_id := 2, name := [99] }] := by
      have e : ioctl_wdev_delete_snapshot snap_ex
          (some { lsid := 0, timestamp := 0, snapshot_id := 0, name := [98] }) wdev_ex
          (ctl_snapshot WALB_IOCTL_DELETE_SNAPSHOT 0) =
          some (0, (snapshot_del 0 [98] wdev_ex).2,
            ctl_snapshot WALB_IOCTL_DELETE_SNAPSHOT 0) := rfl
      rw [e] at h1
      simp only [Option.some.injEq, Prod.mk.injEq, true_and, and_true] at h1
      rw [← h1]
      rfl
    exact ⟨w1, h1, hw, h2⟩

theorem snapshot_list_range_ok (error : Int) (snapd : List walb_snapshot_record)
    (size lsid0 lsid1 : Nat) (h : ¬ error < 0) :
    (snapshot_list_range error snapd size lsid0 lsid1).1 =
      Int.ofNat (snapshot_list_range error snapd size lsid0 lsid1).2.length := by
  simp only [snapshot_list_range, if_neg h]

theorem snapshot_list_range_mem (error : Int) (snapd : List walb_snapshot_record)
    (size lsid0 lsid1 : Nat) (rec : walb_snapshot_record)
    (h : rec ∈ (snapshot_list_range error snapd size lsid0 lsid1).2) :
    rec ∈ snapd ∧ lsid0 ≤ rec.lsid ∧ rec.lsid < lsid1 := by
  unfold snapshot_list_range at h
  by_cases he : error < 0
  · simp [he] at h
  · simp only [if_neg he] at h
    have h1 := (List.perm_insertionSort _ _).mem_iff.mp (List.mem_of_mem_take h)
    have h2 := List.mem_filter.mp h1
    refine ⟨h2.1, ?_⟩
    simpa using h2.2

theorem snapshot_list_range_length (error : Int) (snapd : List walb_snapshot_record)
    (size lsid0 lsid1 : Nat) :
    (snapshot_list_range error snapd size lsid0 lsid1).2.length ≤ size := by
  unfold snapshot_list_range
  by_cases he : error < 0
  · simp [he]
  · simp only [if_neg he, List.length_take]
    exact Nat.min_le_left _ _

theorem get?_append_drop_last (found rest : List walb_snapshot_record)
    (last : walb_snapshot_record) (h : found.getLast? = some last) :
    (found ++ rest).get? (found.length - 1) = some last := by
  have hne : found ≠ [] := by
    intro h0
    simp [h0] at h
  have hlen : found.length - 1 < found.length :=
    Nat.sub_lt (List.length_pos.mpr hne) Nat.one_pos
  rw [List.get?_eq_getElem?, List.getElem?_append_left hlen, ← h, List.getLast?_eq_getElem?]

/-- C26.  For a list-snapshot-range request whose lsid range has been read,
over a catalog whose records carry `u64` lsids other than `INVALID_LSID`:
with a buffer too small for one record the command returns `-EFAULT`; with
room for at least one record, a negative code of the catalog is stored in
`ctl->error` and `-EFAULT` is returned, and otherwise the command returns 0,
`val_int` is the number `n` of records the catalog returned, which are the
first `n` records of the buffer, and `val_u64` is `INVALID_LSID` when `n = 0`
and the lsid of the last returned record plus one (as a `u64`; without wrap
when `INVALID_LSID` is `2 ^ 64 - 1`) when `n > 0`. -/
theorem C26_list_snapshot_range (snap : snapshot_layer) (lsid0 lsid1 : Nat)
    (wdev : walb_dev) (ctl : walb_ctl) (srec : List walb_snapshot_record)
    (hcmd : ctl.command = WALB_IOCTL_LIST_SNAPSHOT_RANGE)
    (hbuf : ctl.k2u.kbuf = some srec)
    (hvalid : ∀ rec ∈ wdev.snapd, rec.lsid ≠ snap.INVALID_LSID)
    (hu64 : ∀ rec ∈ wdev.snapd, rec.lsid < 2 ^ 64) :
    (ctl.k2u.buf_size / snap.sizeof_record = 0 →
      ioctl_wdev_list_snapshot_range snap (some (lsid0, lsid1)) wdev ctl =
        some (-EFAULT, ctl)) ∧
    (1 ≤ ctl.k2u.buf_size / snap.sizeof_record →
      (snap.list_error < 0 →
        ioctl_wdev_list_snapshot_range snap (some (lsid0, lsid1)) wdev ctl =
          some (-EFAULT, { ctl with error := snap.list_error })) ∧
      (¬ snap.list_error < 0 →
        ∃ ctl', ioctl_wdev_list_snapshot_range snap (some (lsid0, lsid1)) wdev ctl =
            some (0, ctl') ∧
          ctl'.val_int = (snapshot_list_range snap.list_error wdev.snapd
            (ctl.k2u.buf_size / snap.sizeof_record) lsid0 lsid1).1 ∧
          ctl'.val_int = Int.ofNat (snapshot_list_range snap.list_error wdev.snapd
            (ctl.k2u.buf_size / snap.sizeof_record) lsid0 lsid1).2.length ∧
          ctl'.k2u.kbuf = some
            ((snapshot_list_range snap.list_error wdev.snapd
                (ctl.k2u.buf_size / snap.sizeof_record) lsid0 lsid1).2 ++
              srec.drop (snapshot_list_range snap.list_error wdev.snapd
                (ctl.k2u.buf_size / snap.sizeof_record) lsid0 lsid1).2.length) ∧
          ctl'.error = ctl.error ∧
          ((snapshot_list_range snap.list_error wdev.snapd
              (ctl.k2u.buf_size / snap.sizeof_record) lsid0 lsid1).2 = [] →
            ctl'.val_u64 = snap.INVALID_LSID) ∧
          (∀ last, (snapshot_list_range snap.list_error wdev.snapd
              (ctl.k2u.buf_size / snap.sizeof_record) lsid0 lsid1).2.getLast? = some last →
            ctl'.val_u64 = (last.lsid + 1) % 2 ^ 64 ∧
            (snap.INVALID_LSID = 2 ^ 64 - 1 → ctl'.val_u64 = last.lsid + 1)))) := by
  refine ⟨?_, ?_⟩
  · intro hsize
    simp only [ioctl_wdev_list_snapshot_range, hcmd, ne_eq, not_true_eq_false, if_false,
      hsize, if_true]
  · intro hsize
    have hsize0 : ¬ ctl.k2u.buf_size / snap.sizeof_record = 0 := by omega
    refine ⟨?_, ?_⟩
    · intro herr
      have h1 : (snapshot_list_range snap.list_error wdev.snapd
          (ctl.k2u.buf_size / snap.sizeof_record) lsid0 lsid1).1 = snap.list_error := by
        simp only [snapshot_list_range, if_pos herr]
      simp only [ioctl_wdev_list_snapshot_range, hcmd, ne_eq, not_true_eq_false, if_false,
        hsize0, h1, herr, if_true]
    · intro herr
      have h1 := snapshot_list_range_ok snap.list_error wdev.snapd
        (ctl.k2u.buf_size / snap.sizeof_record) lsid0 lsid1 herr
      have hmem := snapshot_list_range_mem snap.list_error wdev.snapd
        (ctl.k2u.buf_size / snap.sizeof_record) lsid0 lsid1
      unfold ioctl_wdev_list_snapshot_range
      simp only [hcmd, ne_eq, not_true_eq_false, if_false, hsize0, hbuf]
      generalize snapshot_list_range snap.list_error wdev.snapd
        (ctl.k2u.buf_size / snap.sizeof_record) lsid0 lsid1 = listed at h1 hmem ⊢
      obtain ⟨n, found⟩ := listed
      simp only at h1 hmem
      subst h1
      have hn0 : ¬ Int.ofNat found.length < 0 := by
        simp
      rcases hlast : found.getLast? with _ | last
      · have hnil : found = [] := List.getLast?_eq_none_iff.mp hlast
        subst hnil
        refine ⟨{ ctl with val_int := Int.ofNat 0, val_u64 := snap.INVALID_LSID },
          ?_, rfl, rfl, ?_, rfl, fun _ => rfl, ?_⟩
        · simp [hcmd]
        · simp [hbuf]
        · intro last h
          simp at h
      · have hne : found ≠ [] := by
          intro h0
          simp [h0] at hlast
        have hpos : Int.ofNat found.length > 0 := by
          have := List.length_pos.mpr hne
          simp only [Int.ofNat_eq_coe, gt_iff_lt, Int.natCast_pos]
          exact this
        have hidx : (Int.ofNat found.length - 1).toNat = found.length - 1 := by
          simp only [Int.ofNat_eq_coe]
          omega
        have hget := get?_append_drop_last found (srec.drop found.length) last hlast
        have hin : last ∈ wdev.snapd := (hmem last (List.mem_of_getLast?_eq_some hlast)).1
        have hv := hvalid last hin
        have hu := hu64 last hin
        refine ⟨{ ctl with
            val_int := Int.ofNat found.length
            val_u64 := (last.lsid + 1) % 2 ^ 64
            k2u := { ctl.k2u with kbuf := some (found ++ srec.drop found.length) } },
          ?_, rfl, rfl, rfl, rfl, fun h0 => absurd h0 hne, ?_⟩
        · simp only [hn0, hpos, if_true, if_false, hidx, hget, hv, hcmd]
        · intro last' h'
          obtain rfl : last = last' := by
            simpa using h'
          refine ⟨rfl, fun hinv => ?_⟩
          rw [hinv] at hv
          show (last.lsid + 1) % 2 ^ 64 = last.lsid + 1
          apply Nat.mod_eq_of_lt
          omega

/-- C26, witness: listing the range `[0, 1000)` of the catalog of `wdev_snaps`
(lsids 300, 100, 200) into a buffer of two records returns 0 with
`val_int = 2` and the resume lsid 201. -/
theorem C26_list_snapshot_range_witness :
    ∃ ctl', ioctl_wdev_list_snapshot_range snap_ex (some (0, 1000)) wdev_snaps
        (ctl_snapshot WALB_IOCTL_LIST_SNAPSHOT_RANGE 2) = some (0, ctl') ∧
      ctl'.val_int = 2 ∧ ctl'.val_u64 = 201 := by
  obtain ⟨ctl', h, -, hn, -, -, -, hlast⟩ :=
    ((C26_list_snapshot_range snap_ex 0 1000 wdev_snaps
      (ctl_snapshot WALB_IOCTL_LIST_SNAPSHOT_RANGE 2) _ rfl rfl
      (by decide) (by decide)).2 (by decide)).2 (by decide)
  exact ⟨ctl', h, hn,
    (hlast { lsid := 200, timestamp := 2, snapshot_id := 2, name := [98] } rfl).2 rfl⟩

/-! ## Registry invariant and removal: claims C27 and C28 -/

theorem alldevs_init_eq_zero (created : create_outcomes) (reg reg0 : alldevs)
    (h : alldevs_init created reg = some (0, reg0)) :
    reg0 = { is_available_ := 1, all_wdevs_ := [], htbl_minor_ := [], htbl_name_ := [],
             htbl_uuid_ := [] } := by
  obtain ⟨n, u, m⟩ := created
  unfold alldevs_init hashtbl_create CHECK_START at h
  cases n <;> cases u <;> cases m <;> simp [ENOMEM] at h
  obtain ⟨h1, h2⟩ := h
  rw [← h2]
  simp [h1]

theorem alldevs_add_of_failure (cfg : build_config) (gfp : gfp_outcomes)
    (reg : alldevs) (ptr : Nat) (wdev : walb_dev) (r : Int) (reg' : alldevs)
    (h : alldevs_add cfg gfp reg ptr wdev = some (r, reg')) (hr : r ≠ 0) :
    reg' = reg := by
  unfold alldevs_add at h
  by_cases hav : reg.is_available_ = 1
  · simp only [CHECK_RUNNING, hav, ne_eq, not_true_eq_false, if_false, Option.some_bind,
      Option.bind_eq_bind] at h
    by_cases h0 : (hashtbl_add gfp.minor_ok reg.htbl_minor_ (MINOR wdev.devt) ptr).1 = 0
    · rw [if_neg (not_not.mpr h0)] at h
      have d0 := hashtbl_add_then_del _ _ _ _ h0
      by_cases h1 : (hashtbl_add gfp.name_ok reg.htbl_name_
          (wdev.lsuper0.name.take (get_wdev_name_len cfg wdev)) ptr).1 = 0
      · rw [if_neg (not_not.mpr h1)] at h
        have d1 := hashtbl_add_then_del _ _ _ _ h1
        by_cases h2 : (hashtbl_add gfp.uuid_ok reg.htbl_uuid_
            (wdev.lsuper0.uuid.take 16) ptr).1 = 0
        · rw [if_neg (not_not.mpr h2)] at h
          simp only [Option.some.injEq, Prod.mk.injEq] at h
          exact absurd h.1.symm hr
        · rw [if_pos h2] at h
          have e2 := hashtbl_add_of_ne_zero _ _ _ _ h2
          simp only [Option.some.injEq, Prod.mk.injEq] at h
          rw [← h.2]
          simp only [d0, d1, e2]
          cases reg
          simp only at hav
          subst hav
          rfl
      · rw [if_pos h1] at h
        have e1 := hashtbl_add_of_ne_zero _ _ _ _ h1
        simp only [Option.some.injEq, Prod.mk.injEq] at h
        rw [← h.2]
        simp only [d0, e1]
        cases reg
        simp only at hav
        subst hav
        rfl
    · rw [if_pos h0] at h
      have e0 := hashtbl_add_of_ne_zero _ _ _ _ h0
      simp only [Option.some.injEq, Prod.mk.injEq] at h
      rw [← h.2]
      simp only [e0]
      cases reg
      simp only at hav
      subst hav
      rfl
  · simp [CHECK_RUNNING, hav] at h

theorem alldevs_add_returns (cfg : build_config) (gfp : gfp_outcomes)
    (reg : alldevs) (ptr : Nat) (wdev : walb_dev) (hrun : reg.is_available_ = 1) :
    ∃ r reg', alldevs_add cfg gfp reg ptr wdev = some (r, reg') := by
  unfold alldevs_add
  simp only [CHECK_RUNNING, hrun, ne_eq, not_true_eq_false, if_false, Option.some_bind,
    Option.bind_eq_bind]
  split_ifs <;> exact ⟨_, _, rfl⟩

theorem hashtbl_lookup_none_keys {κ : Type} [DecidableEq κ] (htbl : hash_tbl κ) (key : κ)
    (h : hashtbl_lookup htbl key = none) : key ∉ htbl.map Prod.fst := by
  unfold hashtbl_lookup at h
  simp only [Option.map_eq_none', List.find?_eq_none, decide_eq_true_eq] at h
  intro hmem
  obtain ⟨c, hc, e⟩ := List.mem_map.mp hmem
  exact h c hc e

theorem htbl_indexes_congr {κ : Type} [DecidableEq κ] (htbl : hash_tbl κ) (devs : List Nat)
    (key key' : Nat → κ) (hkey : ∀ v ∈ devs, key' v = key v)
    (h : htbl_indexes htbl devs key) : htbl_indexes htbl devs key' := by
  obtain ⟨h1, h2, h3⟩ := h
  refine ⟨h1, ?_, ?_⟩
  · intro c hc
    obtain ⟨a, b⟩ := h2 c hc
    exact ⟨a, by rw [hkey _ a]; exact b⟩
  · intro v hv
    rw [hkey v hv]
    exact h3 v hv

theorem htbl_indexes_cons {κ : Type} [DecidableEq κ] (htbl : hash_tbl κ) (devs : List Nat)
    (key : Nat → κ) (ptr : Nat) (h : htbl_indexes htbl devs key)
    (hfree : hashtbl_lookup htbl (key ptr) = none) :
    htbl_indexes ((key ptr, ptr) :: htbl) (devs ++ [ptr]) key := by
  obtain ⟨h1, h2, h3⟩ := h
  refine ⟨?_, ?_, ?_⟩
  · rw [List.map_cons, List.nodup_cons]
    exact ⟨hashtbl_lookup_none_keys htbl _ hfree, h1⟩
  · intro c hc
    rcases List.mem_cons.mp hc with e | hc
    · subst e
      exact ⟨List.mem_append_right _ (List.mem_singleton_self _), rfl⟩
    · obtain ⟨a, b⟩ := h2 c hc
      exact ⟨List.mem_append_left _ a, b⟩
  · intro v hv
    rcases List.mem_append.mp hv with hv | hv
    · exact List.mem_cons_of_mem _ (h3 v hv)
    · rw [List.mem_singleton.mp hv]
      exact List.mem_cons_self _ _

theorem htbl_indexes_length {κ : Type} [DecidableEq κ] (htbl : hash_tbl κ) (devs : List Nat)
    (key : Nat → κ) (h : htbl_indexes htbl devs key) (hnd : devs.Nodup) :
    htbl.length = devs.length := by
  obtain ⟨h1, h2, h3⟩ := h
  have hperm : htbl.Perm (devs.map fun v => (key v, v)) := by
    rw [List.perm_ext_iff_of_nodup (List.Nodup.of_map _ h1)
      (hnd.map fun a b e => (Prod.mk.inj e).2)]
    intro c
    constructor
    · intro hc
      obtain ⟨a, b⟩ := h2 c hc
      exact List.mem_map.mpr ⟨c.2, a, by rw [← b]⟩
    · intro hc
      obtain ⟨v, hv, e⟩ := List.mem_map.mp hc
      rw [← e]
      exact h3 v hv
  rw [hperm.length_eq, List.length_map]

theorem registry_consistent_lengths (cfg : build_config) (mem : Nat → walb_dev)
    (reg : alldevs) (hc : registry_consistent cfg mem reg) :
    reg.htbl_minor_.length = reg.all_wdevs_.length ∧
    reg.htbl_name_.length = reg.all_wdevs_.length ∧
    reg.htbl_uuid_.length = reg.all_wdevs_.length :=
  ⟨htbl_indexes_length _ _ _ hc.2.2.2.1 hc.2.1, htbl_indexes_length _ _ _ hc.2.2.2.2.1 hc.2.1,
    htbl_indexes_length _ _ _ hc.2.2.2.2.2 hc.2.1⟩

theorem registry_consistent_congr (cfg : build_config) (mem mem' : Nat → walb_dev)
    (reg : alldevs) (hmem : ∀ v ∈ reg.all_wdevs_, mem' v = mem v)
    (hc : registry_consistent cfg mem reg) : registry_consistent cfg mem' reg := by
  obtain ⟨hrun, hnd, h0, hm, hn, hu⟩ := hc
  refine ⟨hrun, hnd, h0, ?_, ?_, ?_⟩
  · exact htbl_indexes_congr _ _ _ _ (fun v hv => by simp only [hmem v hv]) hm
  · exact htbl_indexes_congr _ _ _ _ (fun v hv => by simp only [hmem v hv]) hn
  · exact htbl_indexes_congr _ _ _ _ (fun v hv => by simp only [hmem v hv]) hu

theorem alldevs_add_consistent (cfg : build_config) (gfp : gfp_outcomes)
    (mem : Nat → walb_dev) (reg : alldevs) (ptr : Nat) (wdev : walb_dev)
    (hc : registry_consistent cfg mem reg) (hptr : ptr ≠ 0)
    (hnew : ptr ∉ reg.all_wdevs_ ∨ wdev = mem ptr) :
    ∃ r reg', alldevs_add cfg gfp reg ptr wdev = some (r, reg') ∧
      registry_consistent cfg (fun p => if p = ptr then wdev else mem p) reg' := by
  obtain ⟨r, reg', h⟩ := alldevs_add_returns cfg gfp reg ptr wdev hc.1
  refine ⟨r, reg', h, ?_⟩
  have hmem : ∀ v ∈ reg.all_wdevs_, (fun p => if p = ptr then wdev else mem p) v = mem v := by
    intro v hv
    by_cases e : v = ptr
    · rcases hnew with hn | hn
      · exact absurd (e ▸ hv) hn
      · simp only [e, if_true, hn]
    · simp only [e, if_false]
  have hc' := registry_consistent_congr cfg mem _ reg hmem hc
  by_cases hr : r = 0
  · subst hr
    obtain ⟨-, f0, f1, f2, e⟩ := alldevs_add_eq_zero cfg gfp reg ptr wdev reg' h
    have hfresh : ptr ∉ reg.all_wdevs_ := by
      intro hin
      rcases hnew with hn | hn
      · exact hn hin
      · have := hashtbl_lookup_of_mem _ _ _ hc.2.2.2.1.1 (hc.2.2.2.1.2.2 ptr hin)
        simp only [← hn] at this
        rw [f0] at this
        cases this
    obtain ⟨hrun, hnd, h0, hm, hn, hu⟩ := hc'
    have hk : (fun p => if p = ptr then wdev else mem p) ptr = wdev := by
      simp
    rw [e]
    refine ⟨hrun, ?_, ?_, ?_, ?_, ?_⟩
    · simp only
      rw [List.nodup_append]
      refine ⟨hnd, List.nodup_singleton _, ?_⟩
      intro a ha hb
      rw [List.mem_singleton.mp hb] at ha
      exact hfresh ha
    · simp only [List.mem_append, List.mem_singleton, not_or]
      exact ⟨h0, fun e0 => hptr e0.symm⟩
    · have := htbl_indexes_cons _ _ _ ptr hm (by simp only [hk]; exact f0)
      simp only [hk] at this
      exact this
    · have := htbl_indexes_cons _ _ _ ptr hn (by simp only [hk]; exact f1)
      simp only [hk] at this
      exact this
    · have := htbl_indexes_cons _ _ _ ptr hu (by simp only [hk]; exact f2)
      simp only [hk] at this
      exact this
  · rw [alldevs_add_of_failure cfg gfp reg ptr wdev r reg' h hr]
    exact hc'

theorem registry_step_consistent (cfg : build_config) (s : registry_state)
    (hc : registry_consistent cfg s.mem s.reg) (op : registry_op)
    (hop : registry_op_allowed s op = true) :
    ∃ s', registry_step cfg s op = some s' ∧ registry_consistent cfg s'.mem s'.reg := by
  cases op with
  | add gfp ptr wdev =>
    simp only [registry_op_allowed, Bool.and_eq_true, Bool.or_eq_true, decide_eq_true_eq] at hop
    obtain ⟨r, reg', h, hc'⟩ := alldevs_add_consistent cfg gfp s.mem s.reg ptr wdev hc hop.1 hop.2
    exact ⟨{ reg := reg', mem := fun p => if p = ptr then wdev else s.mem p },
      by simp only [registry_step, h, Option.map_some'], hc'⟩
  | del ptr =>
    simp only [registry_op_allowed, decide_eq_true_eq] at hop
    obtain ⟨reg', h, -, hc', -⟩ := alldevs_del_consistent cfg s.mem s.reg hc ptr hop
    exact ⟨{ s with reg := reg' }, by simp only [registry_step, h, Option.map_some'], hc'⟩
  | pop =>
    cases hl : s.reg.all_wdevs_ with
    | nil =>
      refine ⟨s, ?_, hc⟩
      simp [registry_step, alldevs_pop, CHECK_RUNNING, hc.1, hl]
    | cons p rest =>
      obtain ⟨reg', h, -, hc', -⟩ := alldevs_pop_consistent cfg s.mem s.reg hc p rest hl
      exact ⟨{ s with reg := reg' }, by simp only [registry_step, h, Option.map_some'], hc'⟩

theorem registry_run_consistent (cfg : build_config) :
    ∀ (ops : List registry_op) (s s' : registry_state),
      registry_consistent cfg s.mem s.reg → registry_run cfg ops s = some s' →
      registry_consistent cfg s'.mem s'.reg := by
  intro ops
  induction ops with
  | nil =>
    intro s s' hc h
    simp only [registry_run, Option.some.injEq] at h
    rw [← h]
    exact hc
  | cons op ops ih =>
    intro s s' hc h
    simp only [registry_run] at h
    by_cases hop : registry_op_allowed s op = true
    · rw [if_pos hop] at h
      obtain ⟨s1, h1, hc1⟩ := registry_step_consistent cfg s hc op hop
      rw [h1] at h
      exact ih s1 s' hc1 h
    · rw [if_neg hop] at h
      cases h

theorem registry_run_returns (cfg : build_config) :
    ∀ (ops : List registry_op) (s : registry_state),
      registry_consistent cfg s.mem s.reg →
      registry_run cfg ops s = none →
      ∃ done op rest s1, ops = done ++ op :: rest ∧ registry_run cfg done s = some s1 ∧
        registry_op_allowed s1 op = false := by
  intro ops
  induction ops with
  | nil =>
    intro s hc h
    simp [registry_run] at h
  | cons op ops ih =>
    intro s hc h
    by_cases hop : registry_op_allowed s op = true
    · obtain ⟨s1, h1, hc1⟩ := registry_step_consistent cfg s hc op hop
      simp only [registry_run, if_pos hop, h1, Option.some_bind, Option.bind_eq_bind] at h
      obtain ⟨done, op', rest, s2, e, hrun, hno⟩ := ih s1 hc1 h
      refine ⟨op :: done, op', rest, s2, by rw [e]; rfl, ?_, hno⟩
      simp only [registry_run, if_pos hop, h1, Option.some_bind, Option.bind_eq_bind, hrun]
    · exact ⟨[], op, ops, s, rfl, rfl, by simpa using hop⟩

/-- C27.  Registry consistency is an invariant: in every state reached from
the registry left by a successful `alldevs_init` by a sequence of
`alldevs_add`, `alldevs_del` and `alldevs_pop` calls (add of a non-`NULL`
device that is not registered, or is registered with unchanged contents; del
of registered devices only), the registry is consistent, that is, each of the
minor, name and uuid index holds exactly one cell per device of the list and
no other cell, mapping the minor, name and uuid of that device to it; the
three indices and the list have the same number of entries; every further
such call returns (no `BUG()`) and leaves a consistent registry; and a
sequence of calls stops short only at a call that is not allowed. -/
theorem C27_registry_consistency (cfg : build_config) (created : create_outcomes)
    (reg_pre reg0 : alldevs) (mem0 : Nat → walb_dev) (ops : List registry_op)
    (s : registry_state)
    (hinit : alldevs_init created reg_pre = some (0, reg0))
    (hrun : registry_run cfg ops { reg := reg0, mem := mem0 } = some s) :
    registry_consistent cfg s.mem s.reg ∧
    (s.reg.htbl_minor_.length = s.reg.all_wdevs_.length ∧
      s.reg.htbl_name_.length = s.reg.all_wdevs_.length ∧
      s.reg.htbl_uuid_.length = s.reg.all_wdevs_.length) ∧
    (∀ op, registry_op_allowed s op = true →
      ∃ s', registry_step cfg s op = some s' ∧ registry_consistent cfg s'.mem s'.reg) ∧
    (∀ ops', registry_run cfg ops' { reg := reg0, mem := mem0 } = none →
      ∃ done op rest s1, ops' = done ++ op :: rest ∧
        registry_run cfg done { reg := reg0, mem := mem0 } = some s1 ∧
        registry_op_allowed s1 op = false) := by
  have h0 : registry_consistent cfg mem0 reg0 := by
    rw [alldevs_init_eq_zero created reg_pre reg0 hinit]
    refine ⟨rfl, List.nodup_nil, List.not_mem_nil _, ?_, ?_, ?_⟩ <;>
      exact ⟨List.nodup_nil, fun c hc => absurd hc (List.not_mem_nil _),
        fun v hv => absurd hv (List.not_mem_nil _)⟩
  have hc := registry_run_consistent cfg ops { reg := reg0, mem := mem0 } s h0 hrun
  exact ⟨hc, registry_consistent_lengths cfg s.mem s.reg hc,
    fun op hop => registry_step_consistent cfg s hc op hop,
    fun ops' h => registry_run_returns cfg ops' { reg := reg0, mem := mem0 } h0 h⟩

/-- C27, witness: from the registry left by `alldevs_init`, the calls of
`ops_ex` (two successful adds, a refused add, a del) lead to a consistent
registry that holds the device at address 2 only, with one cell in each
index. -/
theorem C27_registry_consistency_witness :
    ∃ s, registry_run cfg_fast ops_ex
        { reg := { is_available_ := 1, all_wdevs_ := [], htbl_minor_ := [], htbl_name_ := [],
                   htbl_uuid_ := [] },
          mem := fun _ => wdev_ex } = some s ∧
      s.reg.all_wdevs_ = [2] ∧
      registry_consistent cfg_fast s.mem s.reg ∧
      s.reg.htbl_minor_.length = s.reg.all_wdevs_.length ∧
      s.reg.htbl_name_.length = s.reg.all_wdevs_.length ∧
      s.reg.htbl_uuid_.length = s.reg.all_wdevs_.length := by
  refine ⟨_, rfl, rfl, ?_⟩
  have h := C27_registry_consistency cfg_fast create_ok alldevs_loaded _ (fun _ => wdev_ex)
    ops_ex _ rfl rfl
  exact ⟨h.1, h.2.1⟩

/-- C28.  For a consistent registry and a device registered in it (its minor,
name and uuid being those it was registered with), each of the three removals
of `alldevs_del` returns that very device, so that `alldevs_del` returns
without `BUG()`; afterwards the device is off the list, the lookups by its
minor, its name and its uuid return no device, and the lookups by the minor,
name and uuid of every other registered device return that device, as they
did before. -/
theorem C28_alldevs_del (cfg : build_config) (mem : Nat → walb_dev) (reg : alldevs)
    (p : Nat) (hc : registry_consistent cfg mem reg) (hp : p ∈ reg.all_wdevs_) :
    (hashtbl_del reg.htbl_uuid_ ((mem p).lsuper0.uuid.take 16)).1 = some p ∧
    (hashtbl_del reg.htbl_name_
      ((mem p).lsuper0.name.take (get_wdev_name_len cfg (mem p)))).1 = some p ∧
    (hashtbl_del reg.htbl_minor_ (MINOR (mem p).devt)).1 = some p ∧
    ∃ reg', alldevs_del cfg reg p (mem p) = some reg' ∧
      reg'.all_wdevs_ = reg.all_wdevs_.erase p ∧
      search_wdev_with_minor reg' (MINOR (mem p).devt) = some none ∧
      search_wdev_with_name cfg reg' (mem p).lsuper0.name = some none ∧
      search_wdev_with_uuid reg' (mem p).lsuper0.uuid = some none ∧
      ∀ q ∈ reg.all_wdevs_, q ≠ p →
        (search_wdev_with_minor reg' (MINOR (mem q).devt) = some (some q) ∧
          search_wdev_with_minor reg (MINOR (mem q).devt) = some (some q)) ∧
        (search_wdev_with_name cfg reg' (mem q).lsuper0.name = some (some q) ∧
          search_wdev_with_name cfg reg (mem q).lsuper0.name = some (some q)) ∧
        (search_wdev_with_uuid reg' (mem q).lsuper0.uuid = some (some q) ∧
          search_wdev_with_uuid reg (mem q).lsuper0.uuid = some (some q)) := by
  have hm := (htbl_indexes_del _ _ _ p hc.2.2.2.1 hc.2.1 hp).1
  have hn := (htbl_indexes_del _ _ _ p hc.2.2.2.2.1 hc.2.1 hp).1
  have hu := (htbl_indexes_del _ _ _ p hc.2.2.2.2.2 hc.2.1 hp).1
  simp only [wdev_minor_key, wdev_name_key, wdev_uuid_key] at hm hn hu
  obtain ⟨reg', h1, h2, h3, h4, h5, h6⟩ := alldevs_del_consistent cfg mem reg hc p hp
  refine ⟨hu, hn, hm, reg', h1, h2, h4, h5, h6, ?_⟩
  intro q hq hqp
  have hq' : q ∈ reg'.all_wdevs_ := by
    rw [h2, hc.2.1.mem_erase_iff]
    exact ⟨hqp, hq⟩
  obtain ⟨a1, a2, a3⟩ := search_of_consistent cfg mem reg' h3 q hq'
  obtain ⟨b1, b2, b3⟩ := search_of_consistent cfg mem reg hc q hq
  exact ⟨⟨a1, b1⟩, ⟨a2, b2⟩, ⟨a3, b3⟩⟩

/-- C28, witness: unregistering the device at address 1 from `reg_two` returns
a registry in which its minor is not found and the device at address 2 is. -/
theorem C28_alldevs_del_witness :
    ∃ reg', alldevs_del cfg_fast reg_two 1 (mem_ex 1) = some reg' ∧
      reg'.all_wdevs_ = [2] ∧
      search_wdev_with_minor reg' (MINOR (mem_ex 1).devt) = some none ∧
      search_wdev_with_minor reg' (MINOR (mem_ex 2).devt) = some (some 2) := by
  obtain ⟨-, -, -, reg', h1, h2, h3, -, -, h4⟩ :=
    C28_alldevs_del cfg_fast mem_ex reg_two 1 (by decide) (by decide)
  exact ⟨reg', h1, h2, h3, (h4 2 (by decide) (by decide)).1.1⟩

/-! ## Clear-log and the uuid index: claim C29 -/

/-- C29: the code evaluated at the failing input.  `wdev_ex` is registered at
address 1 in the consistent registry `reg_ex`; the superblock sync of its
clear-log fails.  The command returns `-EFAULT` with the new uuid (bytes
16..31) in the superblock image, while the uuid index still holds the device
under the old uuid (bytes 0..15) only: the lookup of the uuid of the image
returns no device, and a later `alldevs_del` of the device fails its first
assertion. -/
theorem C29_clear_log_sync_failure_desyncs_uuid :
    registry_consistent cfg_fast (fun _ => wdev_ex) reg_ex ∧
    ∃ w' reg', ioctl_wdev_clear_log cfg_fast env_sync_fails wdev_ex reg_ex ctl_clear_log
        = some (-EFAULT, w', reg') ∧
      w'.lsuper0.uuid = (List.range 16).map (fun i => i + 16) ∧
      w'.lsuper0.uuid ≠ wdev_ex.lsuper0.uuid ∧
      reg' = reg_ex ∧
      search_wdev_with_uuid reg' w'.lsuper0.uuid = some none ∧
      search_wdev_with_uuid reg' wdev_ex.lsuper0.uuid = some (some 1) ∧
      search_wdev_with_minor reg' (MINOR w'.devt) = some (some 1) ∧
      search_wdev_with_name cfg_fast reg' w'.lsuper0.name = some (some 1) ∧
      alldevs_del cfg_fast reg' 1 w' = none :=
  ⟨by decide, _, _, rfl, rfl, by decide, rfl, rfl, rfl, rfl, rfl, rfl⟩

/-! ## Checksum: claim C30 -/

theorem foldl_add_mod_lt (f : Nat → Nat) (m : Nat) :
    ∀ (l : List Nat) (acc : Nat), acc < m →
      l.foldl (fun sum i => (sum + f i) % m) acc < m := by
  intro l
  induction l with
  | nil => intro acc h; exact h
  | cons i t ih =>
    intro acc h
    exact ih _ (Nat.mod_lt _ (Nat.lt_of_le_of_lt (Nat.zero_le _) h))

theorem foldl_add_mod (f : Nat → Nat) (m : Nat) :
    ∀ (l : List Nat) (acc : Nat),
      l.foldl (fun sum i => (sum + f i) % m) acc % m = (acc + (l.map f).sum) % m := by
  intro l
  induction l with
  | nil => intro acc; simp
  | cons i t ih =>
    intro acc
    rw [List.foldl_cons, ih, List.map_cons, List.sum_cons, Nat.add_mod, Nat.mod_mod,
      ← Nat.add_mod, Nat.add_assoc]

theorem read_u32_shift (b0 b1 b2 b3 : Nat) (rest : List Nat) (i : Nat) :
    read_u32 (b0 :: b1 :: b2 :: b3 :: rest) (4 * (i + 1)) = read_u32 rest (4 * i) := by
  have hget : ∀ j, (b0 :: b1 :: b2 :: b3 :: rest).getD (j + 4) 0 = rest.getD j 0 :=
    fun _ => rfl
  have e0 : 4 * (i + 1) = 4 * i + 4 := by ring
  have e1 : 4 * i + 4 + 1 = 4 * i + 1 + 4 := by ring
  have e2 : 4 * i + 4 + 2 = 4 * i + 2 + 4 := by ring
  have e3 : 4 * i + 4 + 3 = 4 * i + 3 + 4 := by ring
  unfold read_u32
  rw [e0, e1, e2, e3, hget, hget, hget, hget]

theorem read_u32_head (b0 b1 b2 b3 : Nat) (rest : List Nat) :
    read_u32 (b0 :: b1 :: b2 :: b3 :: rest) 0 = read_u32 [b0, b1, b2, b3] 0 := by
  simp [read_u32]

theorem u32_words_take :
    ∀ (k : Nat) (data : List Nat), 4 * k ≤ data.length →
      (List.range k).map (fun i => read_u32 data (4 * i)) = u32_words (data.take (4 * k)) := by
  intro k
  induction k with
  | zero =>
    intro data _
    simp [u32_words]
  | succ k ih =>
    intro data h
    match data, h with
    | b0 :: b1 :: b2 :: b3 :: rest, h =>
      have hrest : 4 * k ≤ rest.length := by
        simp only [List.length_cons] at h
        omega
      have e : 4 * (k + 1) = 4 * k + 1 + 1 + 1 + 1 := by ring
      rw [List.range_succ_eq_map, List.map_cons, List.map_map, e]
      simp only [List.take_succ_cons, u32_words]
      rw [← ih rest hrest, read_u32_head]
      have hshift : ((fun i => read_u32 (b0 :: b1 :: b2 :: b3 :: rest) (4 * i)) ∘ Nat.succ) =
          fun i => read_u32 rest (4 * i) := by
        funext i
        exact read_u32_shift b0 b1 b2 b3 rest i
      rw [hshift]
    | [], h => simp at h
    | [_], h => simp at h; omega
    | [_, _], h => simp at h; omega
    | [_, _, _], h => simp at h; omega

theorem u32_words_append :
    ∀ (k : Nat) (a b : List Nat), a.length = 4 * k →
      u32_words (a ++ b) = u32_words a ++ u32_words b := by
  intro k
  induction k with
  | zero =>
    intro a b h
    have : a = [] := List.length_eq_zero.mp (by omega)
    subst this
    simp [u32_words]
  | succ k ih =>
    intro a b h
    match a, h with
    | b0 :: b1 :: b2 :: b3 :: rest, h =>
      have hrest : rest.length = 4 * k := by
        simp only [List.length_cons] at h
        omega
      simp only [List.cons_append, u32_words, List.append_eq, ih rest b hrest]
    | [], h => simp at h
    | [_], h => simp at h; omega
    | [_, _], h => simp at h; omega
    | [_, _, _], h => simp at h; omega

theorem checksum_of_size (data : List Nat) (size : Nat) (h4 : size % 4 = 0)
    (hint : size < 2 ^ 31) (hlen : size ≤ data.length) :
    checksum data (size : Int) = some (checksum_spec (data.take size)) := by
  have husize : ((size : Int) % 2 ^ 64).toNat = size := by
    omega
  have hn : size / 4 % 2 ^ 32 = size / 4 := by
    omega
  have hk : 4 * (size / 4) = size := by
    omega
  unfold checksum checksum_spec
  simp only [husize, hn, h4, ne_eq, not_true_eq_false, if_false, Option.some.injEq]
  have h1 := foldl_add_mod (fun i => read_u32 data (4 * i)) (2 ^ 32) (List.range (size / 4)) 0
  have h2 := foldl_add_mod_lt (fun i => read_u32 data (4 * i)) (2 ^ 32)
    (List.range (size / 4)) 0 (by norm_num)
  rw [Nat.mod_eq_of_lt h2, Nat.zero_add, u32_words_take (size / 4) data (by omega), hk] at h1
  exact h1

/-- C30.  For buffers `a` and `b` whose sizes are multiples of 4 (and fit an
`int`): `checksum` of a buffer and its size is the sum modulo `2 ^ 32` of its
size / 4 consecutive little-endian 32-bit words, also when only the first
`size` bytes of a longer buffer are summed; `checksum` of the empty buffer is
0; and `checksum` of `a ++ b` is the sum modulo `2 ^ 32` of the checksums of
`a` and `b`. -/
theorem C30_checksum (a b : List Nat) (ha : a.length % 4 = 0) (hb : b.length % 4 = 0)
    (hlen : a.length + b.length < 2 ^ 31) :
    checksum a (a.length : Int) = some (checksum_spec a) ∧
    checksum b (b.length : Int) = some (checksum_spec b) ∧
    (∀ size : Nat, size % 4 = 0 → size ≤ a.length →
      checksum a (size : Int) = some (checksum_spec (a.take size))) ∧
    checksum [] 0 = some 0 ∧
    checksum (a ++ b) ((a ++ b).length : Int) =
      some ((checksum_spec a + checksum_spec b) % 2 ^ 32) := by
  have hk : a.length = 4 * (a.length / 4) := by omega
  refine ⟨?_, ?_, ?_, rfl, ?_⟩
  · have h := checksum_of_size a a.length ha (by omega) (Nat.le_refl _)
    rw [List.take_length] at h
    exact h
  · have h := checksum_of_size b b.length hb (by omega) (Nat.le_refl _)
    rw [List.take_length] at h
    exact h
  · intro size h4 hle
    exact checksum_of_size a size h4 (by omega) hle
  · have h := checksum_of_size (a ++ b) (a ++ b).length
      (by rw [List.length_append]; omega) (by rw [List.length_append]; omega) (Nat.le_refl _)
    rw [List.take_length] at h
    rw [h]
    unfold checksum_spec
    rw [u32_words_append (a.length / 4) a b hk, List.sum_append, ← Nat.add_mod]

/-- C30, witness: the buffers with words 1, 2 and with word `2 ^ 32 - 1` have
checksums 3 and `2 ^ 32 - 1`, and their concatenation has checksum 2, the sum
modulo `2 ^ 32`. -/
theorem C30_checksum_witness :
    checksum [1, 0, 0, 0, 2, 0, 0, 0] 8 = some 3 ∧
    checksum [255, 255, 255, 255] 4 = some (2 ^ 32 - 1) ∧
    checksum [1, 0, 0, 0, 2, 0, 0, 0, 255, 255, 255, 255] 12 = some 2 :=
  ⟨(C30_checksum [1, 0, 0, 0, 2, 0, 0, 0] [255, 255, 255, 255] rfl rfl (by decide)).1,
    (C30_checksum [1, 0, 0, 0, 2, 0, 0, 0] [255, 255, 255, 255] rfl rfl (by decide)).2.1,
    (C30_checksum [1, 0, 0, 0, 2, 0, 0, 0] [255, 255, 255, 255] rfl rfl (by decide)).2.2.2.2⟩

end Walb
